import Mathlib

/-!
# Device routing of the msm8974 audio HAL (`hal/msm8974/platform.c`)

A shallow embedding of the routing resolver of `platform.c`:
`platform_get_output_snd_device` and `platform_get_input_snd_device`,
together with the state they read and write, of the calibration calls
(`platform_send_audio_calibration`, `platform_switch_voice_call_device_post`),
of the codec backend configuration (`platform_check_codec_backend_cfg`,
`platform_set_codec_backend_cfg`, `platform_check_and_set_codec_backend_cfg`),
of the offload buffer sizes, of the table accessors and of `platform_init`.

* Device masks (`audio_devices_t`) and channel masks are 32-bit words, held
  as `Nat`; `&`, `|` are `&&&`, `|||`, and `~x` is `0xFFFFFFFF - x`.
* `audio_mode_t`, `audio_source_t`, `tty_mode` and `dualmic_config` are C
  integers, held as `Int` and compared with the named constants.
* The flags and enumerators of `system/audio.h` and `audio_hw.h` are not
  defined in `platform.c`; the spec describes the device masks as sets of
  one-bit flags and the modes as enumerations. They are given the values of
  the Android headers. The proofs use that the output flags are distinct
  single bits, that every input flag carries `AUDIO_DEVICE_BIT_IN`, and that
  the modes, sources and TTY modes are pairwise different.
* Logging (`ALOGV`, `ALOGE`, ...) has no effect on the state and is left out.
-/

namespace Msm8974

/-! ## Constants of the included headers -/

/-- Modelled from the spec: `AUDIO_DEVICE_NONE` of `system/audio.h`. -/
def AUDIO_DEVICE_NONE : Nat := 0x0
/-- Modelled from the spec: `AUDIO_DEVICE_BIT_IN` of `system/audio.h`, the mark of an
input device mask. -/
def AUDIO_DEVICE_BIT_IN : Nat := 0x80000000
/-- Modelled from the spec: `AUDIO_DEVICE_OUT_EARPIECE` of `system/audio.h`. -/
def AUDIO_DEVICE_OUT_EARPIECE : Nat := 0x1
/-- Modelled from the spec: `AUDIO_DEVICE_OUT_SPEAKER` of `system/audio.h`. -/
def AUDIO_DEVICE_OUT_SPEAKER : Nat := 0x2
/-- Modelled from the spec: `AUDIO_DEVICE_OUT_WIRED_HEADSET` of `system/audio.h`. -/
def AUDIO_DEVICE_OUT_WIRED_HEADSET : Nat := 0x4
/-- Modelled from the spec: `AUDIO_DEVICE_OUT_WIRED_HEADPHONE` of `system/audio.h`. -/
def AUDIO_DEVICE_OUT_WIRED_HEADPHONE : Nat := 0x8
/-- Modelled from the spec: `AUDIO_DEVICE_OUT_BLUETOOTH_SCO` of `system/audio.h`. -/
def AUDIO_DEVICE_OUT_BLUETOOTH_SCO : Nat := 0x10
/-- Modelled from the spec: `AUDIO_DEVICE_OUT_BLUETOOTH_SCO_HEADSET` of `system/audio.h`. -/
def AUDIO_DEVICE_OUT_BLUETOOTH_SCO_HEADSET : Nat := 0x20
/-- Modelled from the spec: `AUDIO_DEVICE_OUT_BLUETOOTH_SCO_CARKIT` of `system/audio.h`. -/
def AUDIO_DEVICE_OUT_BLUETOOTH_SCO_CARKIT : Nat := 0x40
/-- Modelled from the spec: `AUDIO_DEVICE_OUT_AUX_DIGITAL` of `system/audio.h`. -/
def AUDIO_DEVICE_OUT_AUX_DIGITAL : Nat := 0x400
/-- Modelled from the spec: `AUDIO_DEVICE_OUT_ANLG_DOCK_HEADSET` of `system/audio.h`. -/
def AUDIO_DEVICE_OUT_ANLG_DOCK_HEADSET : Nat := 0x800
/-- Modelled from the spec: `AUDIO_DEVICE_OUT_DGTL_DOCK_HEADSET` of `system/audio.h`. -/
def AUDIO_DEVICE_OUT_DGTL_DOCK_HEADSET : Nat := 0x1000
/-- Modelled from the spec: `AUDIO_DEVICE_OUT_PROXY` of `system/audio.h` (vendor extension). -/
def AUDIO_DEVICE_OUT_PROXY : Nat := 0x40000
/-- Modelled from the spec: `AUDIO_DEVICE_OUT_ALL_SCO` of `system/audio.h`: the three SCO bits. -/
def AUDIO_DEVICE_OUT_ALL_SCO : Nat :=
  AUDIO_DEVICE_OUT_BLUETOOTH_SCO ||| AUDIO_DEVICE_OUT_BLUETOOTH_SCO_HEADSET |||
    AUDIO_DEVICE_OUT_BLUETOOTH_SCO_CARKIT

/-- Modelled from the spec: `AUDIO_DEVICE_IN_COMMUNICATION` of `system/audio.h`. -/
def AUDIO_DEVICE_IN_COMMUNICATION : Nat := AUDIO_DEVICE_BIT_IN ||| 0x1
/-- Modelled from the spec: `AUDIO_DEVICE_IN_BUILTIN_MIC` of `system/audio.h`. -/
def AUDIO_DEVICE_IN_BUILTIN_MIC : Nat := AUDIO_DEVICE_BIT_IN ||| 0x4
/-- Modelled from the spec: `AUDIO_DEVICE_IN_BLUETOOTH_SCO_HEADSET` of `system/audio.h`. -/
def AUDIO_DEVICE_IN_BLUETOOTH_SCO_HEADSET : Nat := AUDIO_DEVICE_BIT_IN ||| 0x8
/-- Modelled from the spec: `AUDIO_DEVICE_IN_WIRED_HEADSET` of `system/audio.h`. -/
def AUDIO_DEVICE_IN_WIRED_HEADSET : Nat := AUDIO_DEVICE_BIT_IN ||| 0x10
/-- Modelled from the spec: `AUDIO_DEVICE_IN_AUX_DIGITAL` of `system/audio.h`. -/
def AUDIO_DEVICE_IN_AUX_DIGITAL : Nat := AUDIO_DEVICE_BIT_IN ||| 0x20
/-- Modelled from the spec: `AUDIO_DEVICE_IN_VOICE_CALL` of `system/audio.h`. -/
def AUDIO_DEVICE_IN_VOICE_CALL : Nat := AUDIO_DEVICE_BIT_IN ||| 0x40
/-- Modelled from the spec: `AUDIO_DEVICE_IN_BACK_MIC` of `system/audio.h`. -/
def AUDIO_DEVICE_IN_BACK_MIC : Nat := AUDIO_DEVICE_BIT_IN ||| 0x80
/-- Modelled from the spec: `AUDIO_DEVICE_IN_ANLG_DOCK_HEADSET` of `system/audio.h`. -/
def AUDIO_DEVICE_IN_ANLG_DOCK_HEADSET : Nat := AUDIO_DEVICE_BIT_IN ||| 0x200
/-- Modelled from the spec: `AUDIO_DEVICE_IN_DGTL_DOCK_HEADSET` of `system/audio.h`. -/
def AUDIO_DEVICE_IN_DGTL_DOCK_HEADSET : Nat := AUDIO_DEVICE_BIT_IN ||| 0x400

/-- Modelled from the spec: `AUDIO_CHANNEL_IN_MONO` of `system/audio.h` (the front channel). -/
def AUDIO_CHANNEL_IN_MONO : Nat := 0x10
/-- Modelled from the spec: `AUDIO_CHANNEL_IN_FRONT_BACK` of `system/audio.h` (front and back). -/
def AUDIO_CHANNEL_IN_FRONT_BACK : Nat := 0x10 ||| 0x20

/-- Modelled from the spec: `AUDIO_MODE_NORMAL` of `system/audio.h`. -/
def AUDIO_MODE_NORMAL : Int := 0
/-- Modelled from the spec: `AUDIO_MODE_RINGTONE` of `system/audio.h`. -/
def AUDIO_MODE_RINGTONE : Int := 1
/-- Modelled from the spec: `AUDIO_MODE_IN_CALL` of `system/audio.h`. -/
def AUDIO_MODE_IN_CALL : Int := 2
/-- Modelled from the spec: `AUDIO_MODE_IN_COMMUNICATION` of `system/audio.h`. -/
def AUDIO_MODE_IN_COMMUNICATION : Int := 3

/-- Modelled from the spec: `AUDIO_SOURCE_DEFAULT` of `system/audio.h`. -/
def AUDIO_SOURCE_DEFAULT : Int := 0
/-- Modelled from the spec: `AUDIO_SOURCE_MIC` of `system/audio.h`. -/
def AUDIO_SOURCE_MIC : Int := 1
/-- Modelled from the spec: `AUDIO_SOURCE_CAMCORDER` of `system/audio.h`. -/
def AUDIO_SOURCE_CAMCORDER : Int := 5
/-- Modelled from the spec: `AUDIO_SOURCE_VOICE_RECOGNITION` of `system/audio.h`. -/
def AUDIO_SOURCE_VOICE_RECOGNITION : Int := 6
/-- Modelled from the spec: `AUDIO_SOURCE_VOICE_COMMUNICATION` of `system/audio.h`. -/
def AUDIO_SOURCE_VOICE_COMMUNICATION : Int := 7

/-- Modelled from the spec: `TTY_MODE_OFF` of the HAL header `audio_hw.h`. -/
def TTY_MODE_OFF : Int := 1
/-- Modelled from the spec: `TTY_MODE_FULL` of the HAL header `audio_hw.h`. -/
def TTY_MODE_FULL : Int := 2
/-- Modelled from the spec: `TTY_MODE_VCO` of the HAL header `audio_hw.h`. -/
def TTY_MODE_VCO : Int := 4
/-- Modelled from the spec: `TTY_MODE_HCO` of the HAL header `audio_hw.h`. -/
def TTY_MODE_HCO : Int := 8

/-- `DUALMIC_CONFIG_NONE` (platform.c line 38): no second microphone. -/
def DUALMIC_CONFIG_NONE : Int := 0
/-- `DUALMIC_CONFIG_ENDFIRE` (platform.c line 39). -/
def DUALMIC_CONFIG_ENDFIRE : Int := 1
/-- `DUALMIC_CONFIG_BROADSIDE` (platform.c line 40). -/
def DUALMIC_CONFIG_BROADSIDE : Int := 2

/-! ## Sound devices -/

/-- The sound devices `snd_device_t` (enumerated in `platform.h`): one member
for each index of `device_table` (platform.c lines 118-173), in that order. -/
inductive snd_device_t where
  | SND_DEVICE_NONE
  | SND_DEVICE_OUT_HANDSET
  | SND_DEVICE_OUT_SPEAKER
  | SND_DEVICE_OUT_SPEAKER_REVERSE
  | SND_DEVICE_OUT_HEADPHONES
  | SND_DEVICE_OUT_SPEAKER_AND_HEADPHONES
  | SND_DEVICE_OUT_VOICE_HANDSET
  | SND_DEVICE_OUT_VOICE_SPEAKER
  | SND_DEVICE_OUT_VOICE_HEADPHONES
  | SND_DEVICE_OUT_HDMI
  | SND_DEVICE_OUT_SPEAKER_AND_HDMI
  | SND_DEVICE_OUT_BT_SCO
  | SND_DEVICE_OUT_VOICE_HANDSET_TMUS
  | SND_DEVICE_OUT_VOICE_TTY_FULL_HEADPHONES
  | SND_DEVICE_OUT_VOICE_TTY_VCO_HEADPHONES
  | SND_DEVICE_OUT_VOICE_TTY_HCO_HANDSET
  | SND_DEVICE_OUT_AFE_PROXY
  | SND_DEVICE_OUT_USB_HEADSET
  | SND_DEVICE_OUT_SPEAKER_AND_USB_HEADSET
  | SND_DEVICE_OUT_ANC_HEADSET
  | SND_DEVICE_OUT_ANC_FB_HEADSET
  | SND_DEVICE_OUT_VOICE_ANC_HEADSET
  | SND_DEVICE_OUT_VOICE_ANC_FB_HEADSET
  | SND_DEVICE_OUT_SPEAKER_AND_ANC_HEADSET
  | SND_DEVICE_OUT_ANC_HANDSET
  | SND_DEVICE_IN_HANDSET_MIC
  | SND_DEVICE_IN_SPEAKER_MIC
  | SND_DEVICE_IN_HEADSET_MIC
  | SND_DEVICE_IN_HANDSET_MIC_AEC
  | SND_DEVICE_IN_SPEAKER_MIC_AEC
  | SND_DEVICE_IN_HEADSET_MIC_AEC
  | SND_DEVICE_IN_VOICE_SPEAKER_MIC
  | SND_DEVICE_IN_VOICE_HEADSET_MIC
  | SND_DEVICE_IN_HDMI_MIC
  | SND_DEVICE_IN_BT_SCO_MIC
  | SND_DEVICE_IN_CAMCORDER_MIC
  | SND_DEVICE_IN_VOICE_DMIC_EF
  | SND_DEVICE_IN_VOICE_DMIC_BS
  | SND_DEVICE_IN_VOICE_DMIC_EF_TMUS
  | SND_DEVICE_IN_VOICE_SPEAKER_DMIC_EF
  | SND_DEVICE_IN_VOICE_SPEAKER_DMIC_BS
  | SND_DEVICE_IN_VOICE_TTY_FULL_HEADSET_MIC
  | SND_DEVICE_IN_VOICE_TTY_VCO_HANDSET_MIC
  | SND_DEVICE_IN_VOICE_TTY_HCO_HEADSET_MIC
  | SND_DEVICE_IN_VOICE_REC_MIC
  | SND_DEVICE_IN_VOICE_REC_DMIC_EF
  | SND_DEVICE_IN_VOICE_REC_DMIC_BS
  | SND_DEVICE_IN_VOICE_REC_DMIC_EF_FLUENCE
  | SND_DEVICE_IN_VOICE_REC_DMIC_BS_FLUENCE
  | SND_DEVICE_IN_USB_HEADSET_MIC
  | SND_DEVICE_IN_AANC_HANDSET_MIC
  deriving DecidableEq, Repr

open snd_device_t

/-- Modelled from the spec: the numeric value of a sound device in the
enumeration of `platform.h`, taken as its position in `device_table`
(`SND_DEVICE_NONE` is 0, playback devices come before capture devices). -/
def snd_device_value (d : snd_device_t) : Nat := d.toCtorIdx

/-- Modelled from the spec: `SND_DEVICE_MIN` of `platform.h`, the first device
after `SND_DEVICE_NONE`. -/
def SND_DEVICE_MIN : Nat := 1
/-- Modelled from the spec: `SND_DEVICE_OUT_BEGIN` of `platform.h`, the first
playback device (`SND_DEVICE_OUT_HANDSET`). -/
def SND_DEVICE_OUT_BEGIN : Nat := SND_DEVICE_MIN
/-- Modelled from the spec: `SND_DEVICE_OUT_END` of `platform.h`, one past the
last playback device (`SND_DEVICE_OUT_ANC_HANDSET`). -/
def SND_DEVICE_OUT_END : Nat := 25
/-- Modelled from the spec: `SND_DEVICE_IN_BEGIN` of `platform.h`, the first
capture device (`SND_DEVICE_IN_HANDSET_MIC`). -/
def SND_DEVICE_IN_BEGIN : Nat := SND_DEVICE_OUT_END
/-- Modelled from the spec: `SND_DEVICE_IN_END` of `platform.h`, one past the
last capture device. -/
def SND_DEVICE_IN_END : Nat := 51
/-- Modelled from the spec: `SND_DEVICE_MAX` of `platform.h`, the size of the
device tables. -/
def SND_DEVICE_MAX : Nat := SND_DEVICE_IN_END

/-- Modelled from the spec: `ACDB_DEV_TYPE_OUT` of `platform.h`, the playback
direction of a calibration call. -/
def ACDB_DEV_TYPE_OUT : Int := 1
/-- Modelled from the spec: `ACDB_DEV_TYPE_IN` of `platform.h`, the capture
direction of a calibration call. -/
def ACDB_DEV_TYPE_IN : Int := 2

/-- Modelled from the spec: `CODEC_BACKEND_DEFAULT_BIT_WIDTH` of `platform.h`,
the default backend bit width (16). -/
def CODEC_BACKEND_DEFAULT_BIT_WIDTH : Nat := 16
/-- Modelled from the spec: `CODEC_BACKEND_DEFAULT_SAMPLE_RATE` of `platform.h`,
the default backend sample rate (48000). -/
def CODEC_BACKEND_DEFAULT_SAMPLE_RATE : Nat := 48000

/-- The value `EINVAL` of `errno.h`. -/
def EINVAL : Int := 22

/-- The number of times `platform_init` opens the mixer again
(`RETRY_NUMBER`, platform.c line 73). -/
def RETRY_NUMBER : Nat := 10

/-- Modelled from the spec: `DMIC_FLAG` of `platform.h`, the dual-mic bit of
`adev->acdb_settings`. -/
def DMIC_FLAG : Nat := 0x2

/-! ## State -/

/-- The mixer handle `struct mixer`, seen through the two calls platform.c
makes on it for enumerated controls: `ctl_names` are the controls that
`mixer_get_ctl_by_name` finds, `enum_writes` records the calls of
`mixer_ctl_set_enum_by_string` (control name, value), oldest first. -/
structure mixer where
  ctl_names : List String := []
  enum_writes : List (String × String) := []
  deriving DecidableEq, Repr

/-- The fields of the active input stream (`struct stream_in`) that
platform.c reads. -/
structure stream_in where
  source : Int := AUDIO_SOURCE_DEFAULT
  device : Nat := AUDIO_DEVICE_NONE
  channel_mask : Nat := AUDIO_CHANNEL_IN_MONO
  enable_aec : Bool := false
  deriving DecidableEq, Repr

/-- The fields of an output stream (`struct stream_out`) that platform.c
reads when it scans the use cases: both are `unsigned int`. -/
structure stream_out where
  sample_rate : Nat := CODEC_BACKEND_DEFAULT_SAMPLE_RATE
  bit_width : Nat := CODEC_BACKEND_DEFAULT_BIT_WIDTH
  deriving DecidableEq, Repr

/-- An entry of `adev->usecase_list` (`struct audio_usecase`): `out` is the
pointer `stream.out`, `none` when it is NULL. -/
structure audio_usecase where
  out : Option stream_out := none
  deriving DecidableEq, Repr

/-- The fields of `struct audio_device` that platform.c uses;
`active_input = none` is the NULL pointer, `audio_route` tells whether the
pointer `adev->audio_route` is not NULL, and `acdb_settings` is a 32-bit
word of flags. -/
structure audio_device where
  mode : Int := AUDIO_MODE_NORMAL
  tty_mode : Int := TTY_MODE_OFF
  speaker_lr_swap : Bool := false
  active_input : Option stream_in := none
  mixer : mixer := {}
  usecase_list : List audio_usecase := []
  cur_codec_backend_bit_width : Nat := CODEC_BACKEND_DEFAULT_BIT_WIDTH
  cur_codec_backend_samplerate : Nat := CODEC_BACKEND_DEFAULT_SAMPLE_RATE
  audio_route : Bool := false
  acdb_settings : Nat := 0
  deriving DecidableEq, Repr

/-- The fields of `struct platform_data` (platform.c lines 93-105);
`adev` is the audio device the pointer `my_data->adev` refers to, and
`acdb_send_audio_cal`, `acdb_send_voice_cal` tell whether the entry point of
the calibration library was found (the pointer is not NULL). -/
structure platform_data where
  adev : audio_device := {}
  fluence_in_spkr_mode : Bool := false
  fluence_in_voice_call : Bool := false
  fluence_in_voice_rec : Bool := false
  dualmic_config : Int := DUALMIC_CONFIG_NONE
  acdb_send_audio_cal : Bool := false
  acdb_send_voice_cal : Bool := false
  deriving DecidableEq, Repr

/-- A call into the calibration library, with its two integer arguments. -/
inductive acdb_call where
  | send_audio_cal (acdb_dev_id : Int) (acdb_dev_type : Int)
  | send_voice_cal (acdb_rx_id : Int) (acdb_tx_id : Int)
  deriving DecidableEq, Repr

/-- The file-level statics `check_op_once_ctl` and `is_tmus`
(platform.c lines 235-236). -/
structure operator_state where
  check_op_once_done : Bool := false
  is_tmus : Bool := false
  deriving DecidableEq, Repr

/-- A system property as platform.c reads it: `length` is what
`property_get` returns (the length of the value, 0 when it is unset or empty)
and `atoi` is what `atoi` makes of the value. -/
structure property_value where
  length : Nat := 0
  atoi : Int := 0
  deriving DecidableEq, Repr

/-- The calibration library `libacdbloader.so` as `platform_init` sees it
after a successful `dlopen`: whether `dlsym` finds the entry points
`acdb_loader_send_audio_cal` and `acdb_loader_send_voice_cal`. -/
structure acdb_loader where
  acdb_loader_send_audio_cal : Bool := true
  acdb_loader_send_voice_cal : Bool := true
  deriving DecidableEq, Repr

/-- What platform.c takes from outside the file: the build flags
`USB_HEADSET_ENABLED`, `DISABLE_TMUS_AUDIO` and `FLAC_OFFLOAD_ENABLED`, the
value `atoi` gives for the property `gsm.sim.operator.numeric`, the functions
of `audio_extn.h` (the ANC predicates and the proxy channel-mixer setter), the
properties `audio.offload.buffer.size.kb`, `audio.offload.pcm.buffer.size` and
`audio.offload.24bit.enable`, and the two format codes of `system/audio.h`
that the buffer-size functions compare with (only equality with them is
used). For `platform_init`: `mixer_open k` is what the call number `k` of
`mixer_open(MIXER_CARD)` returns (`none` is NULL), `audio_route_init` tells
whether `audio_route_init` returns a handle, the four `persist_audio_...`
strings are what `property_get` with the default `""` puts into `value` for
`persist.audio.dualmic.config`, `persist.audio.fluence.voicecall`,
`persist.audio.fluence.voicerec` and `persist.audio.fluence.speaker`,
`dlopen_acdb_loader` is the result of `dlopen(LIB_ACDB_LOADER)` (`none` is
NULL), and `audio_extn_usb_init` is the call of that name on the audio
device. -/
structure platform_env where
  USB_HEADSET_ENABLED : Bool := false
  DISABLE_TMUS_AUDIO : Bool := false
  operator_numeric : Int := 0
  audio_extn_get_anc_enabled : Bool := false
  audio_extn_should_use_fb_anc : Bool := false
  audio_extn_should_use_handset_anc : Nat → Bool := fun _ => false
  audio_extn_set_afe_proxy_channel_mixer : audio_device → audio_device := fun a => a
  FLAC_OFFLOAD_ENABLED : Bool := false
  AUDIO_FORMAT_FLAC : Nat := 0x1B000000
  AUDIO_FORMAT_PCM_24_BIT_OFFLOAD : Nat := 0x1A000004
  offload_buffer_size_kb : property_value := {}
  offload_pcm_buffer_size : property_value := {}
  offload_24bit_enable : property_value := { length := 1 }
  mixer_open : Nat → Option mixer := fun _ => some {}
  audio_route_init : Bool := true
  persist_audio_dualmic_config : String := ""
  persist_audio_fluence_voicecall : String := ""
  persist_audio_fluence_voicerec : String := ""
  persist_audio_fluence_speaker : String := ""
  dlopen_acdb_loader : Option acdb_loader := none
  audio_extn_usb_init : audio_device → audio_device := fun a => a

/-- What a routing call leaves behind: the returned sound device, the audio
device after the call and the carrier statics after the call. -/
structure routing_result where
  snd_device : snd_device_t
  adev : audio_device
  op : operator_state

/-! ## Helpers -/

/-- Number of set bits among the lowest `fuel` bits of `n`. -/
def popcountAux : Nat → Nat → Nat
  | 0, _ => 0
  | fuel + 1, n => n % 2 + popcountAux fuel (n / 2)

/-- The library call `popcount` on a 32-bit word. -/
def popcount (n : Nat) : Nat := popcountAux 32 n

/-- The C expression `~x` on a 32-bit word. -/
def bit_not32 (x : Nat) : Nat := 0xFFFFFFFF - x % 2 ^ 32

/-- The body of `check_operator` (platform.c lines 238-268): the new value
of the static `is_tmus`. -/
def check_operator (env : platform_env) (is_tmus : Bool) : Bool :=
  if env.DISABLE_TMUS_AUDIO then is_tmus
  else if env.operator_numeric ∈
      ([310490, 310260, 310026, 310800, 310660, 310580, 310310, 310270,
        310250, 310240, 310230, 310220, 310210, 310200, 310160] : List Int) then true
  else is_tmus

/-- The function `is_operator_tmus` (platform.c lines 270-274):
`pthread_once` runs `check_operator` the first time only. -/
def is_operator_tmus (env : platform_env) (op : operator_state) : Bool × operator_state :=
  let op1 : operator_state :=
    if op.check_op_once_done then op
    else { check_op_once_done := true, is_tmus := check_operator env op.is_tmus }
  (op1.is_tmus, op1)

/-- The function `set_echo_reference` (platform.c lines 294-308): status and
mixer after the call; `-22` is `-EINVAL`. -/
def set_echo_reference (m : mixer) (ec_ref : String) : Int × mixer :=
  let mixer_ctl_name := "EC_REF_RX"
  if mixer_ctl_name ∈ m.ctl_names then
    (0, { m with enum_writes := m.enum_writes ++ [(mixer_ctl_name, ec_ref)] })
  else (-22, m)

/-- The local `channel_mask` of both routing functions (platform.c lines
580-581 and 710-711): the active input's channel mask, mono without one. -/
def active_channel_mask (adev : audio_device) : Nat :=
  match adev.active_input with
  | none => AUDIO_CHANNEL_IN_MONO
  | some inp => inp.channel_mask

/-! ## Output routing -/

/-- The voice-call rules of `platform_get_output_snd_device`
(platform.c lines 592-624), entered when the mode is `AUDIO_MODE_IN_CALL`. -/
def output_voice_call_rules (env : platform_env) (adev : audio_device)
    (op : operator_state) (channel_count : Nat) (devices : Nat) :
    snd_device_t × operator_state :=
  if devices &&& AUDIO_DEVICE_OUT_WIRED_HEADPHONE ≠ 0 ∨
      devices &&& AUDIO_DEVICE_OUT_WIRED_HEADSET ≠ 0 then
    if adev.tty_mode = TTY_MODE_FULL then (SND_DEVICE_OUT_VOICE_TTY_FULL_HEADPHONES, op)
    else if adev.tty_mode = TTY_MODE_VCO then (SND_DEVICE_OUT_VOICE_TTY_VCO_HEADPHONES, op)
    else if adev.tty_mode = TTY_MODE_HCO then (SND_DEVICE_OUT_VOICE_TTY_HCO_HANDSET, op)
    else if env.audio_extn_get_anc_enabled then
      if env.audio_extn_should_use_fb_anc then (SND_DEVICE_OUT_VOICE_ANC_FB_HEADSET, op)
      else (SND_DEVICE_OUT_VOICE_ANC_HEADSET, op)
    else (SND_DEVICE_OUT_VOICE_HEADPHONES, op)
  else if devices &&& AUDIO_DEVICE_OUT_ALL_SCO ≠ 0 then (SND_DEVICE_OUT_BT_SCO, op)
  else if devices &&& AUDIO_DEVICE_OUT_SPEAKER ≠ 0 then (SND_DEVICE_OUT_VOICE_SPEAKER, op)
  else if env.USB_HEADSET_ENABLED = true ∧
      (devices &&& AUDIO_DEVICE_OUT_ANLG_DOCK_HEADSET ≠ 0 ∨
        devices &&& AUDIO_DEVICE_OUT_DGTL_DOCK_HEADSET ≠ 0) then
    (SND_DEVICE_OUT_USB_HEADSET, op)
  else if devices &&& AUDIO_DEVICE_OUT_EARPIECE ≠ 0 then
    let r := is_operator_tmus env op
    if r.1 then (SND_DEVICE_OUT_VOICE_HANDSET_TMUS, r.2)
    else if env.audio_extn_should_use_handset_anc channel_count then
      (SND_DEVICE_OUT_ANC_HANDSET, r.2)
    else (SND_DEVICE_OUT_HANDSET, r.2)
  else (SND_DEVICE_NONE, op)

/-- The combination rules of `platform_get_output_snd_device`
(platform.c lines 631-649), entered when `popcount(devices) == 2`;
`none` is the `goto exit` of the invalid combination. -/
def output_combo_rules (env : platform_env) (devices : Nat) : Option snd_device_t :=
  if devices = AUDIO_DEVICE_OUT_WIRED_HEADPHONE ||| AUDIO_DEVICE_OUT_SPEAKER then
    some SND_DEVICE_OUT_SPEAKER_AND_HEADPHONES
  else if devices = AUDIO_DEVICE_OUT_WIRED_HEADSET ||| AUDIO_DEVICE_OUT_SPEAKER then
    if env.audio_extn_get_anc_enabled then some SND_DEVICE_OUT_SPEAKER_AND_ANC_HEADSET
    else some SND_DEVICE_OUT_SPEAKER_AND_HEADPHONES
  else if devices = AUDIO_DEVICE_OUT_AUX_DIGITAL ||| AUDIO_DEVICE_OUT_SPEAKER then
    some SND_DEVICE_OUT_SPEAKER_AND_HDMI
  else if devices = AUDIO_DEVICE_OUT_ANLG_DOCK_HEADSET ||| AUDIO_DEVICE_OUT_SPEAKER then
    some SND_DEVICE_OUT_SPEAKER_AND_USB_HEADSET
  else none

/-- The single-device rules of `platform_get_output_snd_device`
(platform.c lines 660-693): the device and the audio device after the
optional proxy channel-mixer call. -/
def output_single_rules (env : platform_env) (adev : audio_device) (devices : Nat) :
    snd_device_t × audio_device :=
  if devices &&& AUDIO_DEVICE_OUT_WIRED_HEADPHONE ≠ 0 ∨
      devices &&& AUDIO_DEVICE_OUT_WIRED_HEADSET ≠ 0 then
    if devices &&& AUDIO_DEVICE_OUT_WIRED_HEADSET ≠ 0 ∧
        env.audio_extn_get_anc_enabled = true then
      if env.audio_extn_should_use_fb_anc then (SND_DEVICE_OUT_ANC_FB_HEADSET, adev)
      else (SND_DEVICE_OUT_ANC_HEADSET, adev)
    else (SND_DEVICE_OUT_HEADPHONES, adev)
  else if devices &&& AUDIO_DEVICE_OUT_SPEAKER ≠ 0 then
    if adev.speaker_lr_swap then (SND_DEVICE_OUT_SPEAKER_REVERSE, adev)
    else (SND_DEVICE_OUT_SPEAKER, adev)
  else if devices &&& AUDIO_DEVICE_OUT_ALL_SCO ≠ 0 then (SND_DEVICE_OUT_BT_SCO, adev)
  else if devices &&& AUDIO_DEVICE_OUT_AUX_DIGITAL ≠ 0 then (SND_DEVICE_OUT_HDMI, adev)
  else if env.USB_HEADSET_ENABLED = true ∧
      (devices &&& AUDIO_DEVICE_OUT_ANLG_DOCK_HEADSET ≠ 0 ∨
        devices &&& AUDIO_DEVICE_OUT_DGTL_DOCK_HEADSET ≠ 0) then
    (SND_DEVICE_OUT_USB_HEADSET, adev)
  else if devices &&& AUDIO_DEVICE_OUT_EARPIECE ≠ 0 then (SND_DEVICE_OUT_HANDSET, adev)
  else if devices &&& AUDIO_DEVICE_OUT_PROXY ≠ 0 then
    (SND_DEVICE_OUT_AFE_PROXY, env.audio_extn_set_afe_proxy_channel_mixer adev)
  else (SND_DEVICE_NONE, adev)

/-- The function `platform_get_output_snd_device` (platform.c lines 573-697).
`voice` is `snd_device` after the voice-call block; a matched combination is
never `SND_DEVICE_NONE`, so the test of line 650 always leaves through `exit`. -/
def platform_get_output_snd_device (env : platform_env) (my_data : platform_data)
    (op : operator_state) (devices : Nat) : routing_result :=
  let adev := my_data.adev
  let mode := adev.mode
  let channel_mask := active_channel_mask adev
  let channel_count := popcount channel_mask
  if devices = AUDIO_DEVICE_NONE ∨ devices &&& AUDIO_DEVICE_BIT_IN ≠ 0 then
    { snd_device := SND_DEVICE_NONE, adev := adev, op := op }
  else
    let voice : snd_device_t × operator_state :=
      if mode = AUDIO_MODE_IN_CALL then
        output_voice_call_rules env adev op channel_count devices
      else (SND_DEVICE_NONE, op)
    if mode = AUDIO_MODE_IN_CALL ∧ voice.1 ≠ SND_DEVICE_NONE then
      { snd_device := voice.1, adev := adev, op := voice.2 }
    else if popcount devices = 2 then
      match output_combo_rules env devices with
      | none => { snd_device := voice.1, adev := adev, op := voice.2 }
      | some d => { snd_device := d, adev := adev, op := voice.2 }
    else if popcount devices ≠ 1 then
      { snd_device := voice.1, adev := adev, op := voice.2 }
    else
      let r := output_single_rules env adev devices
      { snd_device := r.1, adev := r.2, op := voice.2 }

/-! ## Input routing -/

/-- The local variables of `platform_get_input_snd_device` at the end of its
first part (platform.c lines 717-815): the device chosen so far, the
(possibly redirected) input mask, the state, and whether `goto exit` was
taken. -/
structure input_stage where
  snd_device : snd_device_t
  in_device : Nat
  adev : audio_device
  op : operator_state
  goto_exit : Bool

/-- The input mask `in_device` as `platform_get_input_snd_device` computes it
on entry (platform.c lines 707-709): the active input's device mask with
`AUDIO_DEVICE_BIT_IN` cleared, `AUDIO_DEVICE_NONE` without an active input. -/
def input_device_mask (adev : audio_device) : Nat :=
  (match adev.active_input with
    | none => AUDIO_DEVICE_NONE
    | some inp => inp.device) &&& bit_not32 AUDIO_DEVICE_BIT_IN

/-- The voice-call rules of `platform_get_input_snd_device`
(platform.c lines 718-773), entered when the mode is `AUDIO_MODE_IN_CALL`. -/
def input_voice_call_rules (env : platform_env) (my_data : platform_data)
    (op : operator_state) (channel_count : Nat) (in_device : Nat) (out_device : Nat) :
    input_stage :=
  let adev := my_data.adev
  if out_device = AUDIO_DEVICE_NONE then
    { snd_device := SND_DEVICE_NONE, in_device := in_device, adev := adev, op := op,
      goto_exit := true }
  else if adev.tty_mode ≠ TTY_MODE_OFF ∧
      (out_device &&& AUDIO_DEVICE_OUT_WIRED_HEADPHONE ≠ 0 ∨
        out_device &&& AUDIO_DEVICE_OUT_WIRED_HEADSET ≠ 0) then
    let d : snd_device_t :=
      if adev.tty_mode = TTY_MODE_FULL then SND_DEVICE_IN_VOICE_TTY_FULL_HEADSET_MIC
      else if adev.tty_mode = TTY_MODE_VCO then SND_DEVICE_IN_VOICE_TTY_VCO_HANDSET_MIC
      else if adev.tty_mode = TTY_MODE_HCO then SND_DEVICE_IN_VOICE_TTY_HCO_HEADSET_MIC
      else SND_DEVICE_NONE
    { snd_device := d, in_device := in_device, adev := adev, op := op, goto_exit := true }
  else if out_device &&& AUDIO_DEVICE_OUT_EARPIECE ≠ 0 ∨
      out_device &&& AUDIO_DEVICE_OUT_WIRED_HEADPHONE ≠ 0 then
    if out_device &&& AUDIO_DEVICE_OUT_EARPIECE ≠ 0 ∧
        env.audio_extn_should_use_handset_anc channel_count = true then
      { snd_device := SND_DEVICE_IN_AANC_HANDSET_MIC, in_device := in_device, adev := adev,
        op := op, goto_exit := false }
    else if my_data.fluence_in_voice_call = false then
      { snd_device := SND_DEVICE_IN_HANDSET_MIC, in_device := in_device, adev := adev,
        op := op, goto_exit := false }
    else if my_data.dualmic_config = DUALMIC_CONFIG_ENDFIRE then
      let r := is_operator_tmus env op
      if r.1 then
        { snd_device := SND_DEVICE_IN_VOICE_DMIC_EF_TMUS, in_device := in_device, adev := adev,
          op := r.2, goto_exit := false }
      else
        { snd_device := SND_DEVICE_IN_VOICE_DMIC_EF, in_device := in_device, adev := adev,
          op := r.2, goto_exit := false }
    else if my_data.dualmic_config = DUALMIC_CONFIG_BROADSIDE then
      { snd_device := SND_DEVICE_IN_VOICE_DMIC_BS, in_device := in_device, adev := adev,
        op := op, goto_exit := false }
    else
      { snd_device := SND_DEVICE_IN_HANDSET_MIC, in_device := in_device, adev := adev,
        op := op, goto_exit := false }
  else if out_device &&& AUDIO_DEVICE_OUT_WIRED_HEADSET ≠ 0 then
    { snd_device := SND_DEVICE_IN_VOICE_HEADSET_MIC, in_device := in_device, adev := adev,
      op := op, goto_exit := false }
  else if out_device &&& AUDIO_DEVICE_OUT_ALL_SCO ≠ 0 then
    { snd_device := SND_DEVICE_IN_BT_SCO_MIC, in_device := in_device, adev := adev,
      op := op, goto_exit := false }
  else if out_device &&& AUDIO_DEVICE_OUT_SPEAKER ≠ 0 then
    if my_data.fluence_in_voice_call = true ∧ my_data.fluence_in_spkr_mode = true ∧
        my_data.dualmic_config = DUALMIC_CONFIG_ENDFIRE then
      { snd_device := SND_DEVICE_IN_VOICE_SPEAKER_DMIC_EF, in_device := in_device,
        adev := adev, op := op, goto_exit := false }
    else if my_data.fluence_in_voice_call = true ∧ my_data.fluence_in_spkr_mode = true ∧
        my_data.dualmic_config = DUALMIC_CONFIG_BROADSIDE then
      { snd_device := SND_DEVICE_IN_VOICE_SPEAKER_DMIC_BS, in_device := in_device,
        adev := adev, op := op, goto_exit := false }
    else
      { snd_device := SND_DEVICE_IN_VOICE_SPEAKER_MIC, in_device := in_device, adev := adev,
        op := op, goto_exit := false }
  else
    { snd_device := SND_DEVICE_NONE, in_device := in_device, adev := adev, op := op,
      goto_exit := false }

/-- The voice-recognition rules of `platform_get_input_snd_device`
(platform.c lines 780-796). -/
def input_voice_rec_rules (my_data : platform_data) (channel_mask : Nat) (in_device : Nat) :
    snd_device_t :=
  if in_device &&& AUDIO_DEVICE_IN_BUILTIN_MIC ≠ 0 then
    let d : snd_device_t :=
      if my_data.dualmic_config = DUALMIC_CONFIG_ENDFIRE then
        if channel_mask = AUDIO_CHANNEL_IN_FRONT_BACK then SND_DEVICE_IN_VOICE_REC_DMIC_EF
        else if my_data.fluence_in_voice_rec then SND_DEVICE_IN_VOICE_REC_DMIC_EF_FLUENCE
        else SND_DEVICE_NONE
      else if my_data.dualmic_config = DUALMIC_CONFIG_BROADSIDE then
        if channel_mask = AUDIO_CHANNEL_IN_FRONT_BACK then SND_DEVICE_IN_VOICE_REC_DMIC_BS
        else if my_data.fluence_in_voice_rec then SND_DEVICE_IN_VOICE_REC_DMIC_BS_FLUENCE
        else SND_DEVICE_NONE
      else SND_DEVICE_NONE
    if d = SND_DEVICE_NONE then SND_DEVICE_IN_VOICE_REC_MIC else d
  else SND_DEVICE_NONE

/-- The voice-communication rules of `platform_get_input_snd_device`
(platform.c lines 798-812): the input mask is redirected to the back mic
when the output has the speaker bit, and the echo reference is written. -/
def input_voice_comm_rules (adev : audio_device) (op : operator_state) (in_device : Nat)
    (out_device : Nat) : input_stage :=
  let in_device1 :=
    if out_device &&& AUDIO_DEVICE_OUT_SPEAKER ≠ 0 then AUDIO_DEVICE_IN_BACK_MIC
    else in_device
  match adev.active_input with
  | none =>
    { snd_device := SND_DEVICE_NONE, in_device := in_device1, adev := adev, op := op,
      goto_exit := false }
  | some inp =>
    if inp.enable_aec then
      let d : snd_device_t :=
        if in_device1 &&& AUDIO_DEVICE_IN_BACK_MIC ≠ 0 then SND_DEVICE_IN_SPEAKER_MIC_AEC
        else if in_device1 &&& AUDIO_DEVICE_IN_BUILTIN_MIC ≠ 0 then
          SND_DEVICE_IN_HANDSET_MIC_AEC
        else if in_device1 &&& AUDIO_DEVICE_IN_WIRED_HEADSET ≠ 0 then
          SND_DEVICE_IN_HEADSET_MIC_AEC
        else SND_DEVICE_NONE
      { snd_device := d, in_device := in_device1,
        adev := { adev with mixer := (set_echo_reference adev.mixer "SLIM_RX").2 },
        op := op, goto_exit := false }
    else
      { snd_device := SND_DEVICE_NONE, in_device := in_device1,
        adev := { adev with mixer := (set_echo_reference adev.mixer "NONE").2 },
        op := op, goto_exit := false }

/-- The fallback of `platform_get_input_snd_device` on the input mask
(platform.c lines 825-844). -/
def input_mask_rules (env : platform_env) (in_device : Nat) : snd_device_t :=
  if in_device &&& AUDIO_DEVICE_IN_BUILTIN_MIC ≠ 0 then SND_DEVICE_IN_HANDSET_MIC
  else if in_device &&& AUDIO_DEVICE_IN_BACK_MIC ≠ 0 then SND_DEVICE_IN_SPEAKER_MIC
  else if in_device &&& AUDIO_DEVICE_IN_WIRED_HEADSET ≠ 0 then SND_DEVICE_IN_HEADSET_MIC
  else if in_device &&& AUDIO_DEVICE_IN_BLUETOOTH_SCO_HEADSET ≠ 0 then SND_DEVICE_IN_BT_SCO_MIC
  else if in_device &&& AUDIO_DEVICE_IN_AUX_DIGITAL ≠ 0 then SND_DEVICE_IN_HDMI_MIC
  else if env.USB_HEADSET_ENABLED = true ∧
      (in_device &&& AUDIO_DEVICE_IN_ANLG_DOCK_HEADSET ≠ 0 ∨
        in_device &&& AUDIO_DEVICE_IN_DGTL_DOCK_HEADSET ≠ 0) then
    SND_DEVICE_IN_USB_HEADSET_MIC
  else SND_DEVICE_IN_HANDSET_MIC

/-- The fallback of `platform_get_input_snd_device` on the output mask
(platform.c lines 846-867). -/
def input_out_device_rules (env : platform_env) (out_device : Nat) : snd_device_t :=
  if out_device &&& AUDIO_DEVICE_OUT_EARPIECE ≠ 0 then SND_DEVICE_IN_HANDSET_MIC
  else if out_device &&& AUDIO_DEVICE_OUT_WIRED_HEADSET ≠ 0 then SND_DEVICE_IN_HEADSET_MIC
  else if out_device &&& AUDIO_DEVICE_OUT_SPEAKER ≠ 0 then SND_DEVICE_IN_SPEAKER_MIC
  else if out_device &&& AUDIO_DEVICE_OUT_WIRED_HEADPHONE ≠ 0 then SND_DEVICE_IN_HANDSET_MIC
  else if out_device &&& AUDIO_DEVICE_OUT_BLUETOOTH_SCO_HEADSET ≠ 0 then
    SND_DEVICE_IN_BT_SCO_MIC
  else if out_device &&& AUDIO_DEVICE_OUT_AUX_DIGITAL ≠ 0 then SND_DEVICE_IN_HDMI_MIC
  else if env.USB_HEADSET_ENABLED = true ∧
      (out_device &&& AUDIO_DEVICE_OUT_ANLG_DOCK_HEADSET ≠ 0 ∨
        out_device &&& AUDIO_DEVICE_OUT_DGTL_DOCK_HEADSET ≠ 0) then
    SND_DEVICE_IN_USB_HEADSET_MIC
  else SND_DEVICE_IN_HANDSET_MIC

/-- The function `platform_get_input_snd_device` (platform.c lines 699-872). -/
def platform_get_input_snd_device (env : platform_env) (my_data : platform_data)
    (op : operator_state) (out_device : Nat) : routing_result :=
  let adev := my_data.adev
  let source :=
    match adev.active_input with
    | none => AUDIO_SOURCE_DEFAULT
    | some inp => inp.source
  let mode := adev.mode
  let in_device := input_device_mask adev
  let channel_mask := active_channel_mask adev
  let channel_count := popcount channel_mask
  let st : input_stage :=
    if mode = AUDIO_MODE_IN_CALL then
      input_voice_call_rules env my_data op channel_count in_device out_device
    else if source = AUDIO_SOURCE_CAMCORDER then
      { snd_device :=
          if in_device &&& AUDIO_DEVICE_IN_BUILTIN_MIC ≠ 0 ∨
              in_device &&& AUDIO_DEVICE_IN_BACK_MIC ≠ 0 then SND_DEVICE_IN_CAMCORDER_MIC
          else SND_DEVICE_NONE,
        in_device := in_device, adev := adev, op := op, goto_exit := false }
    else if source = AUDIO_SOURCE_VOICE_RECOGNITION then
      { snd_device := input_voice_rec_rules my_data channel_mask in_device,
        in_device := in_device, adev := adev, op := op, goto_exit := false }
    else if source = AUDIO_SOURCE_VOICE_COMMUNICATION then
      input_voice_comm_rules adev op in_device out_device
    else if source = AUDIO_SOURCE_DEFAULT then
      { snd_device := SND_DEVICE_NONE, in_device := in_device, adev := adev, op := op,
        goto_exit := true }
    else
      { snd_device := SND_DEVICE_NONE, in_device := in_device, adev := adev, op := op,
        goto_exit := false }
  if st.goto_exit = true ∨ st.snd_device ≠ SND_DEVICE_NONE then
    { snd_device := st.snd_device, adev := st.adev, op := st.op }
  else if st.in_device ≠ AUDIO_DEVICE_NONE ∧
      ¬ (st.in_device &&& AUDIO_DEVICE_IN_VOICE_CALL ≠ 0) ∧
      ¬ (st.in_device &&& AUDIO_DEVICE_IN_COMMUNICATION ≠ 0) then
    { snd_device := input_mask_rules env st.in_device, adev := st.adev, op := st.op }
  else
    { snd_device := input_out_device_rules env out_device, adev := st.adev, op := st.op }

/-- The local variables of `platform_get_input_snd_device` when it reaches
line 818, after the mode and source rules (platform.c lines 717-815): the
value `st` of the definition above, given a name. -/
def input_first_stage (env : platform_env) (my_data : platform_data)
    (op : operator_state) (out_device : Nat) : input_stage :=
  let adev := my_data.adev
  let source :=
    match adev.active_input with
    | none => AUDIO_SOURCE_DEFAULT
    | some inp => inp.source
  let mode := adev.mode
  let in_device := input_device_mask adev
  let channel_mask := active_channel_mask adev
  let channel_count := popcount channel_mask
  if mode = AUDIO_MODE_IN_CALL then
    input_voice_call_rules env my_data op channel_count in_device out_device
  else if source = AUDIO_SOURCE_CAMCORDER then
    { snd_device :=
        if in_device &&& AUDIO_DEVICE_IN_BUILTIN_MIC ≠ 0 ∨
            in_device &&& AUDIO_DEVICE_IN_BACK_MIC ≠ 0 then SND_DEVICE_IN_CAMCORDER_MIC
        else SND_DEVICE_NONE,
      in_device := in_device, adev := adev, op := op, goto_exit := false }
  else if source = AUDIO_SOURCE_VOICE_RECOGNITION then
    { snd_device := input_voice_rec_rules my_data channel_mask in_device,
      in_device := in_device, adev := adev, op := op, goto_exit := false }
  else if source = AUDIO_SOURCE_VOICE_COMMUNICATION then
    input_voice_comm_rules adev op in_device out_device
  else if source = AUDIO_SOURCE_DEFAULT then
    { snd_device := SND_DEVICE_NONE, in_device := in_device, adev := adev, op := op,
      goto_exit := true }
  else
    { snd_device := SND_DEVICE_NONE, in_device := in_device, adev := adev, op := op,
      goto_exit := false }

/-! ## Calibration -/

/-- The table `acdb_device_table` (platform.c lines 176-230). -/
def acdb_device_table : snd_device_t → Int
  | SND_DEVICE_NONE => -1
  | SND_DEVICE_OUT_HANDSET => 7
  | SND_DEVICE_OUT_SPEAKER => 15
  | SND_DEVICE_OUT_SPEAKER_REVERSE => 15
  | SND_DEVICE_OUT_HEADPHONES => 10
  | SND_DEVICE_OUT_SPEAKER_AND_HEADPHONES => 10
  | SND_DEVICE_OUT_VOICE_HANDSET => 7
  | SND_DEVICE_OUT_VOICE_SPEAKER => 15
  | SND_DEVICE_OUT_VOICE_HEADPHONES => 10
  | SND_DEVICE_OUT_HDMI => 18
  | SND_DEVICE_OUT_SPEAKER_AND_HDMI => 15
  | SND_DEVICE_OUT_BT_SCO => 22
  | SND_DEVICE_OUT_VOICE_HANDSET_TMUS => 88
  | SND_DEVICE_OUT_VOICE_TTY_FULL_HEADPHONES => 17
  | SND_DEVICE_OUT_VOICE_TTY_VCO_HEADPHONES => 17
  | SND_DEVICE_OUT_VOICE_TTY_HCO_HANDSET => 37
  | SND_DEVICE_OUT_AFE_PROXY => 0
  | SND_DEVICE_OUT_USB_HEADSET => 45
  | SND_DEVICE_OUT_SPEAKER_AND_USB_HEADSET => 14
  | SND_DEVICE_OUT_ANC_HEADSET => 26
  | SND_DEVICE_OUT_ANC_FB_HEADSET => 26
  | SND_DEVICE_OUT_VOICE_ANC_HEADSET => 26
  | SND_DEVICE_OUT_VOICE_ANC_FB_HEADSET => 26
  | SND_DEVICE_OUT_SPEAKER_AND_ANC_HEADSET => 26
  | SND_DEVICE_OUT_ANC_HANDSET => 103
  | SND_DEVICE_IN_HANDSET_MIC => 4
  | SND_DEVICE_IN_SPEAKER_MIC => 4
  | SND_DEVICE_IN_HEADSET_MIC => 8
  | SND_DEVICE_IN_HANDSET_MIC_AEC => 40
  | SND_DEVICE_IN_SPEAKER_MIC_AEC => 42
  | SND_DEVICE_IN_HEADSET_MIC_AEC => 47
  | SND_DEVICE_IN_VOICE_SPEAKER_MIC => 11
  | SND_DEVICE_IN_VOICE_HEADSET_MIC => 8
  | SND_DEVICE_IN_HDMI_MIC => 4
  | SND_DEVICE_IN_BT_SCO_MIC => 21
  | SND_DEVICE_IN_CAMCORDER_MIC => 61
  | SND_DEVICE_IN_VOICE_DMIC_EF => 41
  | SND_DEVICE_IN_VOICE_DMIC_BS => 5
  | SND_DEVICE_IN_VOICE_DMIC_EF_TMUS => 89
  | SND_DEVICE_IN_VOICE_SPEAKER_DMIC_EF => 43
  | SND_DEVICE_IN_VOICE_SPEAKER_DMIC_BS => 12
  | SND_DEVICE_IN_VOICE_TTY_FULL_HEADSET_MIC => 16
  | SND_DEVICE_IN_VOICE_TTY_VCO_HANDSET_MIC => 36
  | SND_DEVICE_IN_VOICE_TTY_HCO_HEADSET_MIC => 16
  | SND_DEVICE_IN_VOICE_REC_MIC => 62
  | SND_DEVICE_IN_VOICE_REC_DMIC_EF => 62
  | SND_DEVICE_IN_VOICE_REC_DMIC_BS => 62
  | SND_DEVICE_IN_VOICE_REC_DMIC_EF_FLUENCE => 6
  | SND_DEVICE_IN_VOICE_REC_DMIC_BS_FLUENCE => 5
  | SND_DEVICE_IN_USB_HEADSET_MIC => 44
  | SND_DEVICE_IN_AANC_HANDSET_MIC => 104

/-- The function `platform_send_audio_calibration` (platform.c lines 445-467):
the returned status and the calls made into the calibration library. -/
def platform_send_audio_calibration (my_data : platform_data) (snd_device : snd_device_t) :
    Int × List acdb_call :=
  let acdb_dev_id := acdb_device_table snd_device
  if acdb_dev_id < 0 then (-EINVAL, [])
  else if my_data.acdb_send_audio_cal then
    let acdb_dev_type :=
      if snd_device_value snd_device ≥ SND_DEVICE_OUT_BEGIN ∧
          snd_device_value snd_device < SND_DEVICE_OUT_END then ACDB_DEV_TYPE_OUT
      else ACDB_DEV_TYPE_IN
    (0, [acdb_call.send_audio_cal acdb_dev_id acdb_dev_type])
  else (0, [])

/-- The function `platform_switch_voice_call_device_post`
(platform.c lines 474-495): the returned status and the calls made into the
calibration library. -/
def platform_switch_voice_call_device_post (my_data : platform_data)
    (out_snd_device : snd_device_t) (in_snd_device : snd_device_t) : Int × List acdb_call :=
  if my_data.acdb_send_voice_cal = false then (0, [])
  else
    let acdb_rx_id := acdb_device_table out_snd_device
    let acdb_tx_id := acdb_device_table in_snd_device
    if acdb_rx_id > 0 ∧ acdb_tx_id > 0 then
      (0, [acdb_call.send_voice_cal acdb_rx_id acdb_tx_id])
    else (0, [])

/-! ## Codec backend configuration -/

/-- The function `get_best_backend_sample_rate` (platform.c lines 1069-1079). -/
def get_best_backend_sample_rate (sample_rate : Nat) : Nat :=
  if sample_rate ≤ 48000 then 48000
  else if sample_rate ≤ 96000 then 96000
  else if sample_rate ≤ 192000 then 192000
  else CODEC_BACKEND_DEFAULT_SAMPLE_RATE

/-- The function `get_best_backend_bit_width` (platform.c lines 1081-1086). -/
def get_best_backend_bit_width (bit_width : Nat) : Nat :=
  if bit_width = 24 then 24
  else CODEC_BACKEND_DEFAULT_BIT_WIDTH

/-- What `platform_check_codec_backend_cfg` hands back: its return value and
the values behind the pointers `new_bit_width` and `new_sample_rate`. -/
structure backend_check where
  backend_change : Bool
  new_bit_width : Nat
  new_sample_rate : Nat
  deriving DecidableEq, Repr

/-- One round of the loop over `adev->usecase_list` in
`platform_check_codec_backend_cfg` (platform.c lines 1201-1220) on the pair
`(best_bw, best_sr)`. -/
def backend_scan_step (best : Nat × Nat) (curr_usecase : audio_usecase) : Nat × Nat :=
  match curr_usecase.out with
  | none => best
  | some out =>
    let cur_sr := get_best_backend_sample_rate out.sample_rate
    let cur_bw := get_best_backend_bit_width out.bit_width
    (if cur_bw > best.1 then cur_bw else best.1, if cur_sr > best.2 then cur_sr else best.2)

/-- The function `platform_check_codec_backend_cfg` (platform.c lines
1179-1237). `new_bit_width` and `new_sample_rate` are the values behind the
two pointers on entry; the argument `usecase` is not read. -/
def platform_check_codec_backend_cfg (adev : audio_device) (_usecase : audio_usecase)
    (new_bit_width : Nat) (new_sample_rate : Nat) : backend_check :=
  let s0 : backend_check :=
    { backend_change := false, new_bit_width := new_bit_width,
      new_sample_rate := new_sample_rate }
  let s1 : backend_check :=
    if adev.mode = AUDIO_MODE_IN_CALL ∨ adev.mode = AUDIO_MODE_IN_COMMUNICATION then
      { backend_change := true, new_bit_width := CODEC_BACKEND_DEFAULT_BIT_WIDTH,
        new_sample_rate := CODEC_BACKEND_DEFAULT_SAMPLE_RATE }
    else s0
  let best : Nat × Nat :=
    if s1.backend_change = false then adev.usecase_list.foldl backend_scan_step (0, 0)
    else (0, 0)
  let s2 : backend_check :=
    { s1 with new_bit_width := best.1, new_sample_rate := best.2 }
  if s2.new_bit_width ≠ adev.cur_codec_backend_bit_width ∨
      s2.new_sample_rate ≠ adev.cur_codec_backend_samplerate then
    { s2 with backend_change := true }
  else s2

/-- The maximum rounded bit width over the use cases that have an output
stream (0 when there is none), as the spec words the backend target. -/
def max_rounded_bit_width (l : List audio_usecase) : Nat :=
  ((l.filterMap (fun u => u.out)).map
    (fun out => get_best_backend_bit_width out.bit_width)).foldr max 0

/-- The maximum rounded sample rate over the use cases that have an output
stream (0 when there is none), as the spec words the backend target. -/
def max_rounded_sample_rate (l : List audio_usecase) : Nat :=
  ((l.filterMap (fun u => u.out)).map
    (fun out => get_best_backend_sample_rate out.sample_rate)).foldr max 0

/-- The function `platform_check_24_bit_support` (platform.c lines 1058-1067). -/
def platform_check_24_bit_support (env : platform_env) : Bool :=
  if env.offload_24bit_enable.atoi ≠ 0 then true else false

/-- The `switch` of `platform_set_codec_backend_cfg` that names the sample
rate (platform.c lines 1122-1162). -/
def backend_rate_str (sample_rate : Nat) : String :=
  if sample_rate = 8000 then "KHZ_8"
  else if sample_rate = 11025 then "KHZ_11_025"
  else if sample_rate = 16000 then "KHZ_16"
  else if sample_rate = 22050 then "KHZ_22_05"
  else if sample_rate = 32000 then "KHZ_32"
  else if sample_rate = 44100 then "KHZ_44_1"
  else if sample_rate = 48000 then "KHZ_48"
  else if sample_rate = 64000 then "KHZ_64"
  else if sample_rate = 88200 then "KHZ_88_2"
  else if sample_rate = 96000 then "KHZ_96"
  else if sample_rate = 176400 then "KHZ_176_4"
  else if sample_rate = 192000 then "KHZ_192"
  else "KHZ_48"

/-- The call `mixer_ctl_set_enum_by_string` on a control that was found. -/
def mixer_ctl_set_enum_by_string (m : mixer) (ctl : String) (value : String) : mixer :=
  { m with enum_writes := m.enum_writes ++ [(ctl, value)] }

/-- The second half of `platform_set_codec_backend_cfg` (platform.c lines
1114-1176), which programs the sample rate: status and audio device after. -/
def set_codec_backend_sample_rate (adev : audio_device) (sample_rate : Nat) :
    Int × audio_device :=
  if (adev.cur_codec_backend_bit_width = CODEC_BACKEND_DEFAULT_BIT_WIDTH ∧
        adev.cur_codec_backend_samplerate ≠ CODEC_BACKEND_DEFAULT_SAMPLE_RATE) ∨
      adev.cur_codec_backend_samplerate ≠ sample_rate then
    let rate_str := backend_rate_str sample_rate
    let mixer_ctl_name := "SLIM_0_RX SampleRate"
    if mixer_ctl_name ∈ adev.mixer.ctl_names then
      (0, { adev with
              mixer := mixer_ctl_set_enum_by_string adev.mixer mixer_ctl_name rate_str,
              cur_codec_backend_samplerate := sample_rate })
    else (-EINVAL, adev)
  else (0, adev)

/-- The function `platform_set_codec_backend_cfg` (platform.c lines
1088-1177): status and audio device after the call. -/
def platform_set_codec_backend_cfg (adev : audio_device) (bit_width : Nat)
    (sample_rate : Nat) : Int × audio_device :=
  if bit_width ≠ adev.cur_codec_backend_bit_width then
    let mixer_ctl_name := "SLIM_0_RX Format"
    if mixer_ctl_name ∈ adev.mixer.ctl_names then
      if bit_width = 24 then
        set_codec_backend_sample_rate
          { adev with
              mixer := mixer_ctl_set_enum_by_string adev.mixer mixer_ctl_name "S24_LE",
              cur_codec_backend_bit_width := bit_width }
          sample_rate
      else
        set_codec_backend_sample_rate
          { adev with
              mixer := mixer_ctl_set_enum_by_string adev.mixer mixer_ctl_name "S16_LE",
              cur_codec_backend_bit_width := bit_width }
          CODEC_BACKEND_DEFAULT_SAMPLE_RATE
    else (-EINVAL, adev)
  else set_codec_backend_sample_rate adev sample_rate

/-- The function `platform_check_and_set_codec_backend_cfg` (platform.c lines
1239-1269): the returned flag and the audio device after the call. -/
def platform_check_and_set_codec_backend_cfg (env : platform_env) (adev : audio_device)
    (usecase : audio_usecase) : Bool × audio_device :=
  if platform_check_24_bit_support env = false then (false, adev)
  else
    let old_bit_width := adev.cur_codec_backend_bit_width
    let old_sample_rate := adev.cur_codec_backend_samplerate
    let chk := platform_check_codec_backend_cfg adev usecase 0 0
    let adev1 : audio_device :=
      if chk.backend_change = true then
        (platform_set_codec_backend_cfg adev chk.new_bit_width chk.new_sample_rate).2
      else adev
    if old_bit_width ≠ adev1.cur_codec_backend_bit_width ∨
        old_sample_rate ≠ adev1.cur_codec_backend_samplerate then (true, adev1)
    else (false, adev1)

/-! ## Offload buffer sizes -/

/-- `MAX_COMPRESS_OFFLOAD_FRAGMENT_SIZE` (platform.c line 42). -/
def MAX_COMPRESS_OFFLOAD_FRAGMENT_SIZE : Nat := 256 * 1024
/-- `MIN_COMPRESS_OFFLOAD_FRAGMENT_SIZE` (platform.c line 43). -/
def MIN_COMPRESS_OFFLOAD_FRAGMENT_SIZE : Nat := 2 * 1024
/-- `COMPRESS_OFFLOAD_FRAGMENT_SIZE_FOR_AV_STREAMING` (platform.c line 44). -/
def COMPRESS_OFFLOAD_FRAGMENT_SIZE_FOR_AV_STREAMING : Nat := 2 * 1024
/-- `COMPRESS_OFFLOAD_FRAGMENT_SIZE` (platform.c line 45). -/
def COMPRESS_OFFLOAD_FRAGMENT_SIZE : Nat := 32 * 1024
/-- `PCM_OFFLOAD_BUFFER_DURATION_FOR_AV` (platform.c line 48). -/
def PCM_OFFLOAD_BUFFER_DURATION_FOR_AV : Nat := 1000
/-- `PCM_OFFLOAD_BUFFER_DURATION_FOR_AV_STREAMING` (platform.c line 49). -/
def PCM_OFFLOAD_BUFFER_DURATION_FOR_AV_STREAMING : Nat := 80
/-- `MAX_PCM_OFFLOAD_FRAGMENT_SIZE` (platform.c line 55). -/
def MAX_PCM_OFFLOAD_FRAGMENT_SIZE : Nat := 240 * 1024
/-- `MIN_PCM_OFFLOAD_FRAGMENT_SIZE` (platform.c line 56). -/
def MIN_PCM_OFFLOAD_FRAGMENT_SIZE : Nat := 4 * 1024

/-- The macro `ALIGN(num, to)` (platform.c line 58) on 32-bit unsigned
operands: `(num + (to - 1)) & ~(to - 1)`, the sum wrapping at `2 ^ 32`. -/
def ALIGN (num : Nat) (to_ : Nat) : Nat :=
  ((num + (to_ - 1)) % 2 ^ 32) &&& bit_not32 (to_ - 1)

/-- The value a `uint32_t` takes from the C integer `i` (reduction modulo
`2 ^ 32`). -/
def to_uint32 (i : Int) : Nat := (i % 2 ^ 32).toNat

/-- The fields of `audio_offload_info_t` that the buffer-size functions
read. -/
structure audio_offload_info_t where
  sample_rate : Nat := 48000
  channel_mask : Nat := 0x3
  format : Nat := 0
  has_video : Bool := false
  is_streaming : Bool := false
  deriving DecidableEq, Repr

/-- The function `platform_get_compress_offload_buffer_size` (platform.c
lines 980-1013); `info = none` is the NULL pointer. -/
def platform_get_compress_offload_buffer_size (env : platform_env)
    (info : Option audio_offload_info_t) : Nat :=
  let fragment_size0 := COMPRESS_OFFLOAD_FRAGMENT_SIZE
  let fragment_size1 :=
    if env.offload_buffer_size_kb.length ≠ 0 ∧ env.offload_buffer_size_kb.atoi ≠ 0 then
      to_uint32 (env.offload_buffer_size_kb.atoi * 1024)
    else fragment_size0
  let fragment_size2 :=
    match info with
    | none => fragment_size1
    | some i =>
      if env.FLAC_OFFLOAD_ENABLED = true ∧ i.has_video = false ∧
          i.format = env.AUDIO_FORMAT_FLAC then MAX_COMPRESS_OFFLOAD_FRAGMENT_SIZE
      else fragment_size1
  let fragment_size3 :=
    match info with
    | none => fragment_size2
    | some i =>
      if i.has_video = true ∧ i.is_streaming = true then
        COMPRESS_OFFLOAD_FRAGMENT_SIZE_FOR_AV_STREAMING
      else fragment_size2
  let fragment_size4 := ALIGN fragment_size3 1024
  if fragment_size4 < MIN_COMPRESS_OFFLOAD_FRAGMENT_SIZE then
    MIN_COMPRESS_OFFLOAD_FRAGMENT_SIZE
  else if fragment_size4 > MAX_COMPRESS_OFFLOAD_FRAGMENT_SIZE then
    MAX_COMPRESS_OFFLOAD_FRAGMENT_SIZE
  else fragment_size4

/-- The function `platform_get_pcm_offload_buffer_size` (platform.c lines
1015-1056), on a stream description that is not NULL; the products are
`uint32_t` products and wrap at `2 ^ 32`. -/
def platform_get_pcm_offload_buffer_size (env : platform_env)
    (info : audio_offload_info_t) : Nat :=
  let bits_per_sample : Nat :=
    if info.format = env.AUDIO_FORMAT_PCM_24_BIT_OFFLOAD then 32 else 16
  let fragment_size1 :=
    if info.has_video = false then MAX_PCM_OFFLOAD_FRAGMENT_SIZE
    else if info.has_video = true ∧ info.is_streaming = true then
      ((PCM_OFFLOAD_BUFFER_DURATION_FOR_AV_STREAMING * info.sample_rate *
        (bits_per_sample >>> 3) * popcount info.channel_mask) % 2 ^ 32) / 1000
    else if info.has_video = true then
      ((PCM_OFFLOAD_BUFFER_DURATION_FOR_AV * info.sample_rate *
        (bits_per_sample >>> 3) * popcount info.channel_mask) % 2 ^ 32) / 1000
    else MIN_PCM_OFFLOAD_FRAGMENT_SIZE
  let fragment_size2 :=
    if env.offload_pcm_buffer_size.length ≠ 0 ∧ env.offload_pcm_buffer_size.atoi ≠ 0 then
      to_uint32 (env.offload_pcm_buffer_size.atoi * 1024)
    else fragment_size1
  let fragment_size3 := ALIGN fragment_size2 1024
  if fragment_size3 < MIN_PCM_OFFLOAD_FRAGMENT_SIZE then MIN_PCM_OFFLOAD_FRAGMENT_SIZE
  else if fragment_size3 > MAX_PCM_OFFLOAD_FRAGMENT_SIZE then MAX_PCM_OFFLOAD_FRAGMENT_SIZE
  else fragment_size3

/-! ## Table accessors -/

/-- The table `device_table` (platform.c lines 118-173). -/
def device_table : snd_device_t → String
  | SND_DEVICE_NONE => "none"
  | SND_DEVICE_OUT_HANDSET => "handset"
  | SND_DEVICE_OUT_SPEAKER => "speaker"
  | SND_DEVICE_OUT_SPEAKER_REVERSE => "speaker-reverse"
  | SND_DEVICE_OUT_HEADPHONES => "headphones"
  | SND_DEVICE_OUT_SPEAKER_AND_HEADPHONES => "speaker-and-headphones"
  | SND_DEVICE_OUT_VOICE_HANDSET => "voice-handset"
  | SND_DEVICE_OUT_VOICE_SPEAKER => "voice-speaker"
  | SND_DEVICE_OUT_VOICE_HEADPHONES => "voice-headphones"
  | SND_DEVICE_OUT_HDMI => "hdmi"
  | SND_DEVICE_OUT_SPEAKER_AND_HDMI => "speaker-and-hdmi"
  | SND_DEVICE_OUT_BT_SCO => "bt-sco-headset"
  | SND_DEVICE_OUT_VOICE_HANDSET_TMUS => "voice-handset-tmus"
  | SND_DEVICE_OUT_VOICE_TTY_FULL_HEADPHONES => "voice-tty-full-headphones"
  | SND_DEVICE_OUT_VOICE_TTY_VCO_HEADPHONES => "voice-tty-vco-headphones"
  | SND_DEVICE_OUT_VOICE_TTY_HCO_HANDSET => "voice-tty-hco-handset"
  | SND_DEVICE_OUT_AFE_PROXY => "afe-proxy"
  | SND_DEVICE_OUT_USB_HEADSET => "usb-headphones"
  | SND_DEVICE_OUT_SPEAKER_AND_USB_HEADSET => "speaker-and-usb-headphones"
  | SND_DEVICE_OUT_ANC_HEADSET => "anc-headphones"
  | SND_DEVICE_OUT_ANC_FB_HEADSET => "anc-fb-headphones"
  | SND_DEVICE_OUT_VOICE_ANC_HEADSET => "voice-anc-headphones"
  | SND_DEVICE_OUT_VOICE_ANC_FB_HEADSET => "voice-anc-fb-headphones"
  | SND_DEVICE_OUT_SPEAKER_AND_ANC_HEADSET => "speaker-and-anc-headphones"
  | SND_DEVICE_OUT_ANC_HANDSET => "anc-handset"
  | SND_DEVICE_IN_HANDSET_MIC => "handset-mic"
  | SND_DEVICE_IN_SPEAKER_MIC => "speaker-mic"
  | SND_DEVICE_IN_HEADSET_MIC => "headset-mic"
  | SND_DEVICE_IN_HANDSET_MIC_AEC => "handset-mic"
  | SND_DEVICE_IN_SPEAKER_MIC_AEC => "speaker-mic-aec"
  | SND_DEVICE_IN_HEADSET_MIC_AEC => "headset-mic"
  | SND_DEVICE_IN_VOICE_SPEAKER_MIC => "voice-speaker-mic"
  | SND_DEVICE_IN_VOICE_HEADSET_MIC => "voice-headset-mic"
  | SND_DEVICE_IN_HDMI_MIC => "hdmi-mic"
  | SND_DEVICE_IN_BT_SCO_MIC => "bt-sco-mic"
  | SND_DEVICE_IN_CAMCORDER_MIC => "camcorder-mic"
  | SND_DEVICE_IN_VOICE_DMIC_EF => "voice-dmic-ef"
  | SND_DEVICE_IN_VOICE_DMIC_BS => "voice-dmic-bs"
  | SND_DEVICE_IN_VOICE_DMIC_EF_TMUS => "voice-dmic-ef-tmus"
  | SND_DEVICE_IN_VOICE_SPEAKER_DMIC_EF => "voice-speaker-dmic-ef"
  | SND_DEVICE_IN_VOICE_SPEAKER_DMIC_BS => "voice-speaker-dmic-bs"
  | SND_DEVICE_IN_VOICE_TTY_FULL_HEADSET_MIC => "voice-tty-full-headset-mic"
  | SND_DEVICE_IN_VOICE_TTY_VCO_HANDSET_MIC => "voice-tty-vco-handset-mic"
  | SND_DEVICE_IN_VOICE_TTY_HCO_HEADSET_MIC => "voice-tty-hco-headset-mic"
  | SND_DEVICE_IN_VOICE_REC_MIC => "voice-rec-mic"
  | SND_DEVICE_IN_VOICE_REC_DMIC_EF => "voice-rec-dmic-ef"
  | SND_DEVICE_IN_VOICE_REC_DMIC_BS => "voice-rec-dmic-bs"
  | SND_DEVICE_IN_VOICE_REC_DMIC_EF_FLUENCE => "voice-rec-dmic-ef-fluence"
  | SND_DEVICE_IN_VOICE_REC_DMIC_BS_FLUENCE => "voice-rec-dmic-bs-fluence"
  | SND_DEVICE_IN_USB_HEADSET_MIC => "usb-headset-mic"
  | SND_DEVICE_IN_AANC_HANDSET_MIC => "aanc-handset-mic"

/-- The array read `device_table[i]` for a C integer `i`: the entry of the
device with that value, `none` when `i` is outside `[0, SND_DEVICE_MAX)`
(a read outside the array). -/
def device_table_at (i : Int) : Option String :=
  if 0 ≤ i ∧ i < SND_DEVICE_MAX then some (device_table (snd_device_t.ofNat i.toNat))
  else none

/-- The function `platform_get_snd_device_name` (platform.c lines 404-410);
`none` would be a read outside `device_table`. -/
def platform_get_snd_device_name (snd_device : Int) : Option String :=
  if snd_device ≥ SND_DEVICE_MIN ∧ snd_device < SND_DEVICE_MAX then
    device_table_at snd_device
  else some ""

/-- Modelled from the spec: `AUDIO_USECASE_MAX` of `audio_hw.h`, the number of
rows of `pcm_device_table`; the use cases named in the table take the values
0 to 6 in the order of the table. -/
def AUDIO_USECASE_MAX : Nat := 7
/-- Modelled from the spec: `PCM_PLAYBACK` of `audio_hw.h`, the playback
direction. -/
def PCM_PLAYBACK : Int := 0
/-- Modelled from the spec: `PCM_CAPTURE` of `audio_hw.h`, the capture
direction. -/
def PCM_CAPTURE : Int := 1

/-- The table `pcm_device_table` (platform.c lines 107-115): for each use
case the pair (playback index, capture index); the rows are deep buffer, low
latency, multi channel, offload, record, low-latency record and voice call. -/
def pcm_device_table : List (Int × Int) :=
  [(0, 0), (15, 15), (1, 1), (9, 9), (0, 0), (15, 15), (2, 2)]

/-- The array read `pcm_device_table[i]` for a C integer `i`: `none` when `i`
is outside `[0, AUDIO_USECASE_MAX)` (a read outside the array). -/
def pcm_device_table_at (i : Int) : Option (Int × Int) :=
  if 0 ≤ i then pcm_device_table[i.toNat]? else none

/-- The function `platform_get_pcm_device_id` (platform.c lines 435-443);
`none` is a read outside `pcm_device_table`. -/
def platform_get_pcm_device_id (usecase : Int) (device_type : Int) : Option Int :=
  if device_type = PCM_PLAYBACK then (pcm_device_table_at usecase).map (fun row => row.1)
  else (pcm_device_table_at usecase).map (fun row => row.2)

/-- A capture device: a sound device in `[SND_DEVICE_IN_BEGIN, SND_DEVICE_IN_END)`. -/
def is_capture_device (d : snd_device_t) : Prop :=
  SND_DEVICE_IN_BEGIN ≤ snd_device_value d ∧ snd_device_value d < SND_DEVICE_IN_END

instance (d : snd_device_t) : Decidable (is_capture_device d) := by
  unfold is_capture_device
  exact inferInstance

/-- A playback device: a sound device in
`[SND_DEVICE_OUT_BEGIN, SND_DEVICE_OUT_END)`. -/
def is_playback_device (d : snd_device_t) : Prop :=
  SND_DEVICE_OUT_BEGIN ≤ snd_device_value d ∧ snd_device_value d < SND_DEVICE_OUT_END

instance (d : snd_device_t) : Decidable (is_playback_device d) := by
  unfold is_playback_device
  exact inferInstance

/-! ## Initialisation -/

/-- The loop of `platform_init` that opens the mixer again while the handle
is NULL (platform.c lines 318-322): `m` is `adev->mixer` before the test of
the loop, and the result is `adev->mixer` after the loop. The first argument
bounds the number of rounds; `retry_num` grows by one in each round and the
loop stops when it is `RETRY_NUMBER`, so `RETRY_NUMBER` rounds are enough
when it starts at 0. -/
def mixer_open_retry (env : platform_env) : Nat → Nat → Option mixer → Option mixer
  | 0, _, m => m
  | fuel + 1, retry_num, m =>
    if m = none ∧ retry_num < RETRY_NUMBER then
      mixer_open_retry env fuel (retry_num + 1) (env.mixer_open (retry_num + 1))
    else m

/-- The dual-mic block of `platform_init` (platform.c lines 343-350) on the
platform data: `strcmp` returns 0 exactly when the two strings are equal. -/
def init_dualmic_config (env : platform_env) (my_data : platform_data) : platform_data :=
  let value := env.persist_audio_dualmic_config
  if value = "broadside" then
    { my_data with
        dualmic_config := DUALMIC_CONFIG_BROADSIDE,
        adev := { my_data.adev with acdb_settings := my_data.adev.acdb_settings ||| DMIC_FLAG } }
  else if value = "endfire" then
    { my_data with
        dualmic_config := DUALMIC_CONFIG_ENDFIRE,
        adev := { my_data.adev with acdb_settings := my_data.adev.acdb_settings ||| DMIC_FLAG } }
  else my_data

/-- The fluence block of `platform_init` (platform.c lines 352-367) on the
platform data. -/
def init_fluence (env : platform_env) (my_data : platform_data) : platform_data :=
  if my_data.dualmic_config ≠ DUALMIC_CONFIG_NONE then
    let a : platform_data :=
      if env.persist_audio_fluence_voicecall = "true" then
        { my_data with fluence_in_voice_call := true }
      else my_data
    let b : platform_data :=
      if env.persist_audio_fluence_voicerec = "true" then { a with fluence_in_voice_rec := true }
      else a
    if env.persist_audio_fluence_speaker = "true" then { b with fluence_in_spkr_mode := true }
    else b
  else my_data

/-- The block of `platform_init` that loads the calibration library
(platform.c lines 369-389) on the platform data; the call `acdb_init()`
changes nothing that platform.c reads. -/
def init_acdb_loader (env : platform_env) (my_data : platform_data) : platform_data :=
  match env.dlopen_acdb_loader with
  | none => my_data
  | some lib =>
    { my_data with
        acdb_send_audio_cal := lib.acdb_loader_send_audio_cal,
        acdb_send_voice_cal := lib.acdb_loader_send_voice_cal }

/-- The function `platform_init` (platform.c lines 310-395): the platform
data it returns, `none` when it returns NULL. `calloc` gives a block of
zeros, so the entry points of the calibration library start as NULL. -/
def platform_init (env : platform_env) (adev : audio_device) : Option platform_data :=
  match mixer_open_retry env RETRY_NUMBER 0 (env.mixer_open 0) with
  | none => none
  | some m =>
    if env.audio_route_init = false then none
    else
      let adev1 : audio_device := { adev with mixer := m, audio_route := true }
      let my_data0 : platform_data :=
        { adev := adev1,
          dualmic_config := DUALMIC_CONFIG_NONE,
          fluence_in_spkr_mode := false,
          fluence_in_voice_call := false,
          fluence_in_voice_rec := false,
          acdb_send_audio_cal := false,
          acdb_send_voice_cal := false }
      let my_data1 := init_dualmic_config env my_data0
      let my_data2 := init_fluence env my_data1
      let my_data3 := init_acdb_loader env my_data2
      some { my_data3 with adev := env.audio_extn_usb_init my_data3.adev }

/-! ## Concrete states used in the checks below -/

/-- An audio device in a voice call, everything else at its default. -/
def adev_in_call : audio_device := { mode := AUDIO_MODE_IN_CALL }

/-- Platform data whose audio device is in a voice call. -/
def data_in_call : platform_data := { adev := adev_in_call }

/-- Platform data in a voice call with TTY mode VCO, fluence on and an
endfire dual mic. -/
def data_tty_vco : platform_data :=
  { adev := { mode := AUDIO_MODE_IN_CALL, tty_mode := TTY_MODE_VCO },
    fluence_in_voice_call := true, dualmic_config := DUALMIC_CONFIG_ENDFIRE }

/-- Platform data in a voice call with TTY off, fluence on and an endfire
dual mic. -/
def data_in_call_fluence : platform_data :=
  { adev := adev_in_call, fluence_in_voice_call := true,
    dualmic_config := DUALMIC_CONFIG_ENDFIRE }

/-- Platform data outside a call: a mono voice-recognition input on the
built-in mic, a broadside dual mic and fluence for voice recognition. -/
def data_voice_rec : platform_data :=
  { adev :=
      { active_input :=
          some { source := AUDIO_SOURCE_VOICE_RECOGNITION,
                 device := AUDIO_DEVICE_IN_BUILTIN_MIC } },
    fluence_in_voice_rec := true, dualmic_config := DUALMIC_CONFIG_BROADSIDE }

/-- Platform data outside a call: a voice-communication input on the
built-in mic with AEC enabled. -/
def data_voip_aec : platform_data :=
  { adev :=
      { active_input :=
          some { source := AUDIO_SOURCE_VOICE_COMMUNICATION,
                 device := AUDIO_DEVICE_IN_BUILTIN_MIC, enable_aec := true } } }

/-- Platform data outside a call: a voice-communication input on the
built-in mic with AEC disabled. -/
def data_voip : platform_data :=
  { adev :=
      { active_input :=
          some { source := AUDIO_SOURCE_VOICE_COMMUNICATION,
                 device := AUDIO_DEVICE_IN_BUILTIN_MIC } } }

/-- Platform data outside a call: a plain microphone input on the wired
headset. -/
def data_mic_headset : platform_data :=
  { adev :=
      { active_input :=
          some { source := AUDIO_SOURCE_MIC, device := AUDIO_DEVICE_IN_WIRED_HEADSET } } }

/-- Platform data outside a call: a plain microphone input whose device mask
is the voice-call capture device. -/
def data_mic_voice_call : platform_data :=
  { adev :=
      { active_input :=
          some { source := AUDIO_SOURCE_MIC, device := AUDIO_DEVICE_IN_VOICE_CALL } } }

/-- Platform data with both entry points of the calibration library. -/
def data_acdb : platform_data :=
  { acdb_send_audio_cal := true, acdb_send_voice_cal := true }

/-- Two active playback use cases, asking for (16 bit, 44100 Hz) and
(24 bit, 48000 Hz), and one use case without an output stream. -/
def two_streams : List audio_usecase :=
  [{ out := some { sample_rate := 44100, bit_width := 16 } },
   { out := none },
   { out := some { sample_rate := 48000, bit_width := 24 } }]

/-- An audio device in normal mode with the use cases `two_streams`. -/
def adev_two_streams : audio_device := { usecase_list := two_streams }

/-- An environment in which the property `audio.offload.24bit.enable` is 1. -/
def env_24bit : platform_env := { offload_24bit_enable := { length := 1, atoi := 1 } }

/-- A mixer with the two backend controls. -/
def mixer_backend : mixer := { ctl_names := ["SLIM_0_RX Format", "SLIM_0_RX SampleRate"] }

/-- An audio device in normal mode whose backend runs at (24 bit, 96000 Hz),
with both backend controls and one playback stream asking for
(16 bit, 96000 Hz). -/
def adev_after_24bit : audio_device :=
  { mixer := mixer_backend,
    usecase_list := [{ out := some { sample_rate := 96000, bit_width := 16 } }],
    cur_codec_backend_bit_width := 24, cur_codec_backend_samplerate := 96000 }

/-- An audio device in normal mode with the default backend state, both
backend controls and the use cases `two_streams`. -/
def adev_two_streams_backend : audio_device :=
  { mixer := mixer_backend, usecase_list := two_streams }

/-- An environment in which the property `audio.offload.buffer.size.kb` is 3. -/
def env_buffer_3kb : platform_env := { offload_buffer_size_kb := { length := 1, atoi := 3 } }

/-- A stream description without video, everything else at its default. -/
def info_audio_only : audio_offload_info_t := {}

/-- A stream description of a video stream that is streamed. -/
def info_av_streaming : audio_offload_info_t := { has_video := true, is_streaming := true }

/-- An environment whose SIM operator is one of the listed carrier codes. -/
def env_tmus : platform_env := { operator_numeric := 310260 }

/-- An environment with ANC enabled (feed-forward). -/
def env_anc : platform_env := { audio_extn_get_anc_enabled := true }

/-- An environment whose dual-mic property is "broadside" and whose three
fluence properties are "true". -/
def env_broadside_fluence : platform_env :=
  { persist_audio_dualmic_config := "broadside",
    persist_audio_fluence_voicecall := "true",
    persist_audio_fluence_voicerec := "true",
    persist_audio_fluence_speaker := "true" }

/-- Platform data with a mixer, an audio route, the dual-mic bit of the
calibration settings, a broadside dual mic and the three fluence flags. -/
def data_broadside_fluence : platform_data :=
  { adev := { audio_route := true, acdb_settings := DMIC_FLAG },
    fluence_in_spkr_mode := true, fluence_in_voice_call := true, fluence_in_voice_rec := true,
    dualmic_config := DUALMIC_CONFIG_BROADSIDE }

/-- An environment whose three fluence properties are "true" and whose
dual-mic property is not set. -/
def env_fluence_only : platform_env :=
  { persist_audio_fluence_voicecall := "true",
    persist_audio_fluence_voicerec := "true",
    persist_audio_fluence_speaker := "true" }


/-! ## Facts about `popcount` -/

theorem popcountAux_eq_zero (fuel : Nat) :
    ∀ n : Nat, popcountAux fuel n = 0 → n % 2 ^ fuel = 0 := by
  induction fuel with
  | zero => intro n _; simp [Nat.mod_one]
  | succ f ih =>
    intro n h
    simp only [popcountAux] at h
    have h1 : n % 2 = 0 := by omega
    have h2 : popcountAux f (n / 2) = 0 := by omega
    have h3 := ih (n / 2) h2
    rw [pow_succ', Nat.mod_mul, h1, h3]

theorem popcountAux_eq_one (fuel : Nat) :
    ∀ n : Nat, popcountAux fuel n = 1 → ∃ k, k < fuel ∧ n % 2 ^ fuel = 2 ^ k := by
  induction fuel with
  | zero => intro n h; simp [popcountAux] at h
  | succ f ih =>
    intro n h
    simp only [popcountAux] at h
    rcases Nat.mod_two_eq_zero_or_one n with h0 | h1
    · have h2 : popcountAux f (n / 2) = 1 := by omega
      obtain ⟨k, hk, hk2⟩ := ih (n / 2) h2
      refine ⟨k + 1, by omega, ?_⟩
      rw [pow_succ', Nat.mod_mul, h0, hk2, pow_succ']
      omega
    · have h2 : popcountAux f (n / 2) = 0 := by omega
      have h3 := popcountAux_eq_zero f (n / 2) h2
      refine ⟨0, by omega, ?_⟩
      rw [pow_succ', Nat.mod_mul, h1, h3]
      simp

/-- A 32-bit word with exactly one bit set is a power of two. -/
theorem popcount_eq_one (n : Nat) (h32 : n < 2 ^ 32) (h : popcount n = 1) :
    ∃ k, k < 32 ∧ n = 2 ^ k := by
  obtain ⟨k, hk, hk2⟩ := popcountAux_eq_one 32 n h
  rw [Nat.mod_eq_of_lt h32] at hk2
  exact ⟨k, hk, hk2⟩

/-! ## Output routing: how the function splits -/

/-- A valid mask in a call on which a voice-call rule fires: the result is
that rule's device. -/
theorem output_of_voice_rule (env : platform_env) (my_data : platform_data)
    (op : operator_state) (devices : Nat)
    (hne : devices ≠ AUDIO_DEVICE_NONE) (hin : devices &&& AUDIO_DEVICE_BIT_IN = 0)
    (hmode : my_data.adev.mode = AUDIO_MODE_IN_CALL)
    (hv : (output_voice_call_rules env my_data.adev op
      (popcount (active_channel_mask my_data.adev)) devices).1 ≠ SND_DEVICE_NONE) :
    (platform_get_output_snd_device env my_data op devices).snd_device =
      (output_voice_call_rules env my_data.adev op
        (popcount (active_channel_mask my_data.adev)) devices).1 := by
  have h0 : ¬ (devices = AUDIO_DEVICE_NONE ∨ devices &&& AUDIO_DEVICE_BIT_IN ≠ 0) := by
    rintro (h | h)
    · exact hne h
    · exact h hin
  unfold platform_get_output_snd_device
  simp only [if_neg h0, hmode, if_true, true_and]
  rw [if_pos hv]

/-- A valid mask on which no voice-call rule fires (the mode is not in-call,
or none of the rules matches): the result comes from the combination rules
when two bits are set, from the single-device rules when one bit is set, and
is `SND_DEVICE_NONE` otherwise. -/
theorem output_of_later_rules (env : platform_env) (my_data : platform_data)
    (op : operator_state) (devices : Nat)
    (hne : devices ≠ AUDIO_DEVICE_NONE) (hin : devices &&& AUDIO_DEVICE_BIT_IN = 0)
    (hv : my_data.adev.mode = AUDIO_MODE_IN_CALL →
      (output_voice_call_rules env my_data.adev op
        (popcount (active_channel_mask my_data.adev)) devices).1 = SND_DEVICE_NONE) :
    (platform_get_output_snd_device env my_data op devices).snd_device =
      if popcount devices = 2 then (output_combo_rules env devices).getD SND_DEVICE_NONE
      else if popcount devices ≠ 1 then SND_DEVICE_NONE
      else (output_single_rules env my_data.adev devices).1 := by
  have h0 : ¬ (devices = AUDIO_DEVICE_NONE ∨ devices &&& AUDIO_DEVICE_BIT_IN ≠ 0) := by
    rintro (h | h)
    · exact hne h
    · exact h hin
  unfold platform_get_output_snd_device
  simp only [if_neg h0]
  by_cases hm : my_data.adev.mode = AUDIO_MODE_IN_CALL
  · have hv1 := hv hm
    simp only [hm, if_true, true_and, hv1, ne_eq, not_true_eq_false, if_false]
    split_ifs with h2 h1
    · cases hc : output_combo_rules env devices <;> simp
    · rfl
    · rfl
  · simp only [hm, if_false, false_and]
    split_ifs with h2 h1
    · cases hc : output_combo_rules env devices <;> simp
    · rfl
    · rfl

/-- An empty mask or a mask with the input bit gives no device. -/
theorem output_invalid_mask (env : platform_env) (my_data : platform_data)
    (op : operator_state) (devices : Nat)
    (h : devices = AUDIO_DEVICE_NONE ∨ devices &&& AUDIO_DEVICE_BIT_IN ≠ 0) :
    (platform_get_output_snd_device env my_data op devices).snd_device = SND_DEVICE_NONE := by
  unfold platform_get_output_snd_device
  simp only [if_pos h]

/-- None of the bits 0 to 30 is the input bit. -/
theorem low_bits_not_input : ∀ k : Nat, k < 31 → 2 ^ k &&& AUDIO_DEVICE_BIT_IN = 0 := by
  decide

/-- The voice-call rules on a mask with a wired headphone or headset bit. -/
theorem voice_rules_wired (env : platform_env) (adev : audio_device)
    (op : operator_state) (cc devices : Nat)
    (hw : devices &&& AUDIO_DEVICE_OUT_WIRED_HEADPHONE ≠ 0 ∨
      devices &&& AUDIO_DEVICE_OUT_WIRED_HEADSET ≠ 0) :
    (output_voice_call_rules env adev op cc devices).1 =
      if adev.tty_mode = TTY_MODE_FULL then SND_DEVICE_OUT_VOICE_TTY_FULL_HEADPHONES
      else if adev.tty_mode = TTY_MODE_VCO then SND_DEVICE_OUT_VOICE_TTY_VCO_HEADPHONES
      else if adev.tty_mode = TTY_MODE_HCO then SND_DEVICE_OUT_VOICE_TTY_HCO_HANDSET
      else if env.audio_extn_get_anc_enabled = true then
        if env.audio_extn_should_use_fb_anc = true then SND_DEVICE_OUT_VOICE_ANC_FB_HEADSET
        else SND_DEVICE_OUT_VOICE_ANC_HEADSET
      else SND_DEVICE_OUT_VOICE_HEADPHONES := by
  unfold output_voice_call_rules
  rw [if_pos hw]
  split_ifs <;> rfl

/-- The voice-call rules on a mask without wired and dock bits. -/
theorem voice_rules_unwired (env : platform_env) (adev : audio_device)
    (op : operator_state) (cc devices : Nat)
    (hhp : devices &&& AUDIO_DEVICE_OUT_WIRED_HEADPHONE = 0)
    (hhs : devices &&& AUDIO_DEVICE_OUT_WIRED_HEADSET = 0)
    (hdock : env.USB_HEADSET_ENABLED = true →
      devices &&& AUDIO_DEVICE_OUT_ANLG_DOCK_HEADSET = 0 ∧
        devices &&& AUDIO_DEVICE_OUT_DGTL_DOCK_HEADSET = 0) :
    (output_voice_call_rules env adev op cc devices).1 =
      if devices &&& AUDIO_DEVICE_OUT_ALL_SCO ≠ 0 then SND_DEVICE_OUT_BT_SCO
      else if devices &&& AUDIO_DEVICE_OUT_SPEAKER ≠ 0 then SND_DEVICE_OUT_VOICE_SPEAKER
      else if devices &&& AUDIO_DEVICE_OUT_EARPIECE ≠ 0 then
        if (is_operator_tmus env op).1 = true then SND_DEVICE_OUT_VOICE_HANDSET_TMUS
        else if env.audio_extn_should_use_handset_anc cc = true then SND_DEVICE_OUT_ANC_HANDSET
        else SND_DEVICE_OUT_HANDSET
      else SND_DEVICE_NONE := by
  have hw : ¬ (devices &&& AUDIO_DEVICE_OUT_WIRED_HEADPHONE ≠ 0 ∨
      devices &&& AUDIO_DEVICE_OUT_WIRED_HEADSET ≠ 0) := by
    rintro (h | h)
    · exact h hhp
    · exact h hhs
  have hd : ¬ (env.USB_HEADSET_ENABLED = true ∧
      (devices &&& AUDIO_DEVICE_OUT_ANLG_DOCK_HEADSET ≠ 0 ∨
        devices &&& AUDIO_DEVICE_OUT_DGTL_DOCK_HEADSET ≠ 0)) := by
    rintro ⟨hu, h | h⟩
    · exact h (hdock hu).1
    · exact h (hdock hu).2
  unfold output_voice_call_rules
  rw [if_neg hw, if_neg hd]
  dsimp only
  split_ifs <;> simp_all

/-! ## Output routing: the claims -/

/-- C1: `platform_get_output_snd_device` returns `SND_DEVICE_NONE`, for every
mode, TTY mode and ANC or carrier state, whenever the device mask is
`AUDIO_DEVICE_NONE` or has the `AUDIO_DEVICE_BIT_IN` bit set. -/
theorem output_none_on_empty_or_input_mask (env : platform_env) (my_data : platform_data)
    (op : operator_state) (devices : Nat)
    (h : devices = AUDIO_DEVICE_NONE ∨ devices &&& AUDIO_DEVICE_BIT_IN ≠ 0) :
    (platform_get_output_snd_device env my_data op devices).snd_device = SND_DEVICE_NONE :=
  output_invalid_mask env my_data op devices h

theorem output_none_on_empty_or_input_mask_witness :
    (AUDIO_DEVICE_IN_BUILTIN_MIC = AUDIO_DEVICE_NONE ∨
        AUDIO_DEVICE_IN_BUILTIN_MIC &&& AUDIO_DEVICE_BIT_IN ≠ 0) ∧
      (platform_get_output_snd_device {} data_in_call {} AUDIO_DEVICE_IN_BUILTIN_MIC).snd_device
        = SND_DEVICE_NONE :=
  ⟨by decide, output_none_on_empty_or_input_mask {} data_in_call {}
    AUDIO_DEVICE_IN_BUILTIN_MIC (by decide)⟩

/-- C2: in `AUDIO_MODE_IN_CALL`, for every non-empty output mask without the
input bit that contains the wired-headphone or the wired-headset bit (whatever
else is set), the result is the TTY device of the TTY mode (FULL, VCO, HCO);
otherwise, with ANC enabled, the feedback or the plain voice ANC headset;
otherwise the voice headphones. -/
theorem output_in_call_wired (env : platform_env) (my_data : platform_data)
    (op : operator_state) (devices : Nat)
    (hmode : my_data.adev.mode = AUDIO_MODE_IN_CALL)
    (hne : devices ≠ AUDIO_DEVICE_NONE)
    (hin : devices &&& AUDIO_DEVICE_BIT_IN = 0)
    (hw : devices &&& AUDIO_DEVICE_OUT_WIRED_HEADPHONE ≠ 0 ∨
      devices &&& AUDIO_DEVICE_OUT_WIRED_HEADSET ≠ 0) :
    (platform_get_output_snd_device env my_data op devices).snd_device =
      if my_data.adev.tty_mode = TTY_MODE_FULL then SND_DEVICE_OUT_VOICE_TTY_FULL_HEADPHONES
      else if my_data.adev.tty_mode = TTY_MODE_VCO then SND_DEVICE_OUT_VOICE_TTY_VCO_HEADPHONES
      else if my_data.adev.tty_mode = TTY_MODE_HCO then SND_DEVICE_OUT_VOICE_TTY_HCO_HANDSET
      else if env.audio_extn_get_anc_enabled = true then
        if env.audio_extn_should_use_fb_anc = true then SND_DEVICE_OUT_VOICE_ANC_FB_HEADSET
        else SND_DEVICE_OUT_VOICE_ANC_HEADSET
      else SND_DEVICE_OUT_VOICE_HEADPHONES := by
  have hv := voice_rules_wired env my_data.adev op
    (popcount (active_channel_mask my_data.adev)) devices hw
  rw [output_of_voice_rule env my_data op devices hne hin hmode, hv]
  rw [hv]
  split_ifs <;> simp

theorem output_in_call_wired_witness :
    data_in_call.adev.mode = AUDIO_MODE_IN_CALL ∧
      (AUDIO_DEVICE_OUT_WIRED_HEADSET ||| AUDIO_DEVICE_OUT_SPEAKER) ≠ AUDIO_DEVICE_NONE ∧
      (platform_get_output_snd_device {} data_in_call {}
          (AUDIO_DEVICE_OUT_WIRED_HEADSET ||| AUDIO_DEVICE_OUT_SPEAKER)).snd_device =
        SND_DEVICE_OUT_VOICE_HEADPHONES :=
  ⟨rfl, by decide,
    output_in_call_wired {} data_in_call {}
      (AUDIO_DEVICE_OUT_WIRED_HEADSET ||| AUDIO_DEVICE_OUT_SPEAKER) rfl (by decide) (by decide)
      (by decide)⟩

/-- C3: in `AUDIO_MODE_IN_CALL`, for every valid output mask with neither the
wired-headphone nor the wired-headset bit and no dock bit, on which one of
the remaining voice rules matches: `BT_SCO` if a Bluetooth-SCO bit is set;
otherwise `VOICE_SPEAKER` if the speaker bit is set; otherwise, with the
earpiece bit set, `VOICE_HANDSET_TMUS` when the carrier predicate is true,
`ANC_HANDSET` when it is false and the handset-ANC predicate is true, and the
plain `HANDSET` when both are false. -/
theorem output_in_call_unwired (env : platform_env) (my_data : platform_data)
    (op : operator_state) (devices : Nat)
    (hmode : my_data.adev.mode = AUDIO_MODE_IN_CALL)
    (hne : devices ≠ AUDIO_DEVICE_NONE)
    (hin : devices &&& AUDIO_DEVICE_BIT_IN = 0)
    (hhp : devices &&& AUDIO_DEVICE_OUT_WIRED_HEADPHONE = 0)
    (hhs : devices &&& AUDIO_DEVICE_OUT_WIRED_HEADSET = 0)
    (hdock : devices &&& AUDIO_DEVICE_OUT_ANLG_DOCK_HEADSET = 0 ∧
      devices &&& AUDIO_DEVICE_OUT_DGTL_DOCK_HEADSET = 0)
    (hsome : devices &&& AUDIO_DEVICE_OUT_ALL_SCO ≠ 0 ∨
      devices &&& AUDIO_DEVICE_OUT_SPEAKER ≠ 0 ∨ devices &&& AUDIO_DEVICE_OUT_EARPIECE ≠ 0) :
    (platform_get_output_snd_device env my_data op devices).snd_device =
      if devices &&& AUDIO_DEVICE_OUT_ALL_SCO ≠ 0 then SND_DEVICE_OUT_BT_SCO
      else if devices &&& AUDIO_DEVICE_OUT_SPEAKER ≠ 0 then SND_DEVICE_OUT_VOICE_SPEAKER
      else if (is_operator_tmus env op).1 = true then SND_DEVICE_OUT_VOICE_HANDSET_TMUS
      else if env.audio_extn_should_use_handset_anc
          (popcount (active_channel_mask my_data.adev)) = true then SND_DEVICE_OUT_ANC_HANDSET
      else SND_DEVICE_OUT_HANDSET := by
  have hv := voice_rules_unwired env my_data.adev op
    (popcount (active_channel_mask my_data.adev)) devices hhp hhs (fun _ => hdock)
  have heq : (output_voice_call_rules env my_data.adev op
      (popcount (active_channel_mask my_data.adev)) devices).1 =
      if devices &&& AUDIO_DEVICE_OUT_ALL_SCO ≠ 0 then SND_DEVICE_OUT_BT_SCO
      else if devices &&& AUDIO_DEVICE_OUT_SPEAKER ≠ 0 then SND_DEVICE_OUT_VOICE_SPEAKER
      else if (is_operator_tmus env op).1 = true then SND_DEVICE_OUT_VOICE_HANDSET_TMUS
      else if env.audio_extn_should_use_handset_anc
          (popcount (active_channel_mask my_data.adev)) = true then SND_DEVICE_OUT_ANC_HANDSET
      else SND_DEVICE_OUT_HANDSET := by
    rw [hv]
    by_cases h1 : devices &&& AUDIO_DEVICE_OUT_ALL_SCO ≠ 0
    · simp only [if_pos h1]
    · by_cases h2 : devices &&& AUDIO_DEVICE_OUT_SPEAKER ≠ 0
      · simp only [if_neg h1, if_pos h2]
      · have h3 : devices &&& AUDIO_DEVICE_OUT_EARPIECE ≠ 0 := by tauto
        simp only [if_neg h1, if_neg h2, if_pos h3]
  rw [output_of_voice_rule env my_data op devices hne hin hmode, heq]
  rw [heq]
  split_ifs <;> simp

theorem output_in_call_unwired_witness :
    data_in_call.adev.mode = AUDIO_MODE_IN_CALL ∧
      AUDIO_DEVICE_OUT_EARPIECE &&& AUDIO_DEVICE_OUT_WIRED_HEADPHONE = 0 ∧
      (platform_get_output_snd_device env_tmus data_in_call {}
          AUDIO_DEVICE_OUT_EARPIECE).snd_device = SND_DEVICE_OUT_VOICE_HANDSET_TMUS :=
  ⟨rfl, by decide,
    output_in_call_unwired env_tmus data_in_call {} AUDIO_DEVICE_OUT_EARPIECE rfl
      (by decide) (by decide) (by decide) (by decide) (by decide) (by decide)⟩

/-- C4: when the mode is not `AUDIO_MODE_IN_CALL`, the mask exactly equal to
`WIRED_HEADPHONE|SPEAKER` gives `SPEAKER_AND_HEADPHONES`, `WIRED_HEADSET|SPEAKER`
gives `SPEAKER_AND_ANC_HEADSET` with ANC enabled and `SPEAKER_AND_HEADPHONES`
without, `AUX_DIGITAL|SPEAKER` gives `SPEAKER_AND_HDMI`, and
`ANLG_DOCK_HEADSET|SPEAKER` gives `SPEAKER_AND_USB_HEADSET`. -/
theorem output_known_combinations (env : platform_env) (my_data : platform_data)
    (op : operator_state) (hmode : my_data.adev.mode ≠ AUDIO_MODE_IN_CALL) :
    (platform_get_output_snd_device env my_data op
        (AUDIO_DEVICE_OUT_WIRED_HEADPHONE ||| AUDIO_DEVICE_OUT_SPEAKER)).snd_device =
      SND_DEVICE_OUT_SPEAKER_AND_HEADPHONES ∧
    (platform_get_output_snd_device env my_data op
        (AUDIO_DEVICE_OUT_WIRED_HEADSET ||| AUDIO_DEVICE_OUT_SPEAKER)).snd_device =
      (if env.audio_extn_get_anc_enabled = true then SND_DEVICE_OUT_SPEAKER_AND_ANC_HEADSET
        else SND_DEVICE_OUT_SPEAKER_AND_HEADPHONES) ∧
    (platform_get_output_snd_device env my_data op
        (AUDIO_DEVICE_OUT_AUX_DIGITAL ||| AUDIO_DEVICE_OUT_SPEAKER)).snd_device =
      SND_DEVICE_OUT_SPEAKER_AND_HDMI ∧
    (platform_get_output_snd_device env my_data op
        (AUDIO_DEVICE_OUT_ANLG_DOCK_HEADSET ||| AUDIO_DEVICE_OUT_SPEAKER)).snd_device =
      SND_DEVICE_OUT_SPEAKER_AND_USB_HEADSET := by
  have hv : ∀ d : Nat, my_data.adev.mode = AUDIO_MODE_IN_CALL →
      (output_voice_call_rules env my_data.adev op
        (popcount (active_channel_mask my_data.adev)) d).1 = SND_DEVICE_NONE :=
    fun _ h => absurd h hmode
  refine ⟨?_, ?_, ?_, ?_⟩
  · rw [output_of_later_rules env my_data op _ (by decide) (by decide) (hv _),
      if_pos (by decide)]
    unfold output_combo_rules
    rw [if_pos rfl]
    rfl
  · rw [output_of_later_rules env my_data op _ (by decide) (by decide) (hv _),
      if_pos (by decide)]
    unfold output_combo_rules
    rw [if_neg (by decide), if_pos rfl]
    split_ifs <;> rfl
  · rw [output_of_later_rules env my_data op _ (by decide) (by decide) (hv _),
      if_pos (by decide)]
    unfold output_combo_rules
    rw [if_neg (by decide), if_neg (by decide), if_pos rfl]
    rfl
  · rw [output_of_later_rules env my_data op _ (by decide) (by decide) (hv _),
      if_pos (by decide)]
    unfold output_combo_rules
    rw [if_neg (by decide), if_neg (by decide), if_neg (by decide), if_pos rfl]
    rfl

theorem output_known_combinations_witness :
    (({} : platform_data).adev.mode ≠ AUDIO_MODE_IN_CALL) ∧
      (platform_get_output_snd_device env_anc {} {}
          (AUDIO_DEVICE_OUT_WIRED_HEADSET ||| AUDIO_DEVICE_OUT_SPEAKER)).snd_device =
        SND_DEVICE_OUT_SPEAKER_AND_ANC_HEADSET :=
  ⟨by decide, (output_known_combinations env_anc {} {} (by decide)).2.1⟩

/-- C5, as stated, fails: in a voice call the two-bit mask `SPEAKER|EARPIECE`,
which is none of the four known combinations, is routed to `VOICE_SPEAKER`
by the voice-call rules instead of being rejected. -/
theorem output_two_bits_in_call_counterexample :
    popcount (AUDIO_DEVICE_OUT_SPEAKER ||| AUDIO_DEVICE_OUT_EARPIECE) = 2 ∧
      (AUDIO_DEVICE_OUT_SPEAKER ||| AUDIO_DEVICE_OUT_EARPIECE) ≠
        (AUDIO_DEVICE_OUT_WIRED_HEADPHONE ||| AUDIO_DEVICE_OUT_SPEAKER) ∧
      (AUDIO_DEVICE_OUT_SPEAKER ||| AUDIO_DEVICE_OUT_EARPIECE) ≠
        (AUDIO_DEVICE_OUT_WIRED_HEADSET ||| AUDIO_DEVICE_OUT_SPEAKER) ∧
      (AUDIO_DEVICE_OUT_SPEAKER ||| AUDIO_DEVICE_OUT_EARPIECE) ≠
        (AUDIO_DEVICE_OUT_AUX_DIGITAL ||| AUDIO_DEVICE_OUT_SPEAKER) ∧
      (AUDIO_DEVICE_OUT_SPEAKER ||| AUDIO_DEVICE_OUT_EARPIECE) ≠
        (AUDIO_DEVICE_OUT_ANLG_DOCK_HEADSET ||| AUDIO_DEVICE_OUT_SPEAKER) ∧
      (AUDIO_DEVICE_OUT_SPEAKER ||| AUDIO_DEVICE_OUT_EARPIECE) ≠
        (AUDIO_DEVICE_OUT_DGTL_DOCK_HEADSET ||| AUDIO_DEVICE_OUT_SPEAKER) ∧
      (platform_get_output_snd_device {} data_in_call {}
          (AUDIO_DEVICE_OUT_SPEAKER ||| AUDIO_DEVICE_OUT_EARPIECE)).snd_device =
        SND_DEVICE_OUT_VOICE_SPEAKER ∧
      (platform_get_output_snd_device {} data_in_call {}
          (AUDIO_DEVICE_OUT_SPEAKER ||| AUDIO_DEVICE_OUT_EARPIECE)).snd_device ≠
        SND_DEVICE_NONE := by
  decide

/-- The voice-call rules find nothing on a mask with none of their bits. -/
theorem voice_rules_none (env : platform_env) (adev : audio_device)
    (op : operator_state) (cc devices : Nat)
    (hhp : devices &&& AUDIO_DEVICE_OUT_WIRED_HEADPHONE = 0)
    (hhs : devices &&& AUDIO_DEVICE_OUT_WIRED_HEADSET = 0)
    (hsco : devices &&& AUDIO_DEVICE_OUT_ALL_SCO = 0)
    (hspk : devices &&& AUDIO_DEVICE_OUT_SPEAKER = 0)
    (hear : devices &&& AUDIO_DEVICE_OUT_EARPIECE = 0)
    (hdock : env.USB_HEADSET_ENABLED = true →
      devices &&& AUDIO_DEVICE_OUT_ANLG_DOCK_HEADSET = 0 ∧
        devices &&& AUDIO_DEVICE_OUT_DGTL_DOCK_HEADSET = 0) :
    (output_voice_call_rules env adev op cc devices).1 = SND_DEVICE_NONE := by
  rw [voice_rules_unwired env adev op cc devices hhp hhs hdock]
  rw [if_neg (not_not.mpr hsco), if_neg (not_not.mpr hspk), if_neg (not_not.mpr hear)]

/-- C5, amended: when the mode is not `AUDIO_MODE_IN_CALL`, or it is and the
mask has none of the bits of the voice-call rules (wired headphone, wired
headset, Bluetooth SCO, speaker, earpiece, and the dock bits where USB headsets
are built in), every mask with exactly two bits set that is not one of the four
known speaker combinations gives `SND_DEVICE_NONE`. -/
theorem output_two_bits_rejected (env : platform_env) (my_data : platform_data)
    (op : operator_state) (devices : Nat)
    (hpop : popcount devices = 2)
    (h1 : devices ≠ AUDIO_DEVICE_OUT_WIRED_HEADPHONE ||| AUDIO_DEVICE_OUT_SPEAKER)
    (h2 : devices ≠ AUDIO_DEVICE_OUT_WIRED_HEADSET ||| AUDIO_DEVICE_OUT_SPEAKER)
    (h3 : devices ≠ AUDIO_DEVICE_OUT_AUX_DIGITAL ||| AUDIO_DEVICE_OUT_SPEAKER)
    (h4 : devices ≠ AUDIO_DEVICE_OUT_ANLG_DOCK_HEADSET ||| AUDIO_DEVICE_OUT_SPEAKER)
    (hcall : my_data.adev.mode = AUDIO_MODE_IN_CALL →
      devices &&& AUDIO_DEVICE_OUT_WIRED_HEADPHONE = 0 ∧
      devices &&& AUDIO_DEVICE_OUT_WIRED_HEADSET = 0 ∧
      devices &&& AUDIO_DEVICE_OUT_ALL_SCO = 0 ∧
      devices &&& AUDIO_DEVICE_OUT_SPEAKER = 0 ∧
      devices &&& AUDIO_DEVICE_OUT_EARPIECE = 0 ∧
      (env.USB_HEADSET_ENABLED = true →
        devices &&& AUDIO_DEVICE_OUT_ANLG_DOCK_HEADSET = 0 ∧
          devices &&& AUDIO_DEVICE_OUT_DGTL_DOCK_HEADSET = 0)) :
    (platform_get_output_snd_device env my_data op devices).snd_device = SND_DEVICE_NONE := by
  by_cases h0 : devices = AUDIO_DEVICE_NONE ∨ devices &&& AUDIO_DEVICE_BIT_IN ≠ 0
  · exact output_invalid_mask env my_data op devices h0
  · have hne : devices ≠ AUDIO_DEVICE_NONE := fun h => h0 (Or.inl h)
    have hin : devices &&& AUDIO_DEVICE_BIT_IN = 0 := by
      by_contra h
      exact h0 (Or.inr h)
    have hv : my_data.adev.mode = AUDIO_MODE_IN_CALL →
        (output_voice_call_rules env my_data.adev op
          (popcount (active_channel_mask my_data.adev)) devices).1 = SND_DEVICE_NONE := by
      intro hm
      obtain ⟨a, b, c, d, e, f⟩ := hcall hm
      exact voice_rules_none env my_data.adev op _ devices a b c d e f
    rw [output_of_later_rules env my_data op devices hne hin hv, if_pos hpop]
    unfold output_combo_rules
    rw [if_neg h1, if_neg h2, if_neg h3, if_neg h4]
    rfl

theorem output_two_bits_rejected_witness :
    popcount (AUDIO_DEVICE_OUT_SPEAKER ||| AUDIO_DEVICE_OUT_EARPIECE) = 2 ∧
      (platform_get_output_snd_device {} {} {}
          (AUDIO_DEVICE_OUT_SPEAKER ||| AUDIO_DEVICE_OUT_EARPIECE)).snd_device =
        SND_DEVICE_NONE :=
  ⟨by decide,
    output_two_bits_rejected {} {} {} (AUDIO_DEVICE_OUT_SPEAKER ||| AUDIO_DEVICE_OUT_EARPIECE)
      (by decide) (by decide) (by decide) (by decide) (by decide)
      (fun h => absurd h (by decide))⟩

/-- C6: when the mode is not `AUDIO_MODE_IN_CALL`, every output mask with two
or more bits set that is not one of the four known speaker combinations gives
`SND_DEVICE_NONE`; in particular every mask with three or more bits set is
rejected. -/
theorem output_multi_bit_rejected (env : platform_env) (my_data : platform_data)
    (op : operator_state) (devices : Nat)
    (hmode : my_data.adev.mode ≠ AUDIO_MODE_IN_CALL)
    (hin : devices &&& AUDIO_DEVICE_BIT_IN = 0) :
    (2 ≤ popcount devices →
      devices ≠ AUDIO_DEVICE_OUT_WIRED_HEADPHONE ||| AUDIO_DEVICE_OUT_SPEAKER →
      devices ≠ AUDIO_DEVICE_OUT_WIRED_HEADSET ||| AUDIO_DEVICE_OUT_SPEAKER →
      devices ≠ AUDIO_DEVICE_OUT_AUX_DIGITAL ||| AUDIO_DEVICE_OUT_SPEAKER →
      devices ≠ AUDIO_DEVICE_OUT_ANLG_DOCK_HEADSET ||| AUDIO_DEVICE_OUT_SPEAKER →
      (platform_get_output_snd_device env my_data op devices).snd_device = SND_DEVICE_NONE) ∧
    (3 ≤ popcount devices →
      (platform_get_output_snd_device env my_data op devices).snd_device = SND_DEVICE_NONE) := by
  have key : 2 ≤ popcount devices →
      devices ≠ AUDIO_DEVICE_OUT_WIRED_HEADPHONE ||| AUDIO_DEVICE_OUT_SPEAKER →
      devices ≠ AUDIO_DEVICE_OUT_WIRED_HEADSET ||| AUDIO_DEVICE_OUT_SPEAKER →
      devices ≠ AUDIO_DEVICE_OUT_AUX_DIGITAL ||| AUDIO_DEVICE_OUT_SPEAKER →
      devices ≠ AUDIO_DEVICE_OUT_ANLG_DOCK_HEADSET ||| AUDIO_DEVICE_OUT_SPEAKER →
      (platform_get_output_snd_device env my_data op devices).snd_device =
        SND_DEVICE_NONE := by
    intro hpop h1 h2 h3 h4
    have hne : devices ≠ AUDIO_DEVICE_NONE := by
      intro h
      rw [h] at hpop
      revert hpop
      decide
    rw [output_of_later_rules env my_data op devices hne hin (fun h => absurd h hmode)]
    by_cases hp2 : popcount devices = 2
    · rw [if_pos hp2]
      unfold output_combo_rules
      rw [if_neg h1, if_neg h2, if_neg h3, if_neg h4]
      rfl
    · have hp1 : popcount devices ≠ 1 := by omega
      rw [if_neg hp2, if_pos hp1]
  refine ⟨key, fun hpop => key (by omega) ?_ ?_ ?_ ?_⟩
  · intro h
    rw [h] at hpop
    revert hpop
    decide
  · intro h
    rw [h] at hpop
    revert hpop
    decide
  · intro h
    rw [h] at hpop
    revert hpop
    decide
  · intro h
    rw [h] at hpop
    revert hpop
    decide

theorem output_multi_bit_rejected_witness :
    (({} : platform_data).adev.mode ≠ AUDIO_MODE_IN_CALL) ∧
      3 ≤ popcount (AUDIO_DEVICE_OUT_WIRED_HEADPHONE ||| AUDIO_DEVICE_OUT_SPEAKER |||
        AUDIO_DEVICE_OUT_EARPIECE) ∧
      (platform_get_output_snd_device {} {} {}
          (AUDIO_DEVICE_OUT_WIRED_HEADPHONE ||| AUDIO_DEVICE_OUT_SPEAKER |||
            AUDIO_DEVICE_OUT_EARPIECE)).snd_device = SND_DEVICE_NONE :=
  ⟨by decide, by decide,
    (output_multi_bit_rejected {} {} {}
      (AUDIO_DEVICE_OUT_WIRED_HEADPHONE ||| AUDIO_DEVICE_OUT_SPEAKER |||
        AUDIO_DEVICE_OUT_EARPIECE) (by decide) (by decide)).2 (by decide)⟩

/-- The single-device rules on a one-bit mask other than the dock bits. -/
theorem single_rules_one_bit (env : platform_env) (adev : audio_device) (k : Nat)
    (hk : k < 32)
    (ha : 2 ^ k ≠ AUDIO_DEVICE_OUT_ANLG_DOCK_HEADSET)
    (hd : 2 ^ k ≠ AUDIO_DEVICE_OUT_DGTL_DOCK_HEADSET) :
    (output_single_rules env adev (2 ^ k)).1 =
      if 2 ^ k = AUDIO_DEVICE_OUT_WIRED_HEADPHONE then SND_DEVICE_OUT_HEADPHONES
      else if 2 ^ k = AUDIO_DEVICE_OUT_WIRED_HEADSET then
        if env.audio_extn_get_anc_enabled = true then
          if env.audio_extn_should_use_fb_anc = true then SND_DEVICE_OUT_ANC_FB_HEADSET
          else SND_DEVICE_OUT_ANC_HEADSET
        else SND_DEVICE_OUT_HEADPHONES
      else if 2 ^ k = AUDIO_DEVICE_OUT_SPEAKER then
        if adev.speaker_lr_swap = true then SND_DEVICE_OUT_SPEAKER_REVERSE
        else SND_DEVICE_OUT_SPEAKER
      else if 2 ^ k = AUDIO_DEVICE_OUT_BLUETOOTH_SCO ∨
          2 ^ k = AUDIO_DEVICE_OUT_BLUETOOTH_SCO_HEADSET ∨
          2 ^ k = AUDIO_DEVICE_OUT_BLUETOOTH_SCO_CARKIT then SND_DEVICE_OUT_BT_SCO
      else if 2 ^ k = AUDIO_DEVICE_OUT_AUX_DIGITAL then SND_DEVICE_OUT_HDMI
      else if 2 ^ k = AUDIO_DEVICE_OUT_EARPIECE then SND_DEVICE_OUT_HANDSET
      else if 2 ^ k = AUDIO_DEVICE_OUT_PROXY then SND_DEVICE_OUT_AFE_PROXY
      else SND_DEVICE_NONE := by
  unfold output_single_rules
  interval_cases k <;>
    first
    | exact absurd rfl ha
    | exact absurd rfl hd
    | (simp +decide [AUDIO_DEVICE_OUT_WIRED_HEADPHONE, AUDIO_DEVICE_OUT_WIRED_HEADSET,
        AUDIO_DEVICE_OUT_SPEAKER, AUDIO_DEVICE_OUT_ALL_SCO, AUDIO_DEVICE_OUT_BLUETOOTH_SCO,
        AUDIO_DEVICE_OUT_BLUETOOTH_SCO_HEADSET, AUDIO_DEVICE_OUT_BLUETOOTH_SCO_CARKIT,
        AUDIO_DEVICE_OUT_AUX_DIGITAL, AUDIO_DEVICE_OUT_ANLG_DOCK_HEADSET,
        AUDIO_DEVICE_OUT_DGTL_DOCK_HEADSET, AUDIO_DEVICE_OUT_EARPIECE, AUDIO_DEVICE_OUT_PROXY] <;>
        (split_ifs <;> rfl))

/-- C7: when the mode is not `AUDIO_MODE_IN_CALL`, a mask with exactly one bit
set (dock bits aside) gives `HEADPHONES` for the wired-headphone bit; for the
wired-headset bit `ANC_FB_HEADSET` or `ANC_HEADSET` with ANC enabled and
`HEADPHONES` without; `SPEAKER_REVERSE` or `SPEAKER` for the speaker bit,
by `speaker_lr_swap`; `BT_SCO` for each Bluetooth-SCO bit; `HDMI` for
`AUX_DIGITAL`; `HANDSET` for the earpiece bit; `AFE_PROXY` for the proxy bit;
and `SND_DEVICE_NONE` exactly when the bit is none of these. -/
theorem output_single_bit (env : platform_env) (my_data : platform_data)
    (op : operator_state) (devices : Nat)
    (hmode : my_data.adev.mode ≠ AUDIO_MODE_IN_CALL)
    (h32 : devices < 2 ^ 32)
    (hpop : popcount devices = 1)
    (ha : devices ≠ AUDIO_DEVICE_OUT_ANLG_DOCK_HEADSET)
    (hd : devices ≠ AUDIO_DEVICE_OUT_DGTL_DOCK_HEADSET) :
    (platform_get_output_snd_device env my_data op devices).snd_device =
      (if devices = AUDIO_DEVICE_OUT_WIRED_HEADPHONE then SND_DEVICE_OUT_HEADPHONES
      else if devices = AUDIO_DEVICE_OUT_WIRED_HEADSET then
        if env.audio_extn_get_anc_enabled = true then
          if env.audio_extn_should_use_fb_anc = true then SND_DEVICE_OUT_ANC_FB_HEADSET
          else SND_DEVICE_OUT_ANC_HEADSET
        else SND_DEVICE_OUT_HEADPHONES
      else if devices = AUDIO_DEVICE_OUT_SPEAKER then
        if my_data.adev.speaker_lr_swap = true then SND_DEVICE_OUT_SPEAKER_REVERSE
        else SND_DEVICE_OUT_SPEAKER
      else if devices = AUDIO_DEVICE_OUT_BLUETOOTH_SCO ∨
          devices = AUDIO_DEVICE_OUT_BLUETOOTH_SCO_HEADSET ∨
          devices = AUDIO_DEVICE_OUT_BLUETOOTH_SCO_CARKIT then SND_DEVICE_OUT_BT_SCO
      else if devices = AUDIO_DEVICE_OUT_AUX_DIGITAL then SND_DEVICE_OUT_HDMI
      else if devices = AUDIO_DEVICE_OUT_EARPIECE then SND_DEVICE_OUT_HANDSET
      else if devices = AUDIO_DEVICE_OUT_PROXY then SND_DEVICE_OUT_AFE_PROXY
      else SND_DEVICE_NONE) ∧
    ((platform_get_output_snd_device env my_data op devices).snd_device = SND_DEVICE_NONE ↔
      devices ∉ [AUDIO_DEVICE_OUT_WIRED_HEADPHONE, AUDIO_DEVICE_OUT_WIRED_HEADSET,
        AUDIO_DEVICE_OUT_SPEAKER, AUDIO_DEVICE_OUT_BLUETOOTH_SCO,
        AUDIO_DEVICE_OUT_BLUETOOTH_SCO_HEADSET, AUDIO_DEVICE_OUT_BLUETOOTH_SCO_CARKIT,
        AUDIO_DEVICE_OUT_AUX_DIGITAL, AUDIO_DEVICE_OUT_EARPIECE, AUDIO_DEVICE_OUT_PROXY]) := by
  obtain ⟨k, hk, rfl⟩ := popcount_eq_one devices h32 hpop
  by_cases hk31 : k = 31
  · subst hk31
    rw [output_invalid_mask env my_data op (2 ^ 31) (Or.inr (by decide))]
    simp +decide [AUDIO_DEVICE_OUT_WIRED_HEADPHONE, AUDIO_DEVICE_OUT_WIRED_HEADSET,
      AUDIO_DEVICE_OUT_SPEAKER, AUDIO_DEVICE_OUT_BLUETOOTH_SCO,
      AUDIO_DEVICE_OUT_BLUETOOTH_SCO_HEADSET, AUDIO_DEVICE_OUT_BLUETOOTH_SCO_CARKIT,
      AUDIO_DEVICE_OUT_AUX_DIGITAL, AUDIO_DEVICE_OUT_EARPIECE, AUDIO_DEVICE_OUT_PROXY]
  · have hin : 2 ^ k &&& AUDIO_DEVICE_BIT_IN = 0 :=
      low_bits_not_input k (by omega)
    have hne : 2 ^ k ≠ AUDIO_DEVICE_NONE := by
      unfold AUDIO_DEVICE_NONE
      positivity
    have hres := output_of_later_rules env my_data op (2 ^ k) hne hin
      (fun h => absurd h hmode)
    rw [if_neg (by omega), if_neg (by omega), single_rules_one_bit env my_data.adev k hk ha hd]
      at hres
    refine ⟨hres, ?_⟩
    rw [hres]
    clear hres hin hne hpop h32
    interval_cases k <;>
      first
      | exact absurd rfl ha
      | exact absurd rfl hd
      | (simp +decide [AUDIO_DEVICE_OUT_WIRED_HEADPHONE, AUDIO_DEVICE_OUT_WIRED_HEADSET,
          AUDIO_DEVICE_OUT_SPEAKER, AUDIO_DEVICE_OUT_BLUETOOTH_SCO,
          AUDIO_DEVICE_OUT_BLUETOOTH_SCO_HEADSET, AUDIO_DEVICE_OUT_BLUETOOTH_SCO_CARKIT,
          AUDIO_DEVICE_OUT_AUX_DIGITAL, AUDIO_DEVICE_OUT_EARPIECE, AUDIO_DEVICE_OUT_PROXY] <;>
          (split_ifs <;> simp))

theorem output_single_bit_witness :
    (({} : platform_data).adev.mode ≠ AUDIO_MODE_IN_CALL) ∧
      popcount AUDIO_DEVICE_OUT_WIRED_HEADSET = 1 ∧
      (platform_get_output_snd_device env_anc {} {} AUDIO_DEVICE_OUT_WIRED_HEADSET).snd_device =
        SND_DEVICE_OUT_ANC_HEADSET :=
  ⟨by decide, by decide,
    (output_single_bit env_anc {} {} AUDIO_DEVICE_OUT_WIRED_HEADSET (by decide) (by decide)
      (by decide) (by decide) (by decide)).1⟩

/-! ## Input routing: the claims -/

/-- In a call, when the voice-call rules leave through `exit` or choose a
device, the call returns what they chose and the state they left. -/
theorem input_of_voice_rule (env : platform_env) (my_data : platform_data)
    (op : operator_state) (out_device : Nat)
    (hmode : my_data.adev.mode = AUDIO_MODE_IN_CALL)
    (h : (input_voice_call_rules env my_data op (popcount (active_channel_mask my_data.adev))
        (input_device_mask my_data.adev) out_device).goto_exit = true ∨
      (input_voice_call_rules env my_data op (popcount (active_channel_mask my_data.adev))
        (input_device_mask my_data.adev) out_device).snd_device ≠ SND_DEVICE_NONE) :
    platform_get_input_snd_device env my_data op out_device =
      { snd_device := (input_voice_call_rules env my_data op
          (popcount (active_channel_mask my_data.adev))
          (input_device_mask my_data.adev) out_device).snd_device,
        adev := (input_voice_call_rules env my_data op
          (popcount (active_channel_mask my_data.adev))
          (input_device_mask my_data.adev) out_device).adev,
        op := (input_voice_call_rules env my_data op
          (popcount (active_channel_mask my_data.adev))
          (input_device_mask my_data.adev) out_device).op } := by
  unfold platform_get_input_snd_device
  simp only [hmode, if_true]
  rw [if_pos h]

/-- The voice-call input rules with a TTY mode on and a wired output. -/
theorem input_voice_rules_tty (env : platform_env) (my_data : platform_data)
    (op : operator_state) (cc in_device out_device : Nat)
    (hne : out_device ≠ AUDIO_DEVICE_NONE)
    (htty : my_data.adev.tty_mode ≠ TTY_MODE_OFF)
    (hw : out_device &&& AUDIO_DEVICE_OUT_WIRED_HEADPHONE ≠ 0 ∨
      out_device &&& AUDIO_DEVICE_OUT_WIRED_HEADSET ≠ 0) :
    input_voice_call_rules env my_data op cc in_device out_device =
      { snd_device :=
          if my_data.adev.tty_mode = TTY_MODE_FULL then SND_DEVICE_IN_VOICE_TTY_FULL_HEADSET_MIC
          else if my_data.adev.tty_mode = TTY_MODE_VCO then
            SND_DEVICE_IN_VOICE_TTY_VCO_HANDSET_MIC
          else if my_data.adev.tty_mode = TTY_MODE_HCO then
            SND_DEVICE_IN_VOICE_TTY_HCO_HEADSET_MIC
          else SND_DEVICE_NONE,
        in_device := in_device, adev := my_data.adev, op := op, goto_exit := true } := by
  unfold input_voice_call_rules
  simp only [if_neg hne]
  rw [if_pos ⟨htty, hw⟩]

/-- C8: in `AUDIO_MODE_IN_CALL` with a non-empty output device, a TTY mode
other than OFF and an output mask with the wired-headphone or wired-headset
bit, `platform_get_input_snd_device` returns at once (state untouched) with
`VOICE_TTY_FULL_HEADSET_MIC` for TTY FULL, `VOICE_TTY_VCO_HANDSET_MIC` for VCO
and `VOICE_TTY_HCO_HEADSET_MIC` for HCO, whatever the capture source, input
mask, fluence flags and dual-mic configuration are. -/
theorem input_in_call_tty (env : platform_env) (my_data : platform_data)
    (op : operator_state) (out_device : Nat)
    (hmode : my_data.adev.mode = AUDIO_MODE_IN_CALL)
    (hne : out_device ≠ AUDIO_DEVICE_NONE)
    (hw : out_device &&& AUDIO_DEVICE_OUT_WIRED_HEADPHONE ≠ 0 ∨
      out_device &&& AUDIO_DEVICE_OUT_WIRED_HEADSET ≠ 0) :
    (my_data.adev.tty_mode = TTY_MODE_FULL →
      platform_get_input_snd_device env my_data op out_device =
        { snd_device := SND_DEVICE_IN_VOICE_TTY_FULL_HEADSET_MIC,
          adev := my_data.adev, op := op }) ∧
    (my_data.adev.tty_mode = TTY_MODE_VCO →
      platform_get_input_snd_device env my_data op out_device =
        { snd_device := SND_DEVICE_IN_VOICE_TTY_VCO_HANDSET_MIC,
          adev := my_data.adev, op := op }) ∧
    (my_data.adev.tty_mode = TTY_MODE_HCO →
      platform_get_input_snd_device env my_data op out_device =
        { snd_device := SND_DEVICE_IN_VOICE_TTY_HCO_HEADSET_MIC,
          adev := my_data.adev, op := op }) := by
  have key : my_data.adev.tty_mode ≠ TTY_MODE_OFF →
      platform_get_input_snd_device env my_data op out_device =
        { snd_device :=
            if my_data.adev.tty_mode = TTY_MODE_FULL then
              SND_DEVICE_IN_VOICE_TTY_FULL_HEADSET_MIC
            else if my_data.adev.tty_mode = TTY_MODE_VCO then
              SND_DEVICE_IN_VOICE_TTY_VCO_HANDSET_MIC
            else if my_data.adev.tty_mode = TTY_MODE_HCO then
              SND_DEVICE_IN_VOICE_TTY_HCO_HEADSET_MIC
            else SND_DEVICE_NONE,
          adev := my_data.adev, op := op } := by
    intro htty
    have hst := input_voice_rules_tty env my_data op
      (popcount (active_channel_mask my_data.adev)) (input_device_mask my_data.adev)
      out_device hne htty hw
    rw [input_of_voice_rule env my_data op out_device hmode (by rw [hst]; exact Or.inl rfl),
      hst]
  refine ⟨fun h => ?_, fun h => ?_, fun h => ?_⟩
  · rw [key (by rw [h]; decide), h, if_pos rfl]
  · rw [key (by rw [h]; decide), h, if_neg (by decide), if_pos rfl]
  · rw [key (by rw [h]; decide), h, if_neg (by decide), if_neg (by decide), if_pos rfl]

theorem input_in_call_tty_witness :
    data_tty_vco.adev.mode = AUDIO_MODE_IN_CALL ∧
      data_tty_vco.adev.tty_mode = TTY_MODE_VCO ∧
      (platform_get_input_snd_device {} data_tty_vco {}
          AUDIO_DEVICE_OUT_WIRED_HEADSET).snd_device =
        SND_DEVICE_IN_VOICE_TTY_VCO_HANDSET_MIC :=
  ⟨rfl, rfl,
    congrArg routing_result.snd_device
      ((input_in_call_tty {} data_tty_vco {} AUDIO_DEVICE_OUT_WIRED_HEADSET rfl (by decide)
        (by decide)).2.1 rfl)⟩

/-- The voice-call input rules with TTY off: the device they choose. -/
theorem input_voice_rules_tty_off (env : platform_env) (my_data : platform_data)
    (op : operator_state) (cc in_device out_device : Nat)
    (hne : out_device ≠ AUDIO_DEVICE_NONE)
    (htty : my_data.adev.tty_mode = TTY_MODE_OFF) :
    (input_voice_call_rules env my_data op cc in_device out_device).snd_device =
      if out_device &&& AUDIO_DEVICE_OUT_EARPIECE ≠ 0 ∨
          out_device &&& AUDIO_DEVICE_OUT_WIRED_HEADPHONE ≠ 0 then
        if out_device &&& AUDIO_DEVICE_OUT_EARPIECE ≠ 0 ∧
            env.audio_extn_should_use_handset_anc cc = true then
          SND_DEVICE_IN_AANC_HANDSET_MIC
        else if my_data.fluence_in_voice_call = false then SND_DEVICE_IN_HANDSET_MIC
        else if my_data.dualmic_config = DUALMIC_CONFIG_ENDFIRE then
          if (is_operator_tmus env op).1 = true then SND_DEVICE_IN_VOICE_DMIC_EF_TMUS
          else SND_DEVICE_IN_VOICE_DMIC_EF
        else if my_data.dualmic_config = DUALMIC_CONFIG_BROADSIDE then
          SND_DEVICE_IN_VOICE_DMIC_BS
        else SND_DEVICE_IN_HANDSET_MIC
      else if out_device &&& AUDIO_DEVICE_OUT_WIRED_HEADSET ≠ 0 then
        SND_DEVICE_IN_VOICE_HEADSET_MIC
      else if out_device &&& AUDIO_DEVICE_OUT_ALL_SCO ≠ 0 then SND_DEVICE_IN_BT_SCO_MIC
      else if out_device &&& AUDIO_DEVICE_OUT_SPEAKER ≠ 0 then
        if my_data.fluence_in_voice_call = true ∧ my_data.fluence_in_spkr_mode = true ∧
            my_data.dualmic_config = DUALMIC_CONFIG_ENDFIRE then
          SND_DEVICE_IN_VOICE_SPEAKER_DMIC_EF
        else if my_data.fluence_in_voice_call = true ∧ my_data.fluence_in_spkr_mode = true ∧
            my_data.dualmic_config = DUALMIC_CONFIG_BROADSIDE then
          SND_DEVICE_IN_VOICE_SPEAKER_DMIC_BS
        else SND_DEVICE_IN_VOICE_SPEAKER_MIC
      else SND_DEVICE_NONE := by
  have h1 : ¬ (my_data.adev.tty_mode ≠ TTY_MODE_OFF ∧
      (out_device &&& AUDIO_DEVICE_OUT_WIRED_HEADPHONE ≠ 0 ∨
        out_device &&& AUDIO_DEVICE_OUT_WIRED_HEADSET ≠ 0)) := fun h => h.1 htty
  unfold input_voice_call_rules
  simp only [if_neg hne, if_neg h1]
  split_ifs <;> rfl

/-- C9: in `AUDIO_MODE_IN_CALL` with TTY off, the capture device follows the
output device in this priority: earpiece or wired headphone give
`AANC_HANDSET_MIC` when the earpiece bit is set and the handset-ANC predicate
holds, else `HANDSET_MIC` when `fluence_in_voice_call` is false, else
`VOICE_DMIC_EF_TMUS` (carrier predicate true) or `VOICE_DMIC_EF` for endfire,
`VOICE_DMIC_BS` for broadside and `HANDSET_MIC` without a dual mic; else the
wired headset gives `VOICE_HEADSET_MIC`; else a Bluetooth-SCO bit gives
`BT_SCO_MIC`; else the speaker gives `VOICE_SPEAKER_DMIC_EF` or
`VOICE_SPEAKER_DMIC_BS` when `fluence_in_voice_call` and `fluence_in_spkr_mode`
are both set with endfire or broadside, and `VOICE_SPEAKER_MIC` otherwise. -/
theorem input_in_call_tty_off (env : platform_env) (my_data : platform_data)
    (op : operator_state) (out_device : Nat)
    (hmode : my_data.adev.mode = AUDIO_MODE_IN_CALL)
    (htty : my_data.adev.tty_mode = TTY_MODE_OFF)
    (hsome : out_device &&& AUDIO_DEVICE_OUT_EARPIECE ≠ 0 ∨
      out_device &&& AUDIO_DEVICE_OUT_WIRED_HEADPHONE ≠ 0 ∨
      out_device &&& AUDIO_DEVICE_OUT_WIRED_HEADSET ≠ 0 ∨
      out_device &&& AUDIO_DEVICE_OUT_ALL_SCO ≠ 0 ∨
      out_device &&& AUDIO_DEVICE_OUT_SPEAKER ≠ 0) :
    (platform_get_input_snd_device env my_data op out_device).snd_device =
      if out_device &&& AUDIO_DEVICE_OUT_EARPIECE ≠ 0 ∨
          out_device &&& AUDIO_DEVICE_OUT_WIRED_HEADPHONE ≠ 0 then
        if out_device &&& AUDIO_DEVICE_OUT_EARPIECE ≠ 0 ∧
            env.audio_extn_should_use_handset_anc
              (popcount (active_channel_mask my_data.adev)) = true then
          SND_DEVICE_IN_AANC_HANDSET_MIC
        else if my_data.fluence_in_voice_call = false then SND_DEVICE_IN_HANDSET_MIC
        else if my_data.dualmic_config = DUALMIC_CONFIG_ENDFIRE then
          if (is_operator_tmus env op).1 = true then SND_DEVICE_IN_VOICE_DMIC_EF_TMUS
          else SND_DEVICE_IN_VOICE_DMIC_EF
        else if my_data.dualmic_config = DUALMIC_CONFIG_BROADSIDE then
          SND_DEVICE_IN_VOICE_DMIC_BS
        else SND_DEVICE_IN_HANDSET_MIC
      else if out_device &&& AUDIO_DEVICE_OUT_WIRED_HEADSET ≠ 0 then
        SND_DEVICE_IN_VOICE_HEADSET_MIC
      else if out_device &&& AUDIO_DEVICE_OUT_ALL_SCO ≠ 0 then SND_DEVICE_IN_BT_SCO_MIC
      else if my_data.fluence_in_voice_call = true ∧ my_data.fluence_in_spkr_mode = true ∧
          my_data.dualmic_config = DUALMIC_CONFIG_ENDFIRE then
        SND_DEVICE_IN_VOICE_SPEAKER_DMIC_EF
      else if my_data.fluence_in_voice_call = true ∧ my_data.fluence_in_spkr_mode = true ∧
          my_data.dualmic_config = DUALMIC_CONFIG_BROADSIDE then
        SND_DEVICE_IN_VOICE_SPEAKER_DMIC_BS
      else SND_DEVICE_IN_VOICE_SPEAKER_MIC := by
  have hne : out_device ≠ AUDIO_DEVICE_NONE := by
    intro h
    rw [h] at hsome
    revert hsome
    decide
  have hst := input_voice_rules_tty_off env my_data op
    (popcount (active_channel_mask my_data.adev)) (input_device_mask my_data.adev)
    out_device hne htty
  have hspk : ¬ (out_device &&& AUDIO_DEVICE_OUT_EARPIECE ≠ 0 ∨
      out_device &&& AUDIO_DEVICE_OUT_WIRED_HEADPHONE ≠ 0) →
      ¬ out_device &&& AUDIO_DEVICE_OUT_WIRED_HEADSET ≠ 0 →
      ¬ out_device &&& AUDIO_DEVICE_OUT_ALL_SCO ≠ 0 →
      out_device &&& AUDIO_DEVICE_OUT_SPEAKER ≠ 0 := by
    intro a b c
    tauto
  have heq : (input_voice_call_rules env my_data op
      (popcount (active_channel_mask my_data.adev)) (input_device_mask my_data.adev)
      out_device).snd_device = _ := hst
  by_cases c1 : out_device &&& AUDIO_DEVICE_OUT_EARPIECE ≠ 0 ∨
      out_device &&& AUDIO_DEVICE_OUT_WIRED_HEADPHONE ≠ 0
  · rw [if_pos c1] at heq
    rw [if_pos c1, ← heq]
    rw [input_of_voice_rule env my_data op out_device hmode]
    right
    rw [heq]
    split_ifs <;> decide
  · by_cases c2 : out_device &&& AUDIO_DEVICE_OUT_WIRED_HEADSET ≠ 0
    · rw [if_neg c1, if_pos c2] at heq
      rw [if_neg c1, if_pos c2, ← heq]
      rw [input_of_voice_rule env my_data op out_device hmode]
      right
      rw [heq]
      decide
    · by_cases c3 : out_device &&& AUDIO_DEVICE_OUT_ALL_SCO ≠ 0
      · rw [if_neg c1, if_neg c2, if_pos c3] at heq
        rw [if_neg c1, if_neg c2, if_pos c3, ← heq]
        rw [input_of_voice_rule env my_data op out_device hmode]
        right
        rw [heq]
        decide
      · rw [if_neg c1, if_neg c2, if_neg c3, if_pos (hspk c1 c2 c3)] at heq
        rw [if_neg c1, if_neg c2, if_neg c3, ← heq]
        rw [input_of_voice_rule env my_data op out_device hmode]
        right
        rw [heq]
        split_ifs <;> decide

theorem input_in_call_tty_off_witness :
    data_in_call_fluence.adev.mode = AUDIO_MODE_IN_CALL ∧
      data_in_call_fluence.adev.tty_mode = TTY_MODE_OFF ∧
      (platform_get_input_snd_device env_tmus data_in_call_fluence {}
          AUDIO_DEVICE_OUT_EARPIECE).snd_device = SND_DEVICE_IN_VOICE_DMIC_EF_TMUS :=
  ⟨rfl, rfl,
    input_in_call_tty_off env_tmus data_in_call_fluence {} AUDIO_DEVICE_OUT_EARPIECE rfl rfl
      (by decide)⟩

/-- The voice-recognition rules on an input mask with the built-in mic. -/
theorem voice_rec_rules_builtin (my_data : platform_data) (channel_mask in_device : Nat)
    (hmic : in_device &&& AUDIO_DEVICE_IN_BUILTIN_MIC ≠ 0) :
    input_voice_rec_rules my_data channel_mask in_device =
      if my_data.dualmic_config = DUALMIC_CONFIG_ENDFIRE then
        if channel_mask = AUDIO_CHANNEL_IN_FRONT_BACK then SND_DEVICE_IN_VOICE_REC_DMIC_EF
        else if my_data.fluence_in_voice_rec = true then SND_DEVICE_IN_VOICE_REC_DMIC_EF_FLUENCE
        else SND_DEVICE_IN_VOICE_REC_MIC
      else if my_data.dualmic_config = DUALMIC_CONFIG_BROADSIDE then
        if channel_mask = AUDIO_CHANNEL_IN_FRONT_BACK then SND_DEVICE_IN_VOICE_REC_DMIC_BS
        else if my_data.fluence_in_voice_rec = true then SND_DEVICE_IN_VOICE_REC_DMIC_BS_FLUENCE
        else SND_DEVICE_IN_VOICE_REC_MIC
      else SND_DEVICE_IN_VOICE_REC_MIC := by
  unfold input_voice_rec_rules
  simp only [if_pos hmic]
  split_ifs <;> simp_all

/-- C10: when not in call, with the voice-recognition source and an input mask
that contains the built-in mic: for endfire, `VOICE_REC_DMIC_EF` when the
channel mask equals `AUDIO_CHANNEL_IN_FRONT_BACK`, else
`VOICE_REC_DMIC_EF_FLUENCE` when `fluence_in_voice_rec` is set; for broadside,
`VOICE_REC_DMIC_BS` when the channel mask equals `FRONT_BACK`, else
`VOICE_REC_DMIC_BS_FLUENCE` when `fluence_in_voice_rec` is set; and
`VOICE_REC_MIC` in every remaining case. -/
theorem input_voice_recognition (env : platform_env) (my_data : platform_data)
    (op : operator_state) (out_device : Nat) (inp : stream_in)
    (hmode : my_data.adev.mode ≠ AUDIO_MODE_IN_CALL)
    (hact : my_data.adev.active_input = some inp)
    (hsrc : inp.source = AUDIO_SOURCE_VOICE_RECOGNITION)
    (hmic : input_device_mask my_data.adev &&& AUDIO_DEVICE_IN_BUILTIN_MIC ≠ 0) :
    (platform_get_input_snd_device env my_data op out_device).snd_device =
      if my_data.dualmic_config = DUALMIC_CONFIG_ENDFIRE then
        if inp.channel_mask = AUDIO_CHANNEL_IN_FRONT_BACK then SND_DEVICE_IN_VOICE_REC_DMIC_EF
        else if my_data.fluence_in_voice_rec = true then SND_DEVICE_IN_VOICE_REC_DMIC_EF_FLUENCE
        else SND_DEVICE_IN_VOICE_REC_MIC
      else if my_data.dualmic_config = DUALMIC_CONFIG_BROADSIDE then
        if inp.channel_mask = AUDIO_CHANNEL_IN_FRONT_BACK then SND_DEVICE_IN_VOICE_REC_DMIC_BS
        else if my_data.fluence_in_voice_rec = true then SND_DEVICE_IN_VOICE_REC_DMIC_BS_FLUENCE
        else SND_DEVICE_IN_VOICE_REC_MIC
      else SND_DEVICE_IN_VOICE_REC_MIC := by
  have hcm : active_channel_mask my_data.adev = inp.channel_mask := by
    unfold active_channel_mask
    rw [hact]
  have hrec := voice_rec_rules_builtin my_data inp.channel_mask
    (input_device_mask my_data.adev) hmic
  have hnn : input_voice_rec_rules my_data inp.channel_mask
      (input_device_mask my_data.adev) ≠ SND_DEVICE_NONE := by
    rw [hrec]
    split_ifs <;> decide
  have hcam : ¬ AUDIO_SOURCE_VOICE_RECOGNITION = AUDIO_SOURCE_CAMCORDER := by decide
  unfold platform_get_input_snd_device
  simp only [hact, hsrc, hcm, if_neg hmode, if_neg hcam, if_true]
  rw [if_pos (Or.inr hnn)]
  exact hrec

theorem input_voice_recognition_witness :
    data_voice_rec.adev.mode ≠ AUDIO_MODE_IN_CALL ∧
      input_device_mask data_voice_rec.adev &&& AUDIO_DEVICE_IN_BUILTIN_MIC ≠ 0 ∧
      (platform_get_input_snd_device {} data_voice_rec {}
          AUDIO_DEVICE_OUT_SPEAKER).snd_device = SND_DEVICE_IN_VOICE_REC_DMIC_BS_FLUENCE :=
  ⟨by decide, by decide,
    input_voice_recognition {} data_voice_rec {} AUDIO_DEVICE_OUT_SPEAKER
      { source := AUDIO_SOURCE_VOICE_RECOGNITION, device := AUDIO_DEVICE_IN_BUILTIN_MIC }
      (by decide) rfl rfl (by decide)⟩

/-! ## Input routing: the later rules -/

/-- The call `platform_get_input_snd_device`, split at line 818: the first
stage, then the two fallbacks on the input and the output mask. -/
theorem input_eq_of_first_stage (env : platform_env) (my_data : platform_data)
    (op : operator_state) (out_device : Nat) :
    platform_get_input_snd_device env my_data op out_device =
      if (input_first_stage env my_data op out_device).goto_exit = true ∨
          (input_first_stage env my_data op out_device).snd_device ≠ SND_DEVICE_NONE then
        { snd_device := (input_first_stage env my_data op out_device).snd_device,
          adev := (input_first_stage env my_data op out_device).adev,
          op := (input_first_stage env my_data op out_device).op }
      else if (input_first_stage env my_data op out_device).in_device ≠ AUDIO_DEVICE_NONE ∧
          ¬ ((input_first_stage env my_data op out_device).in_device &&&
            AUDIO_DEVICE_IN_VOICE_CALL ≠ 0) ∧
          ¬ ((input_first_stage env my_data op out_device).in_device &&&
            AUDIO_DEVICE_IN_COMMUNICATION ≠ 0) then
        { snd_device := input_mask_rules env
            (input_first_stage env my_data op out_device).in_device,
          adev := (input_first_stage env my_data op out_device).adev,
          op := (input_first_stage env my_data op out_device).op }
      else
        { snd_device := input_out_device_rules env out_device,
          adev := (input_first_stage env my_data op out_device).adev,
          op := (input_first_stage env my_data op out_device).op } :=
  rfl

/-- Outside a call with a voice-communication input, the first stage is the
voice-communication rules. -/
theorem first_stage_voice_comm (env : platform_env) (my_data : platform_data)
    (op : operator_state) (out_device : Nat) (inp : stream_in)
    (hmode : my_data.adev.mode ≠ AUDIO_MODE_IN_CALL)
    (hact : my_data.adev.active_input = some inp)
    (hsrc : inp.source = AUDIO_SOURCE_VOICE_COMMUNICATION) :
    input_first_stage env my_data op out_device =
      input_voice_comm_rules my_data.adev op (input_device_mask my_data.adev) out_device := by
  unfold input_first_stage
  simp only [hact, hsrc, if_neg hmode]
  rw [if_neg (by decide), if_neg (by decide), if_pos trivial]

/-- The voice-communication rules with AEC enabled. -/
theorem voice_comm_rules_aec (adev : audio_device) (op : operator_state)
    (in_device out_device : Nat) (inp : stream_in)
    (hact : adev.active_input = some inp) (haec : inp.enable_aec = true) :
    input_voice_comm_rules adev op in_device out_device =
      { snd_device :=
          if out_device &&& AUDIO_DEVICE_OUT_SPEAKER ≠ 0 ∨
              in_device &&& AUDIO_DEVICE_IN_BACK_MIC ≠ 0 then SND_DEVICE_IN_SPEAKER_MIC_AEC
          else if in_device &&& AUDIO_DEVICE_IN_BUILTIN_MIC ≠ 0 then
            SND_DEVICE_IN_HANDSET_MIC_AEC
          else if in_device &&& AUDIO_DEVICE_IN_WIRED_HEADSET ≠ 0 then
            SND_DEVICE_IN_HEADSET_MIC_AEC
          else SND_DEVICE_NONE,
        in_device :=
          if out_device &&& AUDIO_DEVICE_OUT_SPEAKER ≠ 0 then AUDIO_DEVICE_IN_BACK_MIC
          else in_device,
        adev := { adev with mixer := (set_echo_reference adev.mixer "SLIM_RX").2 },
        op := op, goto_exit := false } := by
  unfold input_voice_comm_rules
  simp only [hact, haec, if_true]
  by_cases hs : out_device &&& AUDIO_DEVICE_OUT_SPEAKER ≠ 0
  · have hb : AUDIO_DEVICE_IN_BACK_MIC &&& AUDIO_DEVICE_IN_BACK_MIC ≠ 0 := by decide
    simp only [if_pos hs, if_pos hb, if_pos (Or.inl hs : _ ∨ in_device &&& AUDIO_DEVICE_IN_BACK_MIC ≠ 0)]
  · by_cases hb : in_device &&& AUDIO_DEVICE_IN_BACK_MIC ≠ 0
    · simp only [if_neg hs, if_pos hb, if_pos (Or.inr hb : out_device &&& AUDIO_DEVICE_OUT_SPEAKER ≠ 0 ∨ _)]
    · have hor : ¬ (out_device &&& AUDIO_DEVICE_OUT_SPEAKER ≠ 0 ∨
          in_device &&& AUDIO_DEVICE_IN_BACK_MIC ≠ 0) := by
        rintro (h | h)
        · exact hs h
        · exact hb h
      simp only [if_neg hs, if_neg hb, if_neg hor]

/-- The voice-communication rules with AEC disabled. -/
theorem voice_comm_rules_no_aec (adev : audio_device) (op : operator_state)
    (in_device out_device : Nat) (inp : stream_in)
    (hact : adev.active_input = some inp) (haec : inp.enable_aec = false) :
    input_voice_comm_rules adev op in_device out_device =
      { snd_device := SND_DEVICE_NONE,
        in_device :=
          if out_device &&& AUDIO_DEVICE_OUT_SPEAKER ≠ 0 then AUDIO_DEVICE_IN_BACK_MIC
          else in_device,
        adev := { adev with mixer := (set_echo_reference adev.mixer "NONE").2 },
        op := op, goto_exit := false } := by
  unfold input_voice_comm_rules
  simp only [hact, haec]
  rfl

/-- After the first stage the audio device is the one on entry with,
possibly, another mixer state, whichever fallback is taken. -/
theorem input_adev_of_first_stage (env : platform_env) (my_data : platform_data)
    (op : operator_state) (out_device : Nat) :
    (platform_get_input_snd_device env my_data op out_device).adev =
      (input_first_stage env my_data op out_device).adev := by
  rw [input_eq_of_first_stage]
  split_ifs <;> rfl

/-- The effect of `set_echo_reference` when the mixer has the control. -/
theorem set_echo_reference_present (m : mixer) (ec_ref : String)
    (h : "EC_REF_RX" ∈ m.ctl_names) :
    set_echo_reference m ec_ref =
      (0, { m with enum_writes := m.enum_writes ++ [("EC_REF_RX", ec_ref)] }) := by
  unfold set_echo_reference
  simp only [if_pos h]

/-- C11: when not in call with a voice-communication source: with AEC enabled
on the active input the result is `SPEAKER_MIC_AEC` if the output mask has the
speaker bit or the input mask the back mic, otherwise `HANDSET_MIC_AEC` if the
input mask has the built-in mic, otherwise `HEADSET_MIC_AEC` if it has the
wired headset; and the echo reference is set, through `set_echo_reference`,
to `SLIM_RX` when AEC is enabled and to `NONE` when it is not (the write
`EC_REF_RX := tag` lands in the mixer whenever the mixer has that control). -/
theorem input_voice_communication_aec (env : platform_env) (my_data : platform_data)
    (op : operator_state) (out_device : Nat) (inp : stream_in)
    (hmode : my_data.adev.mode ≠ AUDIO_MODE_IN_CALL)
    (hact : my_data.adev.active_input = some inp)
    (hsrc : inp.source = AUDIO_SOURCE_VOICE_COMMUNICATION) :
    (inp.enable_aec = true →
      (out_device &&& AUDIO_DEVICE_OUT_SPEAKER ≠ 0 ∨
          input_device_mask my_data.adev &&& AUDIO_DEVICE_IN_BACK_MIC ≠ 0 ∨
          input_device_mask my_data.adev &&& AUDIO_DEVICE_IN_BUILTIN_MIC ≠ 0 ∨
          input_device_mask my_data.adev &&& AUDIO_DEVICE_IN_WIRED_HEADSET ≠ 0 →
        (platform_get_input_snd_device env my_data op out_device).snd_device =
          if out_device &&& AUDIO_DEVICE_OUT_SPEAKER ≠ 0 ∨
              input_device_mask my_data.adev &&& AUDIO_DEVICE_IN_BACK_MIC ≠ 0 then
            SND_DEVICE_IN_SPEAKER_MIC_AEC
          else if input_device_mask my_data.adev &&& AUDIO_DEVICE_IN_BUILTIN_MIC ≠ 0 then
            SND_DEVICE_IN_HANDSET_MIC_AEC
          else SND_DEVICE_IN_HEADSET_MIC_AEC) ∧
      (platform_get_input_snd_device env my_data op out_device).adev.mixer =
        (set_echo_reference my_data.adev.mixer "SLIM_RX").2 ∧
      ("EC_REF_RX" ∈ my_data.adev.mixer.ctl_names →
        (platform_get_input_snd_device env my_data op out_device).adev.mixer.enum_writes =
          my_data.adev.mixer.enum_writes ++ [("EC_REF_RX", "SLIM_RX")])) ∧
    (inp.enable_aec = false →
      (platform_get_input_snd_device env my_data op out_device).adev.mixer =
        (set_echo_reference my_data.adev.mixer "NONE").2 ∧
      ("EC_REF_RX" ∈ my_data.adev.mixer.ctl_names →
        (platform_get_input_snd_device env my_data op out_device).adev.mixer.enum_writes =
          my_data.adev.mixer.enum_writes ++ [("EC_REF_RX", "NONE")])) := by
  have hfs := first_stage_voice_comm env my_data op out_device inp hmode hact hsrc
  have hadev := input_adev_of_first_stage env my_data op out_device
  constructor
  · intro haec
    have hst := voice_comm_rules_aec my_data.adev op (input_device_mask my_data.adev)
      out_device inp hact haec
    rw [hst] at hfs
    have hmix : (platform_get_input_snd_device env my_data op out_device).adev.mixer =
        (set_echo_reference my_data.adev.mixer "SLIM_RX").2 := by
      rw [hadev, hfs]
    refine ⟨?_, hmix, ?_⟩
    · intro hsome
      rw [input_eq_of_first_stage, hfs]
      have hdev : (if out_device &&& AUDIO_DEVICE_OUT_SPEAKER ≠ 0 ∨
            input_device_mask my_data.adev &&& AUDIO_DEVICE_IN_BACK_MIC ≠ 0 then
              SND_DEVICE_IN_SPEAKER_MIC_AEC
          else if input_device_mask my_data.adev &&& AUDIO_DEVICE_IN_BUILTIN_MIC ≠ 0 then
            SND_DEVICE_IN_HANDSET_MIC_AEC
          else if input_device_mask my_data.adev &&& AUDIO_DEVICE_IN_WIRED_HEADSET ≠ 0 then
            SND_DEVICE_IN_HEADSET_MIC_AEC
          else SND_DEVICE_NONE) =
          (if out_device &&& AUDIO_DEVICE_OUT_SPEAKER ≠ 0 ∨
              input_device_mask my_data.adev &&& AUDIO_DEVICE_IN_BACK_MIC ≠ 0 then
            SND_DEVICE_IN_SPEAKER_MIC_AEC
          else if input_device_mask my_data.adev &&& AUDIO_DEVICE_IN_BUILTIN_MIC ≠ 0 then
            SND_DEVICE_IN_HANDSET_MIC_AEC
          else SND_DEVICE_IN_HEADSET_MIC_AEC) := by
        by_cases h1 : out_device &&& AUDIO_DEVICE_OUT_SPEAKER ≠ 0 ∨
            input_device_mask my_data.adev &&& AUDIO_DEVICE_IN_BACK_MIC ≠ 0
        · simp only [if_pos h1]
        · by_cases h2 : input_device_mask my_data.adev &&& AUDIO_DEVICE_IN_BUILTIN_MIC ≠ 0
          · simp only [if_neg h1, if_pos h2]
          · have h3 : input_device_mask my_data.adev &&& AUDIO_DEVICE_IN_WIRED_HEADSET ≠ 0 := by
              tauto
            simp only [if_neg h1, if_neg h2, if_pos h3]
      simp only [hdev]
      rw [if_pos]
      right
      split_ifs <;> decide
    · intro hctl
      rw [hmix, set_echo_reference_present _ _ hctl]
  · intro haec
    have hst := voice_comm_rules_no_aec my_data.adev op (input_device_mask my_data.adev)
      out_device inp hact haec
    rw [hst] at hfs
    have hmix : (platform_get_input_snd_device env my_data op out_device).adev.mixer =
        (set_echo_reference my_data.adev.mixer "NONE").2 := by
      rw [hadev, hfs]
    refine ⟨hmix, ?_⟩
    intro hctl
    rw [hmix, set_echo_reference_present _ _ hctl]

theorem input_voice_communication_aec_witness :
    data_voip_aec.adev.mode ≠ AUDIO_MODE_IN_CALL ∧
      (platform_get_input_snd_device {} data_voip_aec {}
          AUDIO_DEVICE_OUT_EARPIECE).snd_device = SND_DEVICE_IN_HANDSET_MIC_AEC :=
  ⟨by decide,
    ((input_voice_communication_aec {} data_voip_aec {} AUDIO_DEVICE_OUT_EARPIECE
      { source := AUDIO_SOURCE_VOICE_COMMUNICATION, device := AUDIO_DEVICE_IN_BUILTIN_MIC,
        enable_aec := true } (by decide) rfl rfl).1 rfl).1 (by decide)⟩

/-- Outside a call, with a voice-communication input without AEC and the
speaker bit in the output mask, the redirected input mask
`AUDIO_DEVICE_IN_BACK_MIC` still carries `AUDIO_DEVICE_BIT_IN`, so the test
of line 823 sends the call to the rules on the output mask. -/
theorem input_voice_comm_speaker_no_aec (env : platform_env) (my_data : platform_data)
    (op : operator_state) (out_device : Nat) (inp : stream_in)
    (hmode : my_data.adev.mode ≠ AUDIO_MODE_IN_CALL)
    (hact : my_data.adev.active_input = some inp)
    (hsrc : inp.source = AUDIO_SOURCE_VOICE_COMMUNICATION)
    (haec : inp.enable_aec = false)
    (hspk : out_device &&& AUDIO_DEVICE_OUT_SPEAKER ≠ 0) :
    (platform_get_input_snd_device env my_data op out_device).snd_device =
      input_out_device_rules env out_device := by
  have hfs := first_stage_voice_comm env my_data op out_device inp hmode hact hsrc
  rw [voice_comm_rules_no_aec my_data.adev op (input_device_mask my_data.adev)
    out_device inp hact haec, if_pos hspk] at hfs
  rw [input_eq_of_first_stage, hfs]
  simp only
  rw [if_neg (by decide), if_neg (by decide)]

/-- C12, what the code does: outside a call, with a voice-communication input
without AEC, the redirected input mask is `AUDIO_DEVICE_IN_BACK_MIC`, which has
the bit that the voice-call test reads, and the device comes from the output
mask: `HANDSET_MIC` for `SPEAKER|EARPIECE` and `HEADSET_MIC` for
`SPEAKER|WIRED_HEADSET`, not `SPEAKER_MIC`; only the speaker alone gives
`SPEAKER_MIC`. -/
theorem input_voice_comm_speaker_not_back_mic :
    (input_first_stage {} data_voip {}
        (AUDIO_DEVICE_OUT_SPEAKER ||| AUDIO_DEVICE_OUT_EARPIECE)).in_device =
      AUDIO_DEVICE_IN_BACK_MIC ∧
    AUDIO_DEVICE_IN_BACK_MIC &&& AUDIO_DEVICE_IN_VOICE_CALL ≠ 0 ∧
    (platform_get_input_snd_device {} data_voip {}
        (AUDIO_DEVICE_OUT_SPEAKER ||| AUDIO_DEVICE_OUT_EARPIECE)).snd_device =
      SND_DEVICE_IN_HANDSET_MIC ∧
    (platform_get_input_snd_device {} data_voip {}
        (AUDIO_DEVICE_OUT_SPEAKER ||| AUDIO_DEVICE_OUT_WIRED_HEADSET)).snd_device =
      SND_DEVICE_IN_HEADSET_MIC ∧
    (platform_get_input_snd_device {} data_voip {} AUDIO_DEVICE_OUT_SPEAKER).snd_device =
      SND_DEVICE_IN_SPEAKER_MIC := by
  decide

/-- C13: when the mode is not `AUDIO_MODE_IN_CALL` and the capture source is
`AUDIO_SOURCE_DEFAULT` (in particular without an active input),
`platform_get_input_snd_device` returns `SND_DEVICE_NONE`, and leaves the state
as it was, for every output device and every input mask. -/
theorem input_default_source (env : platform_env) (my_data : platform_data)
    (op : operator_state) (out_device : Nat)
    (hmode : my_data.adev.mode ≠ AUDIO_MODE_IN_CALL)
    (hsrc : ∀ inp : stream_in, my_data.adev.active_input = some inp →
      inp.source = AUDIO_SOURCE_DEFAULT) :
    platform_get_input_snd_device env my_data op out_device =
      { snd_device := SND_DEVICE_NONE, adev := my_data.adev, op := op } := by
  have h1 : ¬ AUDIO_SOURCE_DEFAULT = AUDIO_SOURCE_CAMCORDER := by decide
  have h2 : ¬ AUDIO_SOURCE_DEFAULT = AUDIO_SOURCE_VOICE_RECOGNITION := by decide
  have h3 : ¬ AUDIO_SOURCE_DEFAULT = AUDIO_SOURCE_VOICE_COMMUNICATION := by decide
  have hsource : (match my_data.adev.active_input with
      | none => AUDIO_SOURCE_DEFAULT
      | some inp => inp.source) = AUDIO_SOURCE_DEFAULT := by
    cases hact : my_data.adev.active_input with
    | none => rfl
    | some inp => exact hsrc inp hact
  have hfs : input_first_stage env my_data op out_device =
      { snd_device := SND_DEVICE_NONE, in_device := input_device_mask my_data.adev,
        adev := my_data.adev, op := op, goto_exit := true } := by
    unfold input_first_stage
    simp only [hsource, if_neg hmode, if_neg h1, if_neg h2, if_neg h3, if_true]
  rw [input_eq_of_first_stage, hfs]
  rfl

theorem input_default_source_witness :
    (({} : platform_data).adev.mode ≠ AUDIO_MODE_IN_CALL) ∧
      platform_get_input_snd_device {} {} {} AUDIO_DEVICE_OUT_SPEAKER =
        { snd_device := SND_DEVICE_NONE, adev := ({} : platform_data).adev, op := {} } :=
  ⟨by decide,
    input_default_source {} {} {} AUDIO_DEVICE_OUT_SPEAKER (by decide)
      (fun _ h => nomatch h)⟩

/-- The voice-call rules leave the input mask as it is. -/
theorem voice_call_rules_in_device (env : platform_env) (my_data : platform_data)
    (op : operator_state) (cc in_device out_device : Nat) :
    (input_voice_call_rules env my_data op cc in_device out_device).in_device = in_device := by
  unfold input_voice_call_rules
  simp only
  split_ifs <;> rfl

/-- The voice-communication rules replace the input mask by the back mic when
the output mask has the speaker bit. -/
theorem voice_comm_rules_in_device (adev : audio_device) (op : operator_state)
    (in_device out_device : Nat) :
    (input_voice_comm_rules adev op in_device out_device).in_device =
      if out_device &&& AUDIO_DEVICE_OUT_SPEAKER ≠ 0 then AUDIO_DEVICE_IN_BACK_MIC
      else in_device := by
  unfold input_voice_comm_rules
  cases adev.active_input with
  | none => rfl
  | some inp =>
    simp only
    split_ifs <;> rfl

/-- Under the test of lines 822-824 the input mask left by the first stage is
the active input's mask without the input bit: the only other value, the
redirected `AUDIO_DEVICE_IN_BACK_MIC`, fails that test. -/
theorem first_stage_in_device (env : platform_env) (my_data : platform_data)
    (op : operator_state) (out_device : Nat)
    (hvc : (input_first_stage env my_data op out_device).in_device &&&
      AUDIO_DEVICE_IN_VOICE_CALL = 0) :
    (input_first_stage env my_data op out_device).in_device =
      input_device_mask my_data.adev := by
  have hcases : (input_first_stage env my_data op out_device).in_device =
        input_device_mask my_data.adev ∨
      (input_first_stage env my_data op out_device).in_device = AUDIO_DEVICE_IN_BACK_MIC := by
    unfold input_first_stage
    simp only
    by_cases hm : my_data.adev.mode = AUDIO_MODE_IN_CALL
    · rw [if_pos hm]
      exact Or.inl (voice_call_rules_in_device env my_data op _ _ out_device)
    · rw [if_neg hm]
      split
      · exact Or.inl rfl
      · split
        · exact Or.inl rfl
        · split
          · rw [voice_comm_rules_in_device]
            split
            · exact Or.inr rfl
            · exact Or.inl rfl
          · split
            · exact Or.inl rfl
            · exact Or.inl rfl
  rcases hcases with h | h
  · exact h
  · rw [h] at hvc
    exact absurd hvc (by decide)

/-- Outside a call with a source other than camcorder, voice recognition,
voice communication and default (a generic microphone source), the first stage
selects nothing and leaves the input mask as it is. -/
theorem first_stage_generic_source (env : platform_env) (my_data : platform_data)
    (op : operator_state) (out_device : Nat) (inp : stream_in)
    (hmode : my_data.adev.mode ≠ AUDIO_MODE_IN_CALL)
    (hact : my_data.adev.active_input = some inp)
    (h1 : inp.source ≠ AUDIO_SOURCE_CAMCORDER)
    (h2 : inp.source ≠ AUDIO_SOURCE_VOICE_RECOGNITION)
    (h3 : inp.source ≠ AUDIO_SOURCE_VOICE_COMMUNICATION)
    (h4 : inp.source ≠ AUDIO_SOURCE_DEFAULT) :
    input_first_stage env my_data op out_device =
      { snd_device := SND_DEVICE_NONE, in_device := input_device_mask my_data.adev,
        adev := my_data.adev, op := op, goto_exit := false } := by
  unfold input_first_stage
  simp only [hact, if_neg hmode, if_neg h1, if_neg h2, if_neg h3, if_neg h4]

/-- The local `in_device` at line 818 is the active input's mask without the
input bit, unless the voice-communication rule has redirected it (outside a
call, with a voice-communication source and the speaker bit in the output
mask, line 799). -/
theorem first_stage_in_device_kept (env : platform_env) (my_data : platform_data)
    (op : operator_state) (out_device : Nat)
    (hkeep : my_data.adev.mode ≠ AUDIO_MODE_IN_CALL →
      ∀ inp : stream_in, my_data.adev.active_input = some inp →
        inp.source = AUDIO_SOURCE_VOICE_COMMUNICATION →
        out_device &&& AUDIO_DEVICE_OUT_SPEAKER = 0) :
    (input_first_stage env my_data op out_device).in_device =
      input_device_mask my_data.adev := by
  by_cases hm : my_data.adev.mode = AUDIO_MODE_IN_CALL
  · unfold input_first_stage
    simp only [if_pos hm]
    exact voice_call_rules_in_device env my_data op _ _ out_device
  · cases hact : my_data.adev.active_input with
    | none =>
      unfold input_first_stage
      simp only [hact, if_neg hm]
      split_ifs <;> first
        | rfl
        | exact absurd ‹AUDIO_SOURCE_DEFAULT = AUDIO_SOURCE_VOICE_COMMUNICATION› (by decide)
    | some inp =>
      by_cases hsrc : inp.source = AUDIO_SOURCE_VOICE_COMMUNICATION
      · rw [first_stage_voice_comm env my_data op out_device inp hm hact hsrc,
          voice_comm_rules_in_device, if_neg (not_not.mpr (hkeep hm inp hact hsrc))]
      · unfold input_first_stage
        simp only [hact, if_neg hm, if_neg hsrc]
        split_ifs <;> rfl

/-- C14, as claimed, fails where the voice-communication rule has redirected
the input mask: outside a call, with a voice-communication input on the
built-in mic without AEC and the speaker as output, no earlier rule selects a
device, the active input's mask without the input bit is non-zero, has neither
the voice-call nor the communication capture bit and has the built-in mic bit,
and the result is `SPEAKER_MIC`, not `HANDSET_MIC`. -/
theorem input_from_input_mask_counterexample :
    data_voip.adev.mode ≠ AUDIO_MODE_IN_CALL ∧
    (input_first_stage {} data_voip {} AUDIO_DEVICE_OUT_SPEAKER).goto_exit = false ∧
    (input_first_stage {} data_voip {} AUDIO_DEVICE_OUT_SPEAKER).snd_device = SND_DEVICE_NONE ∧
    input_device_mask data_voip.adev ≠ AUDIO_DEVICE_NONE ∧
    input_device_mask data_voip.adev &&& AUDIO_DEVICE_IN_VOICE_CALL = 0 ∧
    input_device_mask data_voip.adev &&& AUDIO_DEVICE_IN_COMMUNICATION = 0 ∧
    input_device_mask data_voip.adev &&& AUDIO_DEVICE_IN_BUILTIN_MIC ≠ 0 ∧
    (platform_get_input_snd_device {} data_voip {} AUDIO_DEVICE_OUT_SPEAKER).snd_device =
      SND_DEVICE_IN_SPEAKER_MIC ∧
    (platform_get_input_snd_device {} data_voip {} AUDIO_DEVICE_OUT_SPEAKER).snd_device ≠
      SND_DEVICE_IN_HANDSET_MIC := by
  decide

/-- C14, amended: when no earlier rule selected a device (the first stage ends
without a device and without leaving, as it does outside a call with a generic
microphone source), the voice-communication rule has not redirected the input
mask (outside a call, a voice-communication source comes with an output mask
without the speaker bit), and the active input's mask, with the input bit
stripped, is non-zero and has neither the voice-call nor the communication
capture bit, then that mask is the one tested at line 822 and
`platform_get_input_snd_device` returns `HANDSET_MIC` for the built-in mic,
else `SPEAKER_MIC` for the back mic, else `HEADSET_MIC` for the wired headset,
else `BT_SCO_MIC` for the Bluetooth SCO headset, else `HDMI_MIC` for
`AUX_DIGITAL`, and `HANDSET_MIC` when none of these, nor a dock bit, is set. -/
theorem input_from_input_mask (env : platform_env) (my_data : platform_data)
    (op : operator_state) (out_device : Nat)
    (hexit : (input_first_stage env my_data op out_device).goto_exit = false)
    (hnone : (input_first_stage env my_data op out_device).snd_device = SND_DEVICE_NONE)
    (hkeep : my_data.adev.mode ≠ AUDIO_MODE_IN_CALL →
      ∀ inp : stream_in, my_data.adev.active_input = some inp →
        inp.source = AUDIO_SOURCE_VOICE_COMMUNICATION →
        out_device &&& AUDIO_DEVICE_OUT_SPEAKER = 0)
    (hne : input_device_mask my_data.adev ≠ AUDIO_DEVICE_NONE)
    (hvc : input_device_mask my_data.adev &&& AUDIO_DEVICE_IN_VOICE_CALL = 0)
    (hcomm : input_device_mask my_data.adev &&& AUDIO_DEVICE_IN_COMMUNICATION = 0)
    (hdock : input_device_mask my_data.adev &&& AUDIO_DEVICE_IN_ANLG_DOCK_HEADSET = 0 ∧
      input_device_mask my_data.adev &&& AUDIO_DEVICE_IN_DGTL_DOCK_HEADSET = 0) :
    (input_first_stage env my_data op out_device).in_device =
      input_device_mask my_data.adev ∧
    (platform_get_input_snd_device env my_data op out_device).snd_device =
      if input_device_mask my_data.adev &&& AUDIO_DEVICE_IN_BUILTIN_MIC ≠ 0 then
        SND_DEVICE_IN_HANDSET_MIC
      else if input_device_mask my_data.adev &&& AUDIO_DEVICE_IN_BACK_MIC ≠ 0 then
        SND_DEVICE_IN_SPEAKER_MIC
      else if input_device_mask my_data.adev &&& AUDIO_DEVICE_IN_WIRED_HEADSET ≠ 0 then
        SND_DEVICE_IN_HEADSET_MIC
      else if input_device_mask my_data.adev &&& AUDIO_DEVICE_IN_BLUETOOTH_SCO_HEADSET ≠ 0 then
        SND_DEVICE_IN_BT_SCO_MIC
      else if input_device_mask my_data.adev &&& AUDIO_DEVICE_IN_AUX_DIGITAL ≠ 0 then
        SND_DEVICE_IN_HDMI_MIC
      else SND_DEVICE_IN_HANDSET_MIC := by
  have hin := first_stage_in_device_kept env my_data op out_device hkeep
  refine ⟨hin, ?_⟩
  have h0 : ¬ ((input_first_stage env my_data op out_device).goto_exit = true ∨
      (input_first_stage env my_data op out_device).snd_device ≠ SND_DEVICE_NONE) := by
    rintro (h | h)
    · rw [hexit] at h
      exact Bool.false_ne_true h
    · exact h hnone
  have h1 : (input_first_stage env my_data op out_device).in_device ≠ AUDIO_DEVICE_NONE ∧
      ¬ ((input_first_stage env my_data op out_device).in_device &&&
        AUDIO_DEVICE_IN_VOICE_CALL ≠ 0) ∧
      ¬ ((input_first_stage env my_data op out_device).in_device &&&
        AUDIO_DEVICE_IN_COMMUNICATION ≠ 0) := by
    rw [hin]
    exact ⟨hne, not_not.mpr hvc, not_not.mpr hcomm⟩
  have hd : ¬ (env.USB_HEADSET_ENABLED = true ∧
      (input_device_mask my_data.adev &&& AUDIO_DEVICE_IN_ANLG_DOCK_HEADSET ≠ 0 ∨
        input_device_mask my_data.adev &&& AUDIO_DEVICE_IN_DGTL_DOCK_HEADSET ≠ 0)) := by
    rintro ⟨_, h | h⟩
    · exact h hdock.1
    · exact h hdock.2
  rw [input_eq_of_first_stage, if_neg h0, if_pos h1, hin]
  unfold input_mask_rules
  simp only [if_neg hd]

theorem input_from_input_mask_witness :
    (input_first_stage {} data_voip {} AUDIO_DEVICE_OUT_EARPIECE).goto_exit = false ∧
      (input_first_stage {} data_voip {} AUDIO_DEVICE_OUT_EARPIECE).snd_device =
        SND_DEVICE_NONE ∧
      AUDIO_DEVICE_OUT_EARPIECE &&& AUDIO_DEVICE_OUT_SPEAKER = 0 ∧
      input_device_mask data_voip.adev ≠ AUDIO_DEVICE_NONE ∧
      (platform_get_input_snd_device {} data_voip {}
          AUDIO_DEVICE_OUT_EARPIECE).snd_device = SND_DEVICE_IN_HANDSET_MIC ∧
      (platform_get_input_snd_device {} data_mic_headset {}
          AUDIO_DEVICE_OUT_SPEAKER).snd_device = SND_DEVICE_IN_HEADSET_MIC :=
  ⟨by decide, by decide, by decide, by decide,
    (input_from_input_mask {} data_voip {} AUDIO_DEVICE_OUT_EARPIECE (by decide)
      (by decide) (fun _ _ _ _ => by decide) (by decide) (by decide) (by decide)
      (by decide)).2,
    (input_from_input_mask {} data_mic_headset {} AUDIO_DEVICE_OUT_SPEAKER (by decide)
      (by decide)
      (fun _ inp hact hsrc => by
        cases hact
        exact absurd hsrc (by decide))
      (by decide) (by decide) (by decide) (by decide)).2⟩

/-- C15: when no earlier rule selected a device (the first stage ends without
a device and without leaving) and the input mask is empty or flagged as
voice-call or communication capture, the capture device follows the output
mask: the earpiece gives `HANDSET_MIC`, else the wired headset `HEADSET_MIC`,
else the speaker `SPEAKER_MIC`, else the wired headphone `HANDSET_MIC`, else
the Bluetooth SCO headset `BT_SCO_MIC`, else `AUX_DIGITAL` `HDMI_MIC`, and
`HANDSET_MIC` when none of these, nor a dock bit, is set. -/
theorem input_from_output_mask (env : platform_env) (my_data : platform_data)
    (op : operator_state) (out_device : Nat)
    (hexit : (input_first_stage env my_data op out_device).goto_exit = false)
    (hnone : (input_first_stage env my_data op out_device).snd_device = SND_DEVICE_NONE)
    (hmask : (input_first_stage env my_data op out_device).in_device = AUDIO_DEVICE_NONE ∨
      (input_first_stage env my_data op out_device).in_device &&&
        AUDIO_DEVICE_IN_VOICE_CALL ≠ 0 ∨
      (input_first_stage env my_data op out_device).in_device &&&
        AUDIO_DEVICE_IN_COMMUNICATION ≠ 0)
    (hdock : out_device &&& AUDIO_DEVICE_OUT_ANLG_DOCK_HEADSET = 0 ∧
      out_device &&& AUDIO_DEVICE_OUT_DGTL_DOCK_HEADSET = 0) :
    (platform_get_input_snd_device env my_data op out_device).snd_device =
      if out_device &&& AUDIO_DEVICE_OUT_EARPIECE ≠ 0 then SND_DEVICE_IN_HANDSET_MIC
      else if out_device &&& AUDIO_DEVICE_OUT_WIRED_HEADSET ≠ 0 then SND_DEVICE_IN_HEADSET_MIC
      else if out_device &&& AUDIO_DEVICE_OUT_SPEAKER ≠ 0 then SND_DEVICE_IN_SPEAKER_MIC
      else if out_device &&& AUDIO_DEVICE_OUT_WIRED_HEADPHONE ≠ 0 then SND_DEVICE_IN_HANDSET_MIC
      else if out_device &&& AUDIO_DEVICE_OUT_BLUETOOTH_SCO_HEADSET ≠ 0 then
        SND_DEVICE_IN_BT_SCO_MIC
      else if out_device &&& AUDIO_DEVICE_OUT_AUX_DIGITAL ≠ 0 then SND_DEVICE_IN_HDMI_MIC
      else SND_DEVICE_IN_HANDSET_MIC := by
  have h0 : ¬ ((input_first_stage env my_data op out_device).goto_exit = true ∨
      (input_first_stage env my_data op out_device).snd_device ≠ SND_DEVICE_NONE) := by
    rintro (h | h)
    · rw [hexit] at h
      exact Bool.false_ne_true h
    · exact h hnone
  have h1 : ¬ ((input_first_stage env my_data op out_device).in_device ≠ AUDIO_DEVICE_NONE ∧
      ¬ ((input_first_stage env my_data op out_device).in_device &&&
        AUDIO_DEVICE_IN_VOICE_CALL ≠ 0) ∧
      ¬ ((input_first_stage env my_data op out_device).in_device &&&
        AUDIO_DEVICE_IN_COMMUNICATION ≠ 0)) := by
    rintro ⟨a, b, c⟩
    rcases hmask with h | h | h
    · exact a h
    · exact b h
    · exact c h
  have hd : ¬ (env.USB_HEADSET_ENABLED = true ∧
      (out_device &&& AUDIO_DEVICE_OUT_ANLG_DOCK_HEADSET ≠ 0 ∨
        out_device &&& AUDIO_DEVICE_OUT_DGTL_DOCK_HEADSET ≠ 0)) := by
    rintro ⟨_, h | h⟩
    · exact h hdock.1
    · exact h hdock.2
  rw [input_eq_of_first_stage, if_neg h0, if_neg h1]
  unfold input_out_device_rules
  simp only [if_neg hd]

theorem input_from_output_mask_witness :
    (input_first_stage {} data_mic_voice_call {} AUDIO_DEVICE_OUT_WIRED_HEADSET).goto_exit =
        false ∧
      (input_first_stage {} data_mic_voice_call {} AUDIO_DEVICE_OUT_WIRED_HEADSET).in_device &&&
        AUDIO_DEVICE_IN_VOICE_CALL ≠ 0 ∧
      (platform_get_input_snd_device {} data_mic_voice_call {}
          AUDIO_DEVICE_OUT_WIRED_HEADSET).snd_device = SND_DEVICE_IN_HEADSET_MIC :=
  ⟨by decide, by decide,
    input_from_output_mask {} data_mic_voice_call {} AUDIO_DEVICE_OUT_WIRED_HEADSET
      (by decide) (by decide) (Or.inr (Or.inl (by decide))) (by decide)⟩

/-! ## Calibration: the claims -/

/-- The three outcomes of `platform_send_audio_calibration`. -/
theorem send_audio_calibration_cases (my_data : platform_data) (snd_device : snd_device_t) :
    (acdb_device_table snd_device < 0 →
      platform_send_audio_calibration my_data snd_device = (-EINVAL, [])) ∧
    (¬ acdb_device_table snd_device < 0 → my_data.acdb_send_audio_cal = true →
      platform_send_audio_calibration my_data snd_device =
        (0, [acdb_call.send_audio_cal (acdb_device_table snd_device)
          (if SND_DEVICE_OUT_BEGIN ≤ snd_device_value snd_device ∧
              snd_device_value snd_device < SND_DEVICE_OUT_END then ACDB_DEV_TYPE_OUT
            else ACDB_DEV_TYPE_IN)])) ∧
    (¬ acdb_device_table snd_device < 0 → my_data.acdb_send_audio_cal = false →
      platform_send_audio_calibration my_data snd_device = (0, [])) := by
  unfold platform_send_audio_calibration
  refine ⟨fun h => ?_, fun h hc => ?_, fun h hc => ?_⟩
  · simp only [if_pos h]
  · simp only [if_neg h, hc, if_true, ge_iff_le]
  · simp only [if_neg h, hc, Bool.false_eq_true, if_false]

/-- C16: for every sound device of the table, `platform_send_audio_calibration`
returns `-EINVAL`, without a calibration call, if and only if the device's
`acdb_device_table` entry is negative; otherwise it returns 0 and, with the
entry point available, makes exactly one call, with the table id and the
direction OUT when the device lies in `[SND_DEVICE_OUT_BEGIN, SND_DEVICE_OUT_END)`
and IN otherwise, and without the entry point makes no call. -/
theorem send_audio_calibration_spec (my_data : platform_data) (snd_device : snd_device_t) :
    ((platform_send_audio_calibration my_data snd_device).1 = -EINVAL ↔
      acdb_device_table snd_device < 0) ∧
    (acdb_device_table snd_device < 0 →
      (platform_send_audio_calibration my_data snd_device).2 = []) ∧
    (0 ≤ acdb_device_table snd_device →
      (platform_send_audio_calibration my_data snd_device).1 = 0 ∧
      (my_data.acdb_send_audio_cal = true →
        (platform_send_audio_calibration my_data snd_device).2 =
          [acdb_call.send_audio_cal (acdb_device_table snd_device)
            (if SND_DEVICE_OUT_BEGIN ≤ snd_device_value snd_device ∧
                snd_device_value snd_device < SND_DEVICE_OUT_END then ACDB_DEV_TYPE_OUT
              else ACDB_DEV_TYPE_IN)]) ∧
      (my_data.acdb_send_audio_cal = false →
        (platform_send_audio_calibration my_data snd_device).2 = [])) := by
  obtain ⟨hA, hB, hC⟩ := send_audio_calibration_cases my_data snd_device
  have hz : (0 : Int) ≠ -EINVAL := by decide
  have hstatus : ¬ acdb_device_table snd_device < 0 →
      (platform_send_audio_calibration my_data snd_device).1 = 0 := by
    intro h
    cases hc : my_data.acdb_send_audio_cal
    · rw [hC h hc]
    · rw [hB h hc]
  refine ⟨⟨fun h => ?_, fun h => ?_⟩, fun h => ?_, fun h => ⟨?_, fun hc => ?_, fun hc => ?_⟩⟩
  · by_contra hn
    rw [hstatus hn] at h
    exact hz h
  · rw [hA h]
  · rw [hA h]
  · exact hstatus (not_lt.mpr h)
  · rw [hB (not_lt.mpr h) hc]
  · rw [hC (not_lt.mpr h) hc]

/-- The direction computed for a calibration call is OUT exactly on the
playback devices (those up to `SND_DEVICE_OUT_ANC_HANDSET`) and the only
negative table entry is that of `SND_DEVICE_NONE`. -/
theorem send_audio_calibration_examples :
    platform_send_audio_calibration data_acdb SND_DEVICE_NONE = (-22, []) ∧
    platform_send_audio_calibration data_acdb SND_DEVICE_OUT_AFE_PROXY =
      (0, [acdb_call.send_audio_cal 0 ACDB_DEV_TYPE_OUT]) ∧
    platform_send_audio_calibration data_acdb SND_DEVICE_OUT_ANC_HANDSET =
      (0, [acdb_call.send_audio_cal 103 ACDB_DEV_TYPE_OUT]) ∧
    platform_send_audio_calibration data_acdb SND_DEVICE_IN_HANDSET_MIC =
      (0, [acdb_call.send_audio_cal 4 ACDB_DEV_TYPE_IN]) ∧
    platform_send_audio_calibration {} SND_DEVICE_OUT_SPEAKER = (0, []) := by
  decide

/-- C17: `platform_switch_voice_call_device_post` makes the voice calibration
call, with the table ids of the rx and tx devices, if and only if the entry
point is available and both ids are strictly positive, and returns 0 in every
case; a pair with `SND_DEVICE_NONE` (id -1) or `SND_DEVICE_OUT_AFE_PROXY`
(id 0) never makes the call. -/
theorem switch_voice_call_device_post_spec (my_data : platform_data)
    (out_snd_device in_snd_device : snd_device_t) :
    (platform_switch_voice_call_device_post my_data out_snd_device in_snd_device).1 = 0 ∧
    ((platform_switch_voice_call_device_post my_data out_snd_device in_snd_device).2 =
      if my_data.acdb_send_voice_cal = true ∧ 0 < acdb_device_table out_snd_device ∧
          0 < acdb_device_table in_snd_device then
        [acdb_call.send_voice_cal (acdb_device_table out_snd_device)
          (acdb_device_table in_snd_device)]
      else []) ∧
    (platform_switch_voice_call_device_post my_data SND_DEVICE_NONE in_snd_device).2 = [] ∧
    (platform_switch_voice_call_device_post my_data out_snd_device SND_DEVICE_NONE).2 = [] ∧
    (platform_switch_voice_call_device_post my_data SND_DEVICE_OUT_AFE_PROXY
      in_snd_device).2 = [] ∧
    (platform_switch_voice_call_device_post my_data out_snd_device
      SND_DEVICE_OUT_AFE_PROXY).2 = [] := by
  have hnone : ¬ (0 : Int) < acdb_device_table SND_DEVICE_NONE := by decide
  have hproxy : ¬ (0 : Int) < acdb_device_table SND_DEVICE_OUT_AFE_PROXY := by decide
  unfold platform_switch_voice_call_device_post
  cases hv : my_data.acdb_send_voice_cal
  · simp
  · simp only [Bool.true_eq_false, if_false, gt_iff_lt, true_and]
    refine ⟨?_, ?_, ?_, ?_, ?_, ?_⟩
    · split_ifs <;> rfl
    · split_ifs <;> rfl
    · rw [if_neg (fun h => hnone h.1)]
    · rw [if_neg (fun h => hnone h.2)]
    · rw [if_neg (fun h => hproxy h.1)]
    · rw [if_neg (fun h => hproxy h.2)]

/-- The voice calibration call on a concrete pair, and its absence. -/
theorem switch_voice_call_device_post_examples :
    platform_switch_voice_call_device_post data_acdb SND_DEVICE_OUT_VOICE_HANDSET
        SND_DEVICE_IN_HANDSET_MIC = (0, [acdb_call.send_voice_cal 7 4]) ∧
    platform_switch_voice_call_device_post {} SND_DEVICE_OUT_VOICE_HANDSET
        SND_DEVICE_IN_HANDSET_MIC = (0, []) ∧
    platform_switch_voice_call_device_post data_acdb SND_DEVICE_OUT_AFE_PROXY
        SND_DEVICE_IN_HANDSET_MIC = (0, []) := by
  decide

/-! ## Codec backend configuration: the claims -/

/-- C18: `get_best_backend_sample_rate` returns, for every request up to
192000, the smallest of 48000, 96000 and 192000 that is at least the request,
and the default backend sample rate (48000) for every request above 192000;
`get_best_backend_bit_width` returns 24 exactly when the request is 24 and the
default bit width (16) for every other request. -/
theorem best_backend_values (sample_rate bit_width : Nat) :
    (sample_rate ≤ 192000 →
      get_best_backend_sample_rate sample_rate ∈ [48000, 96000, 192000] ∧
      sample_rate ≤ get_best_backend_sample_rate sample_rate ∧
      ∀ r ∈ [48000, 96000, 192000], sample_rate ≤ r →
        get_best_backend_sample_rate sample_rate ≤ r) ∧
    (192000 < sample_rate →
      get_best_backend_sample_rate sample_rate = CODEC_BACKEND_DEFAULT_SAMPLE_RATE ∧
      CODEC_BACKEND_DEFAULT_SAMPLE_RATE = 48000) ∧
    (get_best_backend_bit_width bit_width = 24 ↔ bit_width = 24) ∧
    (bit_width ≠ 24 →
      get_best_backend_bit_width bit_width = CODEC_BACKEND_DEFAULT_BIT_WIDTH ∧
      CODEC_BACKEND_DEFAULT_BIT_WIDTH = 16) := by
  unfold get_best_backend_sample_rate get_best_backend_bit_width
    CODEC_BACKEND_DEFAULT_SAMPLE_RATE CODEC_BACKEND_DEFAULT_BIT_WIDTH
  refine ⟨fun h => ⟨?_, ?_, ?_⟩, fun h => ⟨?_, rfl⟩, ⟨fun h => ?_, fun h => ?_⟩,
    fun h => ⟨?_, rfl⟩⟩
  · split_ifs <;> simp
  · split_ifs <;> omega
  · intro r hr hle
    simp only [List.mem_cons, List.mem_singleton, List.not_mem_nil, or_false] at hr
    split_ifs <;> omega
  · split_ifs <;> omega
  · by_contra hne
    rw [if_neg hne] at h
    omega
  · rw [if_pos h]
  · rw [if_neg h]

/-- The scan of the use cases never lowers the pair it carries. -/
theorem backend_scan_ge (l : List audio_usecase) :
    ∀ best : Nat × Nat,
      best.1 ≤ (l.foldl backend_scan_step best).1 ∧
      best.2 ≤ (l.foldl backend_scan_step best).2 := by
  induction l with
  | nil => intro best; exact ⟨le_refl _, le_refl _⟩
  | cons u l ih =>
    intro best
    rw [List.foldl_cons]
    have h := ih (backend_scan_step best u)
    have hs : best.1 ≤ (backend_scan_step best u).1 ∧ best.2 ≤ (backend_scan_step best u).2 := by
      unfold backend_scan_step
      cases u.out with
      | none => exact ⟨le_refl _, le_refl _⟩
      | some out =>
        simp only
        constructor <;> split_ifs <;> omega
    exact ⟨le_trans hs.1 h.1, le_trans hs.2 h.2⟩

/-- The scan of the use cases ends above the rounded values of every output
stream in the list. -/
theorem backend_scan_upper (l : List audio_usecase) :
    ∀ best : Nat × Nat, ∀ u ∈ l, ∀ out : stream_out, u.out = some out →
      get_best_backend_bit_width out.bit_width ≤ (l.foldl backend_scan_step best).1 ∧
      get_best_backend_sample_rate out.sample_rate ≤ (l.foldl backend_scan_step best).2 := by
  induction l with
  | nil => intro best u hu; exact absurd hu (List.not_mem_nil u)
  | cons v l ih =>
    intro best u hu out hout
    rw [List.foldl_cons]
    rcases List.mem_cons.mp hu with h | h
    · subst h
      have hge := backend_scan_ge l (backend_scan_step best u)
      have hs : get_best_backend_bit_width out.bit_width ≤ (backend_scan_step best u).1 ∧
          get_best_backend_sample_rate out.sample_rate ≤ (backend_scan_step best u).2 := by
        unfold backend_scan_step
        rw [hout]
        simp only
        constructor <;> split_ifs <;> omega
      exact ⟨le_trans hs.1 hge.1, le_trans hs.2 hge.2⟩
    · exact ih (backend_scan_step best v) u h out hout

/-- The scan of the use cases ends on its starting value or on the rounded
value of an output stream of the list, in each component. -/
theorem backend_scan_attained (l : List audio_usecase) :
    ∀ best : Nat × Nat,
      ((l.foldl backend_scan_step best).1 = best.1 ∨
        ∃ u ∈ l, ∃ out : stream_out, u.out = some out ∧
          (l.foldl backend_scan_step best).1 = get_best_backend_bit_width out.bit_width) ∧
      ((l.foldl backend_scan_step best).2 = best.2 ∨
        ∃ u ∈ l, ∃ out : stream_out, u.out = some out ∧
          (l.foldl backend_scan_step best).2 =
            get_best_backend_sample_rate out.sample_rate) := by
  induction l with
  | nil => intro best; exact ⟨Or.inl rfl, Or.inl rfl⟩
  | cons v l ih =>
    intro best
    rw [List.foldl_cons]
    have h := ih (backend_scan_step best v)
    have hs : ((backend_scan_step best v).1 = best.1 ∨
          ∃ out : stream_out, v.out = some out ∧
            (backend_scan_step best v).1 = get_best_backend_bit_width out.bit_width) ∧
        ((backend_scan_step best v).2 = best.2 ∨
          ∃ out : stream_out, v.out = some out ∧
            (backend_scan_step best v).2 = get_best_backend_sample_rate out.sample_rate) := by
      unfold backend_scan_step
      cases hv : v.out with
      | none => exact ⟨Or.inl rfl, Or.inl rfl⟩
      | some out =>
        simp only
        constructor
        · by_cases hc : get_best_backend_bit_width out.bit_width > best.1
          · rw [if_pos hc]
            exact Or.inr ⟨out, rfl, rfl⟩
          · rw [if_neg hc]
            exact Or.inl rfl
        · by_cases hc : get_best_backend_sample_rate out.sample_rate > best.2
          · rw [if_pos hc]
            exact Or.inr ⟨out, rfl, rfl⟩
          · rw [if_neg hc]
            exact Or.inl rfl
    constructor
    · rcases h.1 with h1 | ⟨u, hu, out, hout, h1⟩
      · rcases hs.1 with h2 | ⟨out, hout, h2⟩
        · exact Or.inl (h1.trans h2)
        · exact Or.inr ⟨v, List.mem_cons_self v l, out, hout, h1.trans h2⟩
      · exact Or.inr ⟨u, List.mem_cons_of_mem v hu, out, hout, h1⟩
    · rcases h.2 with h1 | ⟨u, hu, out, hout, h1⟩
      · rcases hs.2 with h2 | ⟨out, hout, h2⟩
        · exact Or.inl (h1.trans h2)
        · exact Or.inr ⟨v, List.mem_cons_self v l, out, hout, h1.trans h2⟩
      · exact Or.inr ⟨u, List.mem_cons_of_mem v hu, out, hout, h1⟩

/-- Outside voice modes the target of `platform_check_codec_backend_cfg` is
the pair the scan of the use cases ends on. -/
theorem check_backend_target_scan (adev : audio_device) (usecase : audio_usecase)
    (bw sr : Nat)
    (h1 : adev.mode ≠ AUDIO_MODE_IN_CALL) (h2 : adev.mode ≠ AUDIO_MODE_IN_COMMUNICATION) :
    (platform_check_codec_backend_cfg adev usecase bw sr).new_bit_width =
      (adev.usecase_list.foldl backend_scan_step (0, 0)).1 ∧
    (platform_check_codec_backend_cfg adev usecase bw sr).new_sample_rate =
      (adev.usecase_list.foldl backend_scan_step (0, 0)).2 := by
  have hm : ¬ (adev.mode = AUDIO_MODE_IN_CALL ∨ adev.mode = AUDIO_MODE_IN_COMMUNICATION) := by
    rintro (h | h)
    · exact h1 h
    · exact h2 h
  unfold platform_check_codec_backend_cfg
  simp only [if_neg hm, if_true]
  constructor <;> split_ifs <;> rfl

/-- In a voice mode the target of `platform_check_codec_backend_cfg` is the
pair of the initial values of `best_bw` and `best_sr`. -/
theorem check_backend_target_voice (adev : audio_device) (usecase : audio_usecase)
    (bw sr : Nat)
    (hm : adev.mode = AUDIO_MODE_IN_CALL ∨ adev.mode = AUDIO_MODE_IN_COMMUNICATION) :
    (platform_check_codec_backend_cfg adev usecase bw sr).new_bit_width = 0 ∧
    (platform_check_codec_backend_cfg adev usecase bw sr).new_sample_rate = 0 := by
  unfold platform_check_codec_backend_cfg
  simp only [if_pos hm, Bool.true_eq_false, if_false]
  constructor <;> split_ifs <;> rfl

/-- C19: when the mode is neither IN_CALL nor IN_COMMUNICATION, the target
written by `platform_check_codec_backend_cfg` is the maximum rounded bit width
and the maximum rounded sample rate, each taken on its own over the use cases
of the list that have an output stream: every such stream's rounded value is
at most the target, the target is the rounded value of one of them (or 0 when
there is none); for streams asking for (16 bit, 44100) and (24 bit, 48000) the
target is (24, 48000). -/
theorem check_backend_target_max (adev : audio_device) (usecase : audio_usecase)
    (bw sr : Nat)
    (h1 : adev.mode ≠ AUDIO_MODE_IN_CALL) (h2 : adev.mode ≠ AUDIO_MODE_IN_COMMUNICATION) :
    (∀ u ∈ adev.usecase_list, ∀ out : stream_out, u.out = some out →
      get_best_backend_bit_width out.bit_width ≤
        (platform_check_codec_backend_cfg adev usecase bw sr).new_bit_width ∧
      get_best_backend_sample_rate out.sample_rate ≤
        (platform_check_codec_backend_cfg adev usecase bw sr).new_sample_rate) ∧
    ((∃ u ∈ adev.usecase_list, ∃ out : stream_out, u.out = some out) →
      (∃ u ∈ adev.usecase_list, ∃ out : stream_out, u.out = some out ∧
        (platform_check_codec_backend_cfg adev usecase bw sr).new_bit_width =
          get_best_backend_bit_width out.bit_width) ∧
      (∃ u ∈ adev.usecase_list, ∃ out : stream_out, u.out = some out ∧
        (platform_check_codec_backend_cfg adev usecase bw sr).new_sample_rate =
          get_best_backend_sample_rate out.sample_rate)) ∧
    ((∀ u ∈ adev.usecase_list, u.out = none) →
      (platform_check_codec_backend_cfg adev usecase bw sr).new_bit_width = 0 ∧
      (platform_check_codec_backend_cfg adev usecase bw sr).new_sample_rate = 0) ∧
    (adev.usecase_list = two_streams →
      (platform_check_codec_backend_cfg adev usecase bw sr).new_bit_width = 24 ∧
      (platform_check_codec_backend_cfg adev usecase bw sr).new_sample_rate = 48000) := by
  obtain ⟨hbw, hsr⟩ := check_backend_target_scan adev usecase bw sr h1 h2
  rw [hbw, hsr]
  have hup := backend_scan_upper adev.usecase_list (0, 0)
  have hat := backend_scan_attained adev.usecase_list (0, 0)
  refine ⟨hup, fun hex => ?_, fun hno => ?_, fun hl => ?_⟩
  · obtain ⟨u, hu, out, hout⟩ := hex
    have hu1 := hup u hu out hout
    have hpos1 : 0 < get_best_backend_bit_width out.bit_width := by
      unfold get_best_backend_bit_width CODEC_BACKEND_DEFAULT_BIT_WIDTH
      split_ifs <;> omega
    have hpos2 : 0 < get_best_backend_sample_rate out.sample_rate := by
      unfold get_best_backend_sample_rate CODEC_BACKEND_DEFAULT_SAMPLE_RATE
      split_ifs <;> omega
    constructor
    · rcases hat.1 with h | h
      · simp only at h
        omega
      · exact h
    · rcases hat.2 with h | h
      · simp only at h
        omega
      · exact h
  · constructor
    · rcases hat.1 with h | ⟨u, hu, out, hout, _⟩
      · exact h
      · rw [hno u hu] at hout
        exact absurd hout (by simp)
    · rcases hat.2 with h | ⟨u, hu, out, hout, _⟩
      · exact h
      · rw [hno u hu] at hout
        exact absurd hout (by simp)
  · rw [hl]
    decide

theorem check_backend_target_max_witness :
    adev_two_streams.mode ≠ AUDIO_MODE_IN_CALL ∧
      adev_two_streams.mode ≠ AUDIO_MODE_IN_COMMUNICATION ∧
      (platform_check_codec_backend_cfg adev_two_streams {} 0 0).new_bit_width = 24 ∧
      (platform_check_codec_backend_cfg adev_two_streams {} 0 0).new_sample_rate = 48000 :=
  ⟨by decide, by decide,
    (check_backend_target_max adev_two_streams {} 0 0 (by decide) (by decide)).2.2.2 rfl⟩

/-- C20, what the code does: in `AUDIO_MODE_IN_CALL` and in
`AUDIO_MODE_IN_COMMUNICATION` the defaults stored at lines 1193-1194 are
overwritten at lines 1223-1224 by `best_bw` and `best_sr`, which are still 0:
the target written by `platform_check_codec_backend_cfg` is (0, 0), not
(`CODEC_BACKEND_DEFAULT_BIT_WIDTH`, `CODEC_BACKEND_DEFAULT_SAMPLE_RATE`), for
every list of use cases and every backend state. -/
theorem check_backend_target_in_voice_mode (adev : audio_device) (usecase : audio_usecase)
    (bw sr : Nat) :
    (platform_check_codec_backend_cfg { adev with mode := AUDIO_MODE_IN_CALL }
        usecase bw sr).new_bit_width = 0 ∧
    (platform_check_codec_backend_cfg { adev with mode := AUDIO_MODE_IN_CALL }
        usecase bw sr).new_sample_rate = 0 ∧
    (platform_check_codec_backend_cfg { adev with mode := AUDIO_MODE_IN_COMMUNICATION }
        usecase bw sr).new_bit_width = 0 ∧
    (platform_check_codec_backend_cfg { adev with mode := AUDIO_MODE_IN_COMMUNICATION }
        usecase bw sr).new_sample_rate = 0 ∧
    (0 : Nat) ≠ CODEC_BACKEND_DEFAULT_BIT_WIDTH ∧
    (0 : Nat) ≠ CODEC_BACKEND_DEFAULT_SAMPLE_RATE := by
  have hc := check_backend_target_voice { adev with mode := AUDIO_MODE_IN_CALL } usecase bw sr
    (Or.inl rfl)
  have hv := check_backend_target_voice { adev with mode := AUDIO_MODE_IN_COMMUNICATION }
    usecase bw sr (Or.inr rfl)
  exact ⟨hc.1, hc.2, hv.1, hv.2, by decide, by decide⟩

/-! ## Codec backend configuration: applying the target -/

/-- The scan of the use cases computes the two maxima of the spec. -/
theorem backend_scan_eq_max (l : List audio_usecase) :
    ∀ best : Nat × Nat,
      l.foldl backend_scan_step best =
        (max best.1 (max_rounded_bit_width l), max best.2 (max_rounded_sample_rate l)) := by
  induction l with
  | nil =>
    intro best
    simp [max_rounded_bit_width, max_rounded_sample_rate]
  | cons u l ih =>
    intro best
    rw [List.foldl_cons, ih]
    unfold backend_scan_step max_rounded_bit_width max_rounded_sample_rate
    cases hu : u.out with
    | none => simp [List.filterMap_cons, hu]
    | some out =>
      simp only [List.filterMap_cons, hu, List.map_cons, List.foldr_cons]
      refine Prod.ext ?_ ?_
      · simp only
        split_ifs <;> omega
      · simp only
        split_ifs <;> omega

/-- The target of `platform_check_codec_backend_cfg` outside voice modes, in
the words of the spec. -/
theorem check_backend_target_eq_max (adev : audio_device) (usecase : audio_usecase)
    (bw sr : Nat)
    (h1 : adev.mode ≠ AUDIO_MODE_IN_CALL) (h2 : adev.mode ≠ AUDIO_MODE_IN_COMMUNICATION) :
    (platform_check_codec_backend_cfg adev usecase bw sr).new_bit_width =
      max_rounded_bit_width adev.usecase_list ∧
    (platform_check_codec_backend_cfg adev usecase bw sr).new_sample_rate =
      max_rounded_sample_rate adev.usecase_list := by
  obtain ⟨ha, hb⟩ := check_backend_target_scan adev usecase bw sr h1 h2
  rw [ha, hb, backend_scan_eq_max]
  simp

/-- The flag returned by `platform_check_codec_backend_cfg` outside voice
modes: the target differs from the backend state. -/
theorem check_backend_change_iff (adev : audio_device) (usecase : audio_usecase)
    (bw sr : Nat)
    (h1 : adev.mode ≠ AUDIO_MODE_IN_CALL) (h2 : adev.mode ≠ AUDIO_MODE_IN_COMMUNICATION) :
    (platform_check_codec_backend_cfg adev usecase bw sr).backend_change = true ↔
      ((platform_check_codec_backend_cfg adev usecase bw sr).new_bit_width ≠
          adev.cur_codec_backend_bit_width ∨
        (platform_check_codec_backend_cfg adev usecase bw sr).new_sample_rate ≠
          adev.cur_codec_backend_samplerate) := by
  have hm : ¬ (adev.mode = AUDIO_MODE_IN_CALL ∨ adev.mode = AUDIO_MODE_IN_COMMUNICATION) := by
    rintro (h | h)
    · exact h1 h
    · exact h2 h
  unfold platform_check_codec_backend_cfg
  simp only [if_neg hm, if_true]
  by_cases hC : (adev.usecase_list.foldl backend_scan_step (0, 0)).1 ≠
      adev.cur_codec_backend_bit_width ∨
    (adev.usecase_list.foldl backend_scan_step (0, 0)).2 ≠ adev.cur_codec_backend_samplerate
  · simp only [if_pos hC]
    exact ⟨fun _ => hC, fun _ => trivial⟩
  · simp only [if_neg hC]
    exact ⟨fun h => absurd h (by simp), fun h => absurd h hC⟩

/-- The sample-rate half of `platform_set_codec_backend_cfg` with its control
available: the backend sample rate becomes the one asked for. -/
theorem set_sample_rate_state (adev : audio_device) (sample_rate : Nat)
    (hrate : "SLIM_0_RX SampleRate" ∈ adev.mixer.ctl_names) :
    (set_codec_backend_sample_rate adev sample_rate).1 = 0 ∧
    (set_codec_backend_sample_rate adev sample_rate).2.cur_codec_backend_bit_width =
      adev.cur_codec_backend_bit_width ∧
    (set_codec_backend_sample_rate adev sample_rate).2.cur_codec_backend_samplerate =
      sample_rate := by
  unfold set_codec_backend_sample_rate
  by_cases hc : (adev.cur_codec_backend_bit_width = CODEC_BACKEND_DEFAULT_BIT_WIDTH ∧
        adev.cur_codec_backend_samplerate ≠ CODEC_BACKEND_DEFAULT_SAMPLE_RATE) ∨
      adev.cur_codec_backend_samplerate ≠ sample_rate
  · simp only [if_pos hc, if_pos hrate, and_self]
  · simp only [if_neg hc, true_and]
    by_contra hne
    exact hc (Or.inr hne)

/-- The function `platform_set_codec_backend_cfg` with both controls
available: status 0, the backend bit width becomes `bit_width`, and the
backend sample rate becomes the default when the bit width changes to a value
other than 24, and `sample_rate` otherwise. -/
theorem set_backend_cfg_state (adev : audio_device) (bit_width sample_rate : Nat)
    (hfmt : "SLIM_0_RX Format" ∈ adev.mixer.ctl_names)
    (hrate : "SLIM_0_RX SampleRate" ∈ adev.mixer.ctl_names) :
    (platform_set_codec_backend_cfg adev bit_width sample_rate).1 = 0 ∧
    (platform_set_codec_backend_cfg adev bit_width sample_rate).2.cur_codec_backend_bit_width =
      bit_width ∧
    (platform_set_codec_backend_cfg adev bit_width sample_rate).2.cur_codec_backend_samplerate =
      if bit_width ≠ adev.cur_codec_backend_bit_width ∧ bit_width ≠ 24 then
        CODEC_BACKEND_DEFAULT_SAMPLE_RATE
      else sample_rate := by
  unfold platform_set_codec_backend_cfg
  by_cases hb : bit_width ≠ adev.cur_codec_backend_bit_width
  · simp only [if_pos hb, if_pos hfmt]
    by_cases h24 : bit_width = 24
    · have hn : ¬ (bit_width ≠ adev.cur_codec_backend_bit_width ∧ bit_width ≠ 24) :=
        fun h => h.2 h24
      simp only [if_pos h24, if_neg hn]
      exact set_sample_rate_state _ sample_rate hrate
    · simp only [if_neg h24, if_pos (And.intro hb h24)]
      exact set_sample_rate_state _ CODEC_BACKEND_DEFAULT_SAMPLE_RATE hrate
  · have hn : ¬ (bit_width ≠ adev.cur_codec_backend_bit_width ∧ bit_width ≠ 24) :=
      fun h => hb h.1
    simp only [if_neg hb, if_neg hn]
    obtain ⟨a, b, c⟩ := set_sample_rate_state adev sample_rate hrate
    exact ⟨a, b.trans (not_not.mp hb).symm, c⟩

/-- C21: when the 24-bit-support flag is not set (the property
`audio.offload.24bit.enable` reads as 0),
`platform_check_and_set_codec_backend_cfg` returns false, makes no mixer call
and leaves `cur_codec_backend_bit_width` and `cur_codec_backend_samplerate`
unchanged (the audio device after the call is the one before it), for every
mode, every use-case list and every backend state, also when the target
differs from the state. -/
theorem check_and_set_without_24_bit (env : platform_env) (adev : audio_device)
    (usecase : audio_usecase)
    (h24 : env.offload_24bit_enable.atoi = 0) :
    platform_check_24_bit_support env = false ∧
    platform_check_and_set_codec_backend_cfg env adev usecase = (false, adev) := by
  have hs : platform_check_24_bit_support env = false := by
    unfold platform_check_24_bit_support
    simp [h24]
  refine ⟨hs, ?_⟩
  unfold platform_check_and_set_codec_backend_cfg
  simp only [hs, if_true]

theorem check_and_set_without_24_bit_witness :
    ({} : platform_env).offload_24bit_enable.atoi = 0 ∧
      (platform_check_codec_backend_cfg adev_two_streams_backend {} 0 0).new_bit_width ≠
        adev_two_streams_backend.cur_codec_backend_bit_width ∧
      platform_check_and_set_codec_backend_cfg {} adev_two_streams_backend {} =
        (false, adev_two_streams_backend) :=
  ⟨rfl, by decide, (check_and_set_without_24_bit {} adev_two_streams_backend {} rfl).2⟩

/-- C22, as stated, fails: with 24-bit support enabled, both controls
available and normal mode, a backend at (24 bit, 96000 Hz) and one stream
asking for (16 bit, 96000 Hz) end at (16, 48000), although the maximum rounded
sample rate over the streams is 96000. -/
theorem check_and_set_backend_state_counterexample :
    platform_check_24_bit_support env_24bit = true ∧
    max_rounded_bit_width adev_after_24bit.usecase_list = 16 ∧
    max_rounded_sample_rate adev_after_24bit.usecase_list = 96000 ∧
    (platform_check_and_set_codec_backend_cfg env_24bit adev_after_24bit
        {}).2.cur_codec_backend_bit_width = 16 ∧
    (platform_check_and_set_codec_backend_cfg env_24bit adev_after_24bit
        {}).2.cur_codec_backend_samplerate = 48000 ∧
    (platform_check_and_set_codec_backend_cfg env_24bit adev_after_24bit
        {}).2.cur_codec_backend_samplerate ≠
      max_rounded_sample_rate adev_after_24bit.usecase_list := by
  decide

/-- C22, amended: after `platform_check_and_set_codec_backend_cfg` runs with
24-bit support enabled, both mixer controls available and the mode neither
IN_CALL nor IN_COMMUNICATION, `cur_codec_backend_bit_width` is the maximum
rounded bit width over the active playback streams, and
`cur_codec_backend_samplerate` is the maximum rounded sample rate over them,
except that it is the default sample rate when the bit width changed to a
value other than 24; for every prior backend state and every list of
streams. -/
theorem check_and_set_backend_state (env : platform_env) (adev : audio_device)
    (usecase : audio_usecase)
    (h24 : env.offload_24bit_enable.atoi ≠ 0)
    (hfmt : "SLIM_0_RX Format" ∈ adev.mixer.ctl_names)
    (hrate : "SLIM_0_RX SampleRate" ∈ adev.mixer.ctl_names)
    (h1 : adev.mode ≠ AUDIO_MODE_IN_CALL) (h2 : adev.mode ≠ AUDIO_MODE_IN_COMMUNICATION) :
    (platform_check_and_set_codec_backend_cfg env adev usecase).2.cur_codec_backend_bit_width =
      max_rounded_bit_width adev.usecase_list ∧
    (platform_check_and_set_codec_backend_cfg env adev usecase).2.cur_codec_backend_samplerate =
      if max_rounded_bit_width adev.usecase_list ≠ adev.cur_codec_backend_bit_width ∧
          max_rounded_bit_width adev.usecase_list ≠ 24 then
        CODEC_BACKEND_DEFAULT_SAMPLE_RATE
      else max_rounded_sample_rate adev.usecase_list := by
  have hs : ¬ platform_check_24_bit_support env = false := by
    unfold platform_check_24_bit_support
    simp [h24]
  obtain ⟨hbw, hsr⟩ := check_backend_target_eq_max adev usecase 0 0 h1 h2
  have hchg := check_backend_change_iff adev usecase 0 0 h1 h2
  rw [hbw, hsr] at hchg
  have hafter : (platform_check_and_set_codec_backend_cfg env adev usecase).2 =
      if (platform_check_codec_backend_cfg adev usecase 0 0).backend_change = true then
        (platform_set_codec_backend_cfg adev (max_rounded_bit_width adev.usecase_list)
          (max_rounded_sample_rate adev.usecase_list)).2
      else adev := by
    unfold platform_check_and_set_codec_backend_cfg
    simp only [if_neg hs, hbw, hsr]
    split_ifs <;> rfl
  rw [hafter]
  by_cases hc : (platform_check_codec_backend_cfg adev usecase 0 0).backend_change = true
  · rw [if_pos hc]
    obtain ⟨_, b, c⟩ := set_backend_cfg_state adev (max_rounded_bit_width adev.usecase_list)
      (max_rounded_sample_rate adev.usecase_list) hfmt hrate
    exact ⟨b, c⟩
  · rw [if_neg hc]
    have hsame : ¬ (max_rounded_bit_width adev.usecase_list ≠
          adev.cur_codec_backend_bit_width ∨
        max_rounded_sample_rate adev.usecase_list ≠ adev.cur_codec_backend_samplerate) :=
      fun h => hc (hchg.mpr h)
    have hb : max_rounded_bit_width adev.usecase_list = adev.cur_codec_backend_bit_width := by
      by_contra h
      exact hsame (Or.inl h)
    have hr : max_rounded_sample_rate adev.usecase_list =
        adev.cur_codec_backend_samplerate := by
      by_contra h
      exact hsame (Or.inr h)
    have hn : ¬ (max_rounded_bit_width adev.usecase_list ≠ adev.cur_codec_backend_bit_width ∧
        max_rounded_bit_width adev.usecase_list ≠ 24) := fun h => h.1 hb
    rw [if_neg hn]
    exact ⟨hb.symm, hr.symm⟩

theorem check_and_set_backend_state_witness :
    env_24bit.offload_24bit_enable.atoi ≠ 0 ∧
      (platform_check_and_set_codec_backend_cfg env_24bit adev_two_streams_backend
          {}).2.cur_codec_backend_bit_width = 24 ∧
      (platform_check_and_set_codec_backend_cfg env_24bit adev_two_streams_backend
          {}).2.cur_codec_backend_samplerate = 48000 :=
  ⟨by decide,
    (check_and_set_backend_state env_24bit adev_two_streams_backend {} (by decide)
      (by decide) (by decide) (by decide) (by decide)).1,
    (check_and_set_backend_state env_24bit adev_two_streams_backend {} (by decide)
      (by decide) (by decide) (by decide) (by decide)).2⟩

/-! ## Offload buffer sizes: the claims -/

/-- The macro `ALIGN` with 1024 yields a multiple of 1024. -/
theorem ALIGN_1024_dvd (num : Nat) : 1024 ∣ ALIGN num 1024 := by
  have h1 : ALIGN num 1024 % 2 ^ 10 = 0 := by
    rw [← Nat.and_pow_two_sub_one_eq_mod]
    unfold ALIGN
    rw [Nat.land_assoc]
    have hc : bit_not32 (1024 - 1) &&& (2 ^ 10 - 1) = 0 := by decide
    rw [hc, Nat.and_zero]
  exact Nat.dvd_of_mod_eq_zero h1

/-- Clamping an aligned value between two multiples of 1024 gives a multiple
of 1024 between them. -/
theorem clamp_ALIGN_1024 (num lo hi : Nat) (hlo : 1024 ∣ lo) (hhi : 1024 ∣ hi)
    (hle : lo ≤ hi) :
    1024 ∣ (if ALIGN num 1024 < lo then lo
      else if ALIGN num 1024 > hi then hi else ALIGN num 1024) ∧
    lo ≤ (if ALIGN num 1024 < lo then lo
      else if ALIGN num 1024 > hi then hi else ALIGN num 1024) ∧
    (if ALIGN num 1024 < lo then lo
      else if ALIGN num 1024 > hi then hi else ALIGN num 1024) ≤ hi := by
  have hd := ALIGN_1024_dvd num
  split_ifs with h1 h2
  · exact ⟨hlo, le_refl _, hle⟩
  · exact ⟨hhi, hle, le_refl _⟩
  · exact ⟨hd, by omega, by omega⟩

/-- C23: for every stream description and every property override, with
32-bit wrap-around arithmetic, `platform_get_compress_offload_buffer_size`
returns a multiple of 1024 within `[2*1024, 256*1024]` and
`platform_get_pcm_offload_buffer_size` returns a multiple of 1024 within
`[4*1024, 240*1024]`. -/
theorem offload_buffer_size_bounds (env : platform_env)
    (info : Option audio_offload_info_t) (pcm_info : audio_offload_info_t) :
    (1024 ∣ platform_get_compress_offload_buffer_size env info ∧
      2 * 1024 ≤ platform_get_compress_offload_buffer_size env info ∧
      platform_get_compress_offload_buffer_size env info ≤ 256 * 1024) ∧
    (1024 ∣ platform_get_pcm_offload_buffer_size env pcm_info ∧
      4 * 1024 ≤ platform_get_pcm_offload_buffer_size env pcm_info ∧
      platform_get_pcm_offload_buffer_size env pcm_info ≤ 240 * 1024) := by
  constructor
  · unfold platform_get_compress_offload_buffer_size
    exact clamp_ALIGN_1024 _ MIN_COMPRESS_OFFLOAD_FRAGMENT_SIZE
      MAX_COMPRESS_OFFLOAD_FRAGMENT_SIZE (by decide) (by decide) (by decide)
  · unfold platform_get_pcm_offload_buffer_size
    exact clamp_ALIGN_1024 _ MIN_PCM_OFFLOAD_FRAGMENT_SIZE
      MAX_PCM_OFFLOAD_FRAGMENT_SIZE (by decide) (by decide) (by decide)

/-- The buffer sizes on concrete inputs, among them an override whose
product with 1024 wraps around. -/
theorem offload_buffer_size_examples :
    platform_get_compress_offload_buffer_size {} none = 32 * 1024 ∧
    platform_get_compress_offload_buffer_size
      { offload_buffer_size_kb := { length := 7, atoi := 4194305 } } none = 2 * 1024 ∧
    platform_get_compress_offload_buffer_size
      { offload_buffer_size_kb := { length := 2, atoi := -1 } } none = 256 * 1024 ∧
    platform_get_pcm_offload_buffer_size {} info_audio_only = 240 * 1024 ∧
    platform_get_pcm_offload_buffer_size {} info_av_streaming = 15 * 1024 ∧
    platform_get_pcm_offload_buffer_size {} { has_video := true } = 188 * 1024 := by
  decide

/-- C24, as stated, fails: for a stream without video and no property
override the compress offload buffer size is 32*1024, not
`MAX_COMPRESS_OFFLOAD_FRAGMENT_SIZE`. -/
theorem compress_buffer_size_non_video_counterexample :
    info_audio_only.has_video = false ∧
    ({} : platform_env).offload_buffer_size_kb.length = 0 ∧
    platform_get_compress_offload_buffer_size {} (some info_audio_only) = 32 * 1024 ∧
    platform_get_compress_offload_buffer_size {} (some info_audio_only) ≠
      MAX_COMPRESS_OFFLOAD_FRAGMENT_SIZE := by
  decide

/-- C24, amended: for a stream without video and no property override,
`platform_get_compress_offload_buffer_size` returns
`COMPRESS_OFFLOAD_FRAGMENT_SIZE` (32*1024), which is 1024-aligned; it returns
`MAX_COMPRESS_OFFLOAD_FRAGMENT_SIZE` (256*1024), also 1024-aligned, only for a
FLAC stream when FLAC offload is built in. -/
theorem compress_buffer_size_non_video (env : platform_env) (info : audio_offload_info_t)
    (hvideo : info.has_video = false)
    (hprop : env.offload_buffer_size_kb.length = 0 ∨ env.offload_buffer_size_kb.atoi = 0) :
    platform_get_compress_offload_buffer_size env (some info) =
      (if env.FLAC_OFFLOAD_ENABLED = true ∧ info.format = env.AUDIO_FORMAT_FLAC then
        MAX_COMPRESS_OFFLOAD_FRAGMENT_SIZE
      else COMPRESS_OFFLOAD_FRAGMENT_SIZE) ∧
    COMPRESS_OFFLOAD_FRAGMENT_SIZE = 32 * 1024 ∧
    MAX_COMPRESS_OFFLOAD_FRAGMENT_SIZE = 256 * 1024 ∧
    1024 ∣ COMPRESS_OFFLOAD_FRAGMENT_SIZE ∧ 1024 ∣ MAX_COMPRESS_OFFLOAD_FRAGMENT_SIZE := by
  have hp : ¬ (env.offload_buffer_size_kb.length ≠ 0 ∧ env.offload_buffer_size_kb.atoi ≠ 0) := by
    rintro ⟨a, b⟩
    rcases hprop with h | h
    · exact a h
    · exact b h
  have hs : ¬ (info.has_video = true ∧ info.is_streaming = true) := by
    rintro ⟨a, _⟩
    rw [hvideo] at a
    exact Bool.false_ne_true a
  refine ⟨?_, by decide, by decide, by decide, by decide⟩
  unfold platform_get_compress_offload_buffer_size
  by_cases hf : env.FLAC_OFFLOAD_ENABLED = true ∧ info.format = env.AUDIO_FORMAT_FLAC
  · have hf3 : env.FLAC_OFFLOAD_ENABLED = true ∧ info.has_video = false ∧
        info.format = env.AUDIO_FORMAT_FLAC := ⟨hf.1, hvideo, hf.2⟩
    simp only [if_neg hp, if_neg hs, if_pos hf3, if_pos hf]
    decide
  · have hf3 : ¬ (env.FLAC_OFFLOAD_ENABLED = true ∧ info.has_video = false ∧
        info.format = env.AUDIO_FORMAT_FLAC) := fun h => hf ⟨h.1, h.2.2⟩
    simp only [if_neg hp, if_neg hs, if_neg hf3, if_neg hf]
    decide

theorem compress_buffer_size_non_video_witness :
    info_audio_only.has_video = false ∧
      platform_get_compress_offload_buffer_size {} (some info_audio_only) =
        COMPRESS_OFFLOAD_FRAGMENT_SIZE :=
  ⟨rfl, (compress_buffer_size_non_video {} info_audio_only rfl (Or.inl rfl)).1⟩

/-- C25: for every stream description with `has_video` and `is_streaming`
both set, `platform_get_compress_offload_buffer_size` returns
`COMPRESS_OFFLOAD_FRAGMENT_SIZE_FOR_AV_STREAMING` (2*1024) whatever the
property override is, and this is strictly smaller than the value returned
for the same override without the streaming flag whenever that value exceeds
2*1024. -/
theorem compress_buffer_size_av_streaming (env : platform_env) (info : audio_offload_info_t)
    (hvideo : info.has_video = true) (hstream : info.is_streaming = true) :
    platform_get_compress_offload_buffer_size env (some info) =
      COMPRESS_OFFLOAD_FRAGMENT_SIZE_FOR_AV_STREAMING ∧
    COMPRESS_OFFLOAD_FRAGMENT_SIZE_FOR_AV_STREAMING = 2 * 1024 ∧
    (2 * 1024 < platform_get_compress_offload_buffer_size env
        (some { info with is_streaming := false }) →
      platform_get_compress_offload_buffer_size env (some info) <
        platform_get_compress_offload_buffer_size env
          (some { info with is_streaming := false })) := by
  have hval : platform_get_compress_offload_buffer_size env (some info) =
      COMPRESS_OFFLOAD_FRAGMENT_SIZE_FOR_AV_STREAMING := by
    unfold platform_get_compress_offload_buffer_size
    simp only [hvideo, hstream, and_self, if_true]
    decide
  refine ⟨hval, by decide, fun h => ?_⟩
  rw [hval]
  exact h

theorem compress_buffer_size_av_streaming_witness :
    info_av_streaming.has_video = true ∧ info_av_streaming.is_streaming = true ∧
      platform_get_compress_offload_buffer_size env_buffer_3kb (some info_av_streaming) =
        COMPRESS_OFFLOAD_FRAGMENT_SIZE_FOR_AV_STREAMING :=
  ⟨rfl, rfl, (compress_buffer_size_av_streaming env_buffer_3kb info_av_streaming rfl rfl).1⟩

/-- C26, what the code does: with the property `audio.offload.buffer.size.kb`
set to 3, `platform_get_compress_offload_buffer_size` returns 3072, which is
aligned to 1024 but is not a power of two. -/
theorem compress_buffer_size_not_power_of_two :
    platform_get_compress_offload_buffer_size env_buffer_3kb none = 3072 ∧
    platform_get_compress_offload_buffer_size env_buffer_3kb (some info_audio_only) = 3072 ∧
    ∀ k : Nat, 2 ^ k ≠ 3072 := by
  refine ⟨by decide, by decide, fun k h => ?_⟩
  by_cases hk : k ≤ 11
  · interval_cases k <;> omega
  · have h12 : 2 ^ 12 ≤ 2 ^ k := Nat.pow_le_pow_right (by decide) (by omega)
    omega

/-! ## Table accessors: the claims -/

/-- The value of a sound device lies inside the tables and names that device. -/
theorem snd_device_value_round_trip (d : snd_device_t) :
    snd_device_value d < SND_DEVICE_MAX ∧ snd_device_t.ofNat (snd_device_value d) = d := by
  cases d <;> exact ⟨by decide, rfl⟩

/-- The array read `device_table[value of d]` is the table entry of `d`. -/
theorem device_table_at_value (d : snd_device_t) :
    device_table_at (snd_device_value d) = some (device_table d) := by
  obtain ⟨h1, h2⟩ := snd_device_value_round_trip d
  unfold device_table_at
  have hc : (0 : Int) ≤ (snd_device_value d : Int) ∧
      (snd_device_value d : Int) < (SND_DEVICE_MAX : Int) :=
    ⟨Int.ofNat_nonneg _, Int.ofNat_lt.mpr h1⟩
  rw [if_pos hc, Int.toNat_ofNat, h2]

/-- C27: `platform_get_snd_device_name` returns the (non-empty) entry of
`device_table` for every sound device in `[SND_DEVICE_MIN, SND_DEVICE_MAX)`,
and the empty string, without reading the table, for every value outside that
range; it never reads outside the table. -/
theorem snd_device_name_spec :
    (∀ d : snd_device_t, SND_DEVICE_MIN ≤ snd_device_value d →
      platform_get_snd_device_name (snd_device_value d) = some (device_table d) ∧
      device_table d ≠ "") ∧
    (∀ v : Int, v < SND_DEVICE_MIN ∨ SND_DEVICE_MAX ≤ v →
      platform_get_snd_device_name v = some "") ∧
    (∀ v : Int, platform_get_snd_device_name v ≠ none) ∧
    (∀ v : Int, SND_DEVICE_MIN ≤ v → v < SND_DEVICE_MAX →
      ∃ d : snd_device_t, (snd_device_value d : Int) = v) := by
  refine ⟨fun d hd => ⟨?_, ?_⟩, fun v hv => ?_, fun v => ?_, fun v h1 h2 => ?_⟩
  · unfold platform_get_snd_device_name
    have hc : (snd_device_value d : Int) ≥ (SND_DEVICE_MIN : Int) ∧
        (snd_device_value d : Int) < (SND_DEVICE_MAX : Int) :=
      ⟨Int.ofNat_le.mpr hd, Int.ofNat_lt.mpr (snd_device_value_round_trip d).1⟩
    rw [if_pos hc]
    exact device_table_at_value d
  · cases d <;> decide
  · unfold platform_get_snd_device_name
    have hc : ¬ (v ≥ (SND_DEVICE_MIN : Int) ∧ v < (SND_DEVICE_MAX : Int)) := by
      rintro ⟨a, b⟩
      rcases hv with h | h
      · exact absurd a (not_le.mpr h)
      · exact absurd b (not_lt.mpr h)
    rw [if_neg hc]
  · unfold platform_get_snd_device_name device_table_at
    by_cases hc : v ≥ (SND_DEVICE_MIN : Int) ∧ v < (SND_DEVICE_MAX : Int)
    · have h0 : (0 : Int) ≤ v ∧ v < (SND_DEVICE_MAX : Int) := by
        refine ⟨le_trans (by decide) hc.1, hc.2⟩
      rw [if_pos hc, if_pos h0]
      exact Option.some_ne_none _
    · rw [if_neg hc]
      exact Option.some_ne_none _
  · refine ⟨snd_device_t.ofNat v.toNat, ?_⟩
    have hv0 : (0 : Int) ≤ v := le_trans (by decide) h1
    have hlt : v.toNat < 51 := by
      have : v < 51 := h2
      omega
    have hval : ∀ n : Nat, n < 51 → snd_device_value (snd_device_t.ofNat n) = n := by decide
    rw [hval _ hlt]
    exact Int.toNat_of_nonneg hv0

/-- The names returned for concrete values, inside and outside the range. -/
theorem snd_device_name_examples :
    platform_get_snd_device_name 0 = some "" ∧
    platform_get_snd_device_name 1 = some "handset" ∧
    platform_get_snd_device_name 50 = some "aanc-handset-mic" ∧
    platform_get_snd_device_name 51 = some "" ∧
    platform_get_snd_device_name (-1) = some "" := by
  decide

/-- C28: in the static tables, `SND_DEVICE_NONE` is the only sound device
whose calibration id is negative, and its id is -1; every other sound device
of `device_table` has a non-negative `acdb_device_table` entry and a non-empty
display name. -/
theorem static_tables_invariant :
    acdb_device_table SND_DEVICE_NONE = -1 ∧
    ∀ d : snd_device_t,
      (acdb_device_table d < 0 ↔ d = SND_DEVICE_NONE) ∧
      (d ≠ SND_DEVICE_NONE → 0 ≤ acdb_device_table d ∧ device_table d ≠ "") := by
  refine ⟨rfl, fun d => ?_⟩
  cases d <;> decide

/-- The rows of `pcm_device_table` are read for the values 0 to 6 only. -/
theorem pcm_device_table_at_some (i : Int) :
    (pcm_device_table_at i).isSome = true ↔ 0 ≤ i ∧ i < AUDIO_USECASE_MAX := by
  unfold pcm_device_table_at
  by_cases h0 : 0 ≤ i
  · rw [if_pos h0]
    have hlen : pcm_device_table.length = 7 := rfl
    constructor
    · intro h
      refine ⟨h0, ?_⟩
      rcases hget : pcm_device_table[i.toNat]? with _ | row
      · rw [hget] at h
        exact absurd h (by decide)
      · have hlt : i.toNat < pcm_device_table.length := by
          by_contra hge
          rw [List.getElem?_eq_none (not_lt.mp hge)] at hget
          exact absurd hget (by simp)
        have : (AUDIO_USECASE_MAX : Int) = 7 := rfl
        omega
    · rintro ⟨_, h2⟩
      have h7 : (AUDIO_USECASE_MAX : Int) = 7 := rfl
      have hlt : i.toNat < pcm_device_table.length := by omega
      rw [List.getElem?_eq_getElem hlt]
      rfl
  · rw [if_neg h0]
    constructor
    · intro h
      exact absurd h (by decide)
    · rintro ⟨h, _⟩
      exact absurd h h0

/-- C29, what the code does: `platform_get_pcm_device_id` returns, for every
use-case id inside `[0, AUDIO_USECASE_MAX)`, the playback index of
`pcm_device_table` for `PCM_PLAYBACK` and the capture index for any other
direction; there is no range check, so for every id outside that range it
reads the table outside its bounds (here for `AUDIO_USECASE_MAX` and -1). -/
theorem pcm_device_id_unchecked :
    (∀ usecase : Int, 0 ≤ usecase → usecase < AUDIO_USECASE_MAX →
      ∃ row : Int × Int, pcm_device_table_at usecase = some row ∧
        platform_get_pcm_device_id usecase PCM_PLAYBACK = some row.1 ∧
        ∀ device_type : Int, device_type ≠ PCM_PLAYBACK →
          platform_get_pcm_device_id usecase device_type = some row.2) ∧
    (∀ usecase device_type : Int, usecase < 0 ∨ AUDIO_USECASE_MAX ≤ usecase →
      platform_get_pcm_device_id usecase device_type = none) ∧
    platform_get_pcm_device_id AUDIO_USECASE_MAX PCM_PLAYBACK = none ∧
    platform_get_pcm_device_id (-1) PCM_CAPTURE = none ∧
    platform_get_pcm_device_id 1 PCM_PLAYBACK = some 15 ∧
    platform_get_pcm_device_id 6 PCM_CAPTURE = some 2 := by
  refine ⟨fun usecase h0 h1 => ?_, fun usecase device_type h => ?_, by decide, by decide,
    by decide, by decide⟩
  · have hs := (pcm_device_table_at_some usecase).mpr ⟨h0, h1⟩
    rcases hrow : pcm_device_table_at usecase with _ | row
    · rw [hrow] at hs
      exact absurd hs (by decide)
    · refine ⟨row, rfl, ?_, fun device_type hd => ?_⟩
      · unfold platform_get_pcm_device_id
        rw [if_pos rfl, hrow]
        rfl
      · unfold platform_get_pcm_device_id
        rw [if_neg hd, hrow]
        rfl
  · have hn : pcm_device_table_at usecase = none := by
      rcases hrow : pcm_device_table_at usecase with _ | row
      · rfl
      · have hs : (pcm_device_table_at usecase).isSome = true := by
          rw [hrow]
          rfl
        have := (pcm_device_table_at_some usecase).mp hs
        omega
    unfold platform_get_pcm_device_id
    rw [hn]
    split_ifs <;> rfl

/-! ## Input routing: a device is always selected -/

/-- A capture device is not `SND_DEVICE_NONE`. -/
theorem capture_device_ne_none (d : snd_device_t) (h : is_capture_device d) :
    d ≠ SND_DEVICE_NONE := by
  intro hd
  rw [hd] at h
  exact absurd h (by decide)

/-- The fallback on the input mask always gives a capture device. -/
theorem input_mask_rules_capture (env : platform_env) (in_device : Nat) :
    is_capture_device (input_mask_rules env in_device) := by
  unfold input_mask_rules
  split_ifs <;> decide

/-- The fallback on the output mask always gives a capture device. -/
theorem input_out_device_rules_capture (env : platform_env) (out_device : Nat) :
    is_capture_device (input_out_device_rules env out_device) := by
  unfold input_out_device_rules
  split_ifs <;> decide

/-- The voice-call rules choose nothing or a capture device. -/
theorem voice_call_rules_capture (env : platform_env) (my_data : platform_data)
    (op : operator_state) (cc in_device out_device : Nat) :
    (input_voice_call_rules env my_data op cc in_device out_device).snd_device =
        SND_DEVICE_NONE ∨
      is_capture_device
        (input_voice_call_rules env my_data op cc in_device out_device).snd_device := by
  unfold input_voice_call_rules
  simp only
  split_ifs <;> dsimp only <;> decide

/-- The voice-recognition rules choose nothing or a capture device. -/
theorem voice_rec_rules_capture (my_data : platform_data) (channel_mask in_device : Nat) :
    input_voice_rec_rules my_data channel_mask in_device = SND_DEVICE_NONE ∨
      is_capture_device (input_voice_rec_rules my_data channel_mask in_device) := by
  unfold input_voice_rec_rules
  simp only
  split_ifs <;> decide

/-- The voice-communication rules choose nothing or a capture device, and
never leave through `exit`. -/
theorem voice_comm_rules_capture (adev : audio_device) (op : operator_state)
    (in_device out_device : Nat) :
    ((input_voice_comm_rules adev op in_device out_device).snd_device = SND_DEVICE_NONE ∨
      is_capture_device (input_voice_comm_rules adev op in_device out_device).snd_device) ∧
    (input_voice_comm_rules adev op in_device out_device).goto_exit = false := by
  unfold input_voice_comm_rules
  cases adev.active_input with
  | none => exact ⟨Or.inl rfl, rfl⟩
  | some inp =>
    simp only
    split_ifs <;> dsimp only <;> decide

/-- The first stage chooses nothing or a capture device. -/
theorem first_stage_capture (env : platform_env) (my_data : platform_data)
    (op : operator_state) (out_device : Nat) :
    (input_first_stage env my_data op out_device).snd_device = SND_DEVICE_NONE ∨
      is_capture_device (input_first_stage env my_data op out_device).snd_device := by
  unfold input_first_stage
  simp only
  by_cases hm : my_data.adev.mode = AUDIO_MODE_IN_CALL
  · rw [if_pos hm]
    exact voice_call_rules_capture env my_data op _ _ out_device
  · rw [if_neg hm]
    split
    · dsimp only
      split_ifs <;> decide
    · split
      · exact voice_rec_rules_capture my_data _ _
      · split
        · exact (voice_comm_rules_capture my_data.adev op _ out_device).1
        · split
          · exact Or.inl rfl
          · exact Or.inl rfl

/-- Outside a call with a source other than the default one, the first stage
does not leave through `exit`. -/
theorem first_stage_no_exit (env : platform_env) (my_data : platform_data)
    (op : operator_state) (out_device : Nat) (inp : stream_in)
    (hmode : my_data.adev.mode ≠ AUDIO_MODE_IN_CALL)
    (hact : my_data.adev.active_input = some inp)
    (hsrc : inp.source ≠ AUDIO_SOURCE_DEFAULT) :
    (input_first_stage env my_data op out_device).goto_exit = false := by
  unfold input_first_stage
  simp only [hact, if_neg hmode, if_neg hsrc]
  split
  · rfl
  · split
    · rfl
    · split
      · exact (voice_comm_rules_capture my_data.adev op _ out_device).2
      · rfl

/-- In a call with an output device and a TTY mode among OFF, FULL, VCO and
HCO, the voice-call rules leave through `exit` only with a device. -/
theorem voice_call_rules_exit (env : platform_env) (my_data : platform_data)
    (op : operator_state) (cc in_device out_device : Nat)
    (hne : out_device ≠ AUDIO_DEVICE_NONE)
    (htty : my_data.adev.tty_mode = TTY_MODE_OFF ∨ my_data.adev.tty_mode = TTY_MODE_FULL ∨
      my_data.adev.tty_mode = TTY_MODE_VCO ∨ my_data.adev.tty_mode = TTY_MODE_HCO)
    (hexit : (input_voice_call_rules env my_data op cc in_device out_device).goto_exit = true) :
    (input_voice_call_rules env my_data op cc in_device out_device).snd_device ≠
      SND_DEVICE_NONE := by
  by_cases hw : my_data.adev.tty_mode ≠ TTY_MODE_OFF ∧
      (out_device &&& AUDIO_DEVICE_OUT_WIRED_HEADPHONE ≠ 0 ∨
        out_device &&& AUDIO_DEVICE_OUT_WIRED_HEADSET ≠ 0)
  · rw [input_voice_rules_tty env my_data op cc in_device out_device hne hw.1 hw.2]
    dsimp only
    rcases htty with h | h | h | h
    · exact absurd h hw.1
    · rw [if_pos h]
      decide
    · rw [h, if_neg (by decide), if_pos rfl]
      decide
    · rw [h, if_neg (by decide), if_neg (by decide), if_pos rfl]
      decide
  · exfalso
    revert hexit
    unfold input_voice_call_rules
    simp only [if_neg hne, if_neg hw]
    split_ifs <;> exact id

/-- C30: `platform_get_input_snd_device` returns a capture device, other than
`SND_DEVICE_NONE`, in every state in which the mode is not IN_CALL and the
capture source is not `AUDIO_SOURCE_DEFAULT`, and in every in-call state with
a non-empty output device and a TTY mode among OFF, FULL, VCO and HCO,
whatever the input mask, output mask, AEC flag, fluence flags and dual-mic
configuration are. -/
theorem input_always_selects (env : platform_env) (my_data : platform_data)
    (op : operator_state) (out_device : Nat) :
    (my_data.adev.mode ≠ AUDIO_MODE_IN_CALL →
      (∃ inp : stream_in, my_data.adev.active_input = some inp ∧
        inp.source ≠ AUDIO_SOURCE_DEFAULT) →
      (platform_get_input_snd_device env my_data op out_device).snd_device ≠ SND_DEVICE_NONE ∧
      is_capture_device (platform_get_input_snd_device env my_data op out_device).snd_device) ∧
    (my_data.adev.mode = AUDIO_MODE_IN_CALL → out_device ≠ AUDIO_DEVICE_NONE →
      (my_data.adev.tty_mode = TTY_MODE_OFF ∨ my_data.adev.tty_mode = TTY_MODE_FULL ∨
        my_data.adev.tty_mode = TTY_MODE_VCO ∨ my_data.adev.tty_mode = TTY_MODE_HCO) →
      (platform_get_input_snd_device env my_data op out_device).snd_device ≠ SND_DEVICE_NONE ∧
      is_capture_device
        (platform_get_input_snd_device env my_data op out_device).snd_device) := by
  have hcap := first_stage_capture env my_data op out_device
  have key : ((input_first_stage env my_data op out_device).goto_exit = true →
        (input_first_stage env my_data op out_device).snd_device ≠ SND_DEVICE_NONE) →
      is_capture_device
        (platform_get_input_snd_device env my_data op out_device).snd_device := by
    intro hexit
    rw [input_eq_of_first_stage]
    by_cases h0 : (input_first_stage env my_data op out_device).goto_exit = true ∨
        (input_first_stage env my_data op out_device).snd_device ≠ SND_DEVICE_NONE
    · rw [if_pos h0]
      have hnn : (input_first_stage env my_data op out_device).snd_device ≠
          SND_DEVICE_NONE := by
        rcases h0 with h | h
        · exact hexit h
        · exact h
      rcases hcap with h | h
      · exact absurd h hnn
      · exact h
    · rw [if_neg h0]
      split_ifs
      · exact input_mask_rules_capture env _
      · exact input_out_device_rules_capture env _
  constructor
  · rintro hmode ⟨inp, hact, hsrc⟩
    have hne := first_stage_no_exit env my_data op out_device inp hmode hact hsrc
    have hc := key (fun h => by rw [hne] at h; exact absurd h Bool.false_ne_true)
    exact ⟨capture_device_ne_none _ hc, hc⟩
  · intro hmode hout htty
    have hst : input_first_stage env my_data op out_device =
        input_voice_call_rules env my_data op (popcount (active_channel_mask my_data.adev))
          (input_device_mask my_data.adev) out_device := by
      unfold input_first_stage
      simp only [if_pos hmode]
    have hc := key (fun h => by
      rw [hst] at h ⊢
      exact voice_call_rules_exit env my_data op _ _ out_device hout htty h)
    exact ⟨capture_device_ne_none _ hc, hc⟩

theorem input_always_selects_witness :
    data_mic_voice_call.adev.mode ≠ AUDIO_MODE_IN_CALL ∧
      (platform_get_input_snd_device {} data_mic_voice_call {} AUDIO_DEVICE_NONE).snd_device =
        SND_DEVICE_IN_HANDSET_MIC ∧
      (platform_get_input_snd_device {} data_mic_voice_call {} AUDIO_DEVICE_NONE).snd_device ≠
        SND_DEVICE_NONE :=
  ⟨by decide, by decide,
    ((input_always_selects {} data_mic_voice_call {} AUDIO_DEVICE_NONE).1 (by decide)
      ⟨{ source := AUDIO_SOURCE_MIC, device := AUDIO_DEVICE_IN_VOICE_CALL }, rfl,
        by decide⟩).1⟩

/-! ## Routing: the result stays inside `device_table` -/

/-- The voice-call rules of the output function choose nothing or a playback
device. -/
theorem output_voice_rules_playback (env : platform_env) (adev : audio_device)
    (op : operator_state) (cc devices : Nat) :
    (output_voice_call_rules env adev op cc devices).1 = SND_DEVICE_NONE ∨
      is_playback_device (output_voice_call_rules env adev op cc devices).1 := by
  unfold output_voice_call_rules
  simp only
  split_ifs <;> dsimp only <;> decide

/-- A matched combination is a playback device. -/
theorem output_combo_rules_playback (env : platform_env) (devices : Nat) (d : snd_device_t)
    (h : output_combo_rules env devices = some d) : is_playback_device d := by
  revert h
  unfold output_combo_rules
  split_ifs <;> intro h
  all_goals first
    | (cases h; decide)
    | cases h

/-- The single-device rules choose nothing or a playback device. -/
theorem output_single_rules_playback (env : platform_env) (adev : audio_device)
    (devices : Nat) :
    (output_single_rules env adev devices).1 = SND_DEVICE_NONE ∨
      is_playback_device (output_single_rules env adev devices).1 := by
  unfold output_single_rules
  split_ifs <;> dsimp only <;> decide

/-- The output function returns nothing or a playback device. -/
theorem output_playback (env : platform_env) (my_data : platform_data)
    (op : operator_state) (devices : Nat) :
    (platform_get_output_snd_device env my_data op devices).snd_device = SND_DEVICE_NONE ∨
      is_playback_device (platform_get_output_snd_device env my_data op devices).snd_device := by
  have hv := output_voice_rules_playback env my_data.adev op
    (popcount (active_channel_mask my_data.adev)) devices
  by_cases h0 : devices = AUDIO_DEVICE_NONE ∨ devices &&& AUDIO_DEVICE_BIT_IN ≠ 0
  · exact Or.inl (output_invalid_mask env my_data op devices h0)
  · have hne : devices ≠ AUDIO_DEVICE_NONE := fun h => h0 (Or.inl h)
    have hin : devices &&& AUDIO_DEVICE_BIT_IN = 0 := by
      by_contra h
      exact h0 (Or.inr h)
    by_cases hf : my_data.adev.mode = AUDIO_MODE_IN_CALL ∧
        (output_voice_call_rules env my_data.adev op
          (popcount (active_channel_mask my_data.adev)) devices).1 ≠ SND_DEVICE_NONE
    · rw [output_of_voice_rule env my_data op devices hne hin hf.1 hf.2]
      exact hv
    · rw [output_of_later_rules env my_data op devices hne hin
        (fun hm => by
          by_contra h
          exact hf ⟨hm, h⟩)]
      by_cases h2 : popcount devices = 2
      · rw [if_pos h2]
        cases hc : output_combo_rules env devices with
        | none => exact Or.inl rfl
        | some d => exact Or.inr (output_combo_rules_playback env devices d hc)
      · rw [if_neg h2]
        by_cases h1 : popcount devices ≠ 1
        · rw [if_pos h1]
          exact Or.inl rfl
        · rw [if_neg h1]
          exact output_single_rules_playback env my_data.adev devices

/-- The input function returns nothing or a capture device. -/
theorem input_capture (env : platform_env) (my_data : platform_data)
    (op : operator_state) (out_device : Nat) :
    (platform_get_input_snd_device env my_data op out_device).snd_device = SND_DEVICE_NONE ∨
      is_capture_device (platform_get_input_snd_device env my_data op out_device).snd_device := by
  rw [input_eq_of_first_stage]
  split_ifs
  · exact first_stage_capture env my_data op out_device
  · exact Or.inr (input_mask_rules_capture env _)
  · exact Or.inr (input_out_device_rules_capture env _)

/-- The array read `device_table[i]` stays inside the table when `i` is
`SND_DEVICE_NONE`, a playback device or a capture device. -/
theorem device_table_at_in_range (d : snd_device_t)
    (h : d = SND_DEVICE_NONE ∨ is_playback_device d ∨ is_capture_device d) :
    (0 : Int) ≤ snd_device_value d ∧ (snd_device_value d : Int) < SND_DEVICE_MAX ∧
      device_table_at (snd_device_value d) = some (device_table d) := by
  have hlt : snd_device_value d < SND_DEVICE_MAX := by
    rcases h with h | h | h
    · rw [h]
      decide
    · exact lt_trans h.2 (by decide)
    · exact h.2
  exact ⟨Int.ofNat_nonneg _, Int.ofNat_lt.mpr hlt, device_table_at_value d⟩

/-- C31: for every state and mask, `platform_get_output_snd_device` returns
`SND_DEVICE_NONE` or a playback device in
`[SND_DEVICE_OUT_BEGIN, SND_DEVICE_OUT_END)`, and
`platform_get_input_snd_device` returns `SND_DEVICE_NONE` or a capture device
in `[SND_DEVICE_IN_BEGIN, SND_DEVICE_IN_END)`; hence the value each function
uses as index of `device_table` at its exit lies in `[0, SND_DEVICE_MAX)`,
and the read gives an entry of the table. -/
theorem routing_result_in_table (env : platform_env) (my_data : platform_data)
    (op : operator_state) (devices out_device : Nat) :
    ((platform_get_output_snd_device env my_data op devices).snd_device = SND_DEVICE_NONE ∨
      is_playback_device (platform_get_output_snd_device env my_data op devices).snd_device) ∧
    ((platform_get_input_snd_device env my_data op out_device).snd_device = SND_DEVICE_NONE ∨
      is_capture_device
        (platform_get_input_snd_device env my_data op out_device).snd_device) ∧
    ((0 : Int) ≤
        snd_device_value (platform_get_output_snd_device env my_data op devices).snd_device ∧
      (snd_device_value (platform_get_output_snd_device env my_data op devices).snd_device :
        Int) < SND_DEVICE_MAX ∧
      device_table_at
          (snd_device_value (platform_get_output_snd_device env my_data op devices).snd_device) ≠
        none) ∧
    ((0 : Int) ≤
        snd_device_value (platform_get_input_snd_device env my_data op out_device).snd_device ∧
      (snd_device_value (platform_get_input_snd_device env my_data op out_device).snd_device :
        Int) < SND_DEVICE_MAX ∧
      device_table_at
          (snd_device_value
            (platform_get_input_snd_device env my_data op out_device).snd_device) ≠
        none) := by
  have ho := output_playback env my_data op devices
  have hi := input_capture env my_data op out_device
  have hto := device_table_at_in_range _ (ho.elim Or.inl (fun h => Or.inr (Or.inl h)))
  have hti := device_table_at_in_range _ (hi.elim Or.inl (fun h => Or.inr (Or.inr h)))
  refine ⟨ho, hi, ⟨hto.1, hto.2.1, ?_⟩, ⟨hti.1, hti.2.1, ?_⟩⟩
  · rw [hto.2.2]
    exact Option.some_ne_none _
  · rw [hti.2.2]
    exact Option.some_ne_none _

/-- The range of the result on concrete inputs: an HDMI mask outside a call,
a wired headset in a call with TTY VCO, and the capture side. -/
theorem routing_result_examples :
    (platform_get_output_snd_device {} {} {} AUDIO_DEVICE_OUT_AUX_DIGITAL).snd_device =
      SND_DEVICE_OUT_HDMI ∧
    snd_device_value SND_DEVICE_OUT_HDMI = 9 ∧
    (platform_get_output_snd_device {} data_tty_vco {} AUDIO_DEVICE_OUT_WIRED_HEADSET).snd_device =
      SND_DEVICE_OUT_VOICE_TTY_VCO_HEADPHONES ∧
    (platform_get_input_snd_device {} data_tty_vco {} AUDIO_DEVICE_OUT_WIRED_HEADSET).snd_device =
      SND_DEVICE_IN_VOICE_TTY_VCO_HANDSET_MIC ∧
    (platform_get_input_snd_device {} {} {} AUDIO_DEVICE_OUT_SPEAKER).snd_device =
      SND_DEVICE_NONE ∧
    device_table_at (snd_device_value SND_DEVICE_NONE) = some "none" := by
  decide

/-! ## Output routing: a call with none of the voice-call bits -/

/-- The device of the single-device rules does not depend on the mode. -/
theorem single_rules_mode (env : platform_env) (adev : audio_device) (devices : Nat)
    (mode : Int) :
    (output_single_rules env { adev with mode := mode } devices).1 =
      (output_single_rules env adev devices).1 := by
  unfold output_single_rules
  split_ifs <;> rfl

/-- C32: for every output mask with none of the bits of the voice-call rules
(wired headphone, wired headset, Bluetooth SCO, speaker, earpiece, and the
dock bits where USB headsets are built in), `platform_get_output_snd_device`
in `AUDIO_MODE_IN_CALL` returns the device it returns for the same mask and
the same remaining state in any other mode `mode`: the voice-call rules fall
through to the combination and single-device rules. -/
theorem output_in_call_falls_through (env : platform_env) (my_data : platform_data)
    (op : operator_state) (devices : Nat) (mode : Int)
    (hmode : mode ≠ AUDIO_MODE_IN_CALL)
    (hhp : devices &&& AUDIO_DEVICE_OUT_WIRED_HEADPHONE = 0)
    (hhs : devices &&& AUDIO_DEVICE_OUT_WIRED_HEADSET = 0)
    (hsco : devices &&& AUDIO_DEVICE_OUT_ALL_SCO = 0)
    (hspk : devices &&& AUDIO_DEVICE_OUT_SPEAKER = 0)
    (hear : devices &&& AUDIO_DEVICE_OUT_EARPIECE = 0)
    (hdock : env.USB_HEADSET_ENABLED = true →
      devices &&& AUDIO_DEVICE_OUT_ANLG_DOCK_HEADSET = 0 ∧
        devices &&& AUDIO_DEVICE_OUT_DGTL_DOCK_HEADSET = 0) :
    (platform_get_output_snd_device env
        { my_data with adev := { my_data.adev with mode := AUDIO_MODE_IN_CALL } }
        op devices).snd_device =
      (platform_get_output_snd_device env
        { my_data with adev := { my_data.adev with mode := mode } } op devices).snd_device := by
  by_cases h0 : devices = AUDIO_DEVICE_NONE ∨ devices &&& AUDIO_DEVICE_BIT_IN ≠ 0
  · rw [output_invalid_mask env _ op devices h0, output_invalid_mask env _ op devices h0]
  · have hne : devices ≠ AUDIO_DEVICE_NONE := fun h => h0 (Or.inl h)
    have hin : devices &&& AUDIO_DEVICE_BIT_IN = 0 := by
      by_contra h
      exact h0 (Or.inr h)
    rw [output_of_later_rules env
        { my_data with adev := { my_data.adev with mode := AUDIO_MODE_IN_CALL } }
        op devices hne hin
        (fun _ => voice_rules_none env _ op _ devices hhp hhs hsco hspk hear hdock),
      output_of_later_rules env { my_data with adev := { my_data.adev with mode := mode } }
        op devices hne hin (fun h => absurd h hmode)]
    dsimp only
    rw [single_rules_mode env my_data.adev devices mode,
      single_rules_mode env my_data.adev devices AUDIO_MODE_IN_CALL]

theorem output_in_call_falls_through_witness :
    AUDIO_MODE_NORMAL ≠ AUDIO_MODE_IN_CALL ∧
      (platform_get_output_snd_device {}
          { adev := { mode := AUDIO_MODE_IN_CALL } } {}
          AUDIO_DEVICE_OUT_AUX_DIGITAL).snd_device = SND_DEVICE_OUT_HDMI ∧
      (platform_get_output_snd_device {}
          ({ ({} : platform_data) with
            adev := { ({} : platform_data).adev with mode := AUDIO_MODE_IN_CALL } }) {}
          AUDIO_DEVICE_OUT_AUX_DIGITAL).snd_device =
        (platform_get_output_snd_device {}
          ({ ({} : platform_data) with
            adev := { ({} : platform_data).adev with mode := AUDIO_MODE_NORMAL } }) {}
          AUDIO_DEVICE_OUT_AUX_DIGITAL).snd_device :=
  ⟨by decide, by decide,
    output_in_call_falls_through {} {} {} AUDIO_DEVICE_OUT_AUX_DIGITAL
      AUDIO_MODE_NORMAL (by decide) (by decide) (by decide) (by decide) (by decide) (by decide)
      (fun h => absurd h (by decide))⟩

/-- Where USB headsets are built in, the dock bits belong to the bits of the
voice-call rules: a mask of the analog dock bit and the HDMI bit gives the USB
headset in a call and no device outside a call. -/
theorem output_in_call_dock_example :
    (platform_get_output_snd_device { USB_HEADSET_ENABLED := true } data_in_call {}
        (AUDIO_DEVICE_OUT_ANLG_DOCK_HEADSET ||| AUDIO_DEVICE_OUT_AUX_DIGITAL)).snd_device =
      SND_DEVICE_OUT_USB_HEADSET ∧
    (platform_get_output_snd_device { USB_HEADSET_ENABLED := true } {} {}
        (AUDIO_DEVICE_OUT_ANLG_DOCK_HEADSET ||| AUDIO_DEVICE_OUT_AUX_DIGITAL)).snd_device =
      SND_DEVICE_NONE := by
  decide

/-! ## Initialisation: the dual-mic configuration and the fluence flags -/

/-- The loop that opens the mixer again leaves a handle that is there
alone. -/
theorem mixer_open_retry_some (env : platform_env) (fuel retry_num : Nat) (m : mixer) :
    mixer_open_retry env fuel retry_num (some m) = some m := by
  cases fuel with
  | zero => rfl
  | succ n =>
    unfold mixer_open_retry
    rw [if_neg (fun h => Option.some_ne_none m h.1)]

/-- The bound on the rounds of the loop that opens the mixer again is never
what stops it: once `retry_num` plus the bound reaches `RETRY_NUMBER`, a
larger bound gives the same handle. -/
theorem mixer_open_retry_fuel (env : platform_env) (fuel : Nat) :
    ∀ (retry_num extra : Nat) (m : Option mixer), RETRY_NUMBER ≤ retry_num + fuel →
      mixer_open_retry env (fuel + extra) retry_num m = mixer_open_retry env fuel retry_num m := by
  induction fuel with
  | zero =>
    intro retry_num extra m h
    cases extra with
    | zero => rfl
    | succ e =>
      rw [Nat.zero_add]
      unfold mixer_open_retry
      rw [if_neg (fun hc => absurd hc.2 (not_lt.mpr (by simpa using h)))]
  | succ n ih =>
    intro retry_num extra m h
    rw [Nat.add_right_comm]
    unfold mixer_open_retry
    by_cases hc : m = none ∧ retry_num < RETRY_NUMBER
    · rw [if_pos hc, if_pos hc]
      exact ih (retry_num + 1) extra _ (by omega)
    · rw [if_neg hc, if_neg hc]

/-- The dual-mic block sets the configuration from the property and leaves
the fluence flags alone. -/
theorem init_dualmic_config_fields (env : platform_env) (my_data : platform_data) :
    (init_dualmic_config env my_data).dualmic_config =
      (if env.persist_audio_dualmic_config = "broadside" then DUALMIC_CONFIG_BROADSIDE
        else if env.persist_audio_dualmic_config = "endfire" then DUALMIC_CONFIG_ENDFIRE
        else my_data.dualmic_config) ∧
    (init_dualmic_config env my_data).fluence_in_voice_call = my_data.fluence_in_voice_call ∧
    (init_dualmic_config env my_data).fluence_in_voice_rec = my_data.fluence_in_voice_rec ∧
    (init_dualmic_config env my_data).fluence_in_spkr_mode = my_data.fluence_in_spkr_mode := by
  unfold init_dualmic_config
  dsimp only
  split_ifs <;> exact ⟨rfl, rfl, rfl, rfl⟩

/-- The fluence block leaves the dual-mic configuration alone, and sets a
flag that was false exactly when the configuration is not NONE and the
property of the flag is "true". -/
theorem init_fluence_fields (env : platform_env) (my_data : platform_data)
    (hvc : my_data.fluence_in_voice_call = false) (hvr : my_data.fluence_in_voice_rec = false)
    (hsp : my_data.fluence_in_spkr_mode = false) :
    (init_fluence env my_data).dualmic_config = my_data.dualmic_config ∧
    ((init_fluence env my_data).fluence_in_voice_call = true ↔
      my_data.dualmic_config ≠ DUALMIC_CONFIG_NONE ∧
        env.persist_audio_fluence_voicecall = "true") ∧
    ((init_fluence env my_data).fluence_in_voice_rec = true ↔
      my_data.dualmic_config ≠ DUALMIC_CONFIG_NONE ∧
        env.persist_audio_fluence_voicerec = "true") ∧
    ((init_fluence env my_data).fluence_in_spkr_mode = true ↔
      my_data.dualmic_config ≠ DUALMIC_CONFIG_NONE ∧
        env.persist_audio_fluence_speaker = "true") := by
  unfold init_fluence
  dsimp only
  split_ifs <;> simp_all

/-- Loading the calibration library leaves the dual-mic configuration and the
fluence flags alone. -/
theorem init_acdb_loader_fields (env : platform_env) (my_data : platform_data) :
    (init_acdb_loader env my_data).dualmic_config = my_data.dualmic_config ∧
    (init_acdb_loader env my_data).fluence_in_voice_call = my_data.fluence_in_voice_call ∧
    (init_acdb_loader env my_data).fluence_in_voice_rec = my_data.fluence_in_voice_rec ∧
    (init_acdb_loader env my_data).fluence_in_spkr_mode = my_data.fluence_in_spkr_mode := by
  unfold init_acdb_loader
  cases env.dlopen_acdb_loader <;> exact ⟨rfl, rfl, rfl, rfl⟩

/-- When the mixer and the audio route are there, `platform_init` returns
platform data: the dual-mic configuration follows the dual-mic property, and
a fluence flag is set exactly when the configuration is not NONE and the
property of the flag is "true". -/
theorem platform_init_fields (env : platform_env) (adev : audio_device) (m : mixer)
    (hm : mixer_open_retry env RETRY_NUMBER 0 (env.mixer_open 0) = some m)
    (hr : env.audio_route_init = true) :
    ∃ my_data : platform_data, platform_init env adev = some my_data ∧
      my_data.dualmic_config =
        (if env.persist_audio_dualmic_config = "broadside" then DUALMIC_CONFIG_BROADSIDE
          else if env.persist_audio_dualmic_config = "endfire" then DUALMIC_CONFIG_ENDFIRE
          else DUALMIC_CONFIG_NONE) ∧
      (my_data.fluence_in_voice_call = true ↔
        my_data.dualmic_config ≠ DUALMIC_CONFIG_NONE ∧
          env.persist_audio_fluence_voicecall = "true") ∧
      (my_data.fluence_in_voice_rec = true ↔
        my_data.dualmic_config ≠ DUALMIC_CONFIG_NONE ∧
          env.persist_audio_fluence_voicerec = "true") ∧
      (my_data.fluence_in_spkr_mode = true ↔
        my_data.dualmic_config ≠ DUALMIC_CONFIG_NONE ∧
          env.persist_audio_fluence_speaker = "true") := by
  have hr0 : ¬ env.audio_route_init = false := by
    rw [hr]
    exact Bool.noConfusion
  unfold platform_init
  simp only [hm, if_neg hr0]
  refine ⟨_, rfl, ?_⟩
  dsimp only
  obtain ⟨a1, a2, a3, a4⟩ := init_acdb_loader_fields env (init_fluence env
    (init_dualmic_config env
      { adev := { adev with mixer := m, audio_route := true },
        dualmic_config := DUALMIC_CONFIG_NONE,
        fluence_in_spkr_mode := false,
        fluence_in_voice_call := false,
        fluence_in_voice_rec := false,
        acdb_send_audio_cal := false,
        acdb_send_voice_cal := false }))
  obtain ⟨c1, c2, c3, c4⟩ := init_dualmic_config_fields env
    { adev := { adev with mixer := m, audio_route := true },
      dualmic_config := DUALMIC_CONFIG_NONE,
      fluence_in_spkr_mode := false,
      fluence_in_voice_call := false,
      fluence_in_voice_rec := false,
      acdb_send_audio_cal := false,
      acdb_send_voice_cal := false }
  obtain ⟨b1, b2, b3, b4⟩ := init_fluence_fields env _ c2 c3 c4
  rw [a1, a2, a3, a4, b1]
  exact ⟨c1, b2, b3, b4⟩

/-- What `platform_init` returns, it returns with a mixer and an audio
route. -/
theorem platform_init_some (env : platform_env) (adev : audio_device) (my_data : platform_data)
    (h : platform_init env adev = some my_data) :
    (∃ m : mixer, mixer_open_retry env RETRY_NUMBER 0 (env.mixer_open 0) = some m) ∧
      env.audio_route_init = true := by
  unfold platform_init at h
  cases hm : mixer_open_retry env RETRY_NUMBER 0 (env.mixer_open 0) with
  | none =>
    rw [hm] at h
    exact nomatch h
  | some m =>
    refine ⟨⟨m, rfl⟩, ?_⟩
    by_contra hr
    rw [hm] at h
    simp only [Bool.not_eq_true] at hr
    simp only [if_pos hr] at h
    exact nomatch h

/-- Without a mixer after all the tries, or without an audio route,
`platform_init` returns NULL. -/
theorem platform_init_none (env : platform_env) (adev : audio_device)
    (h : (∀ k : Nat, k ≤ RETRY_NUMBER → env.mixer_open k = none) ∨
      env.audio_route_init = false) :
    platform_init env adev = none := by
  rcases h with h | h
  · have hloop : ∀ (fuel retry_num : Nat), retry_num + fuel ≤ RETRY_NUMBER →
        mixer_open_retry env fuel retry_num none = none := by
      intro fuel
      induction fuel with
      | zero =>
        intro retry_num _
        rfl
      | succ n ih =>
        intro retry_num hle
        unfold mixer_open_retry
        rw [if_pos ⟨rfl, by omega⟩, h (retry_num + 1) (by omega)]
        exact ih (retry_num + 1) (by omega)
    unfold platform_init
    rw [h 0 (Nat.zero_le _), hloop RETRY_NUMBER 0 (by omega)]
  · unfold platform_init
    cases mixer_open_retry env RETRY_NUMBER 0 (env.mixer_open 0) with
    | none => rfl
    | some m => simp only [if_pos h]

/-- C33: in the platform data `platform_init` returns, `dualmic_config` is
BROADSIDE exactly when the property `persist.audio.dualmic.config` is
"broadside", ENDFIRE exactly when it is "endfire" and NONE otherwise, and each
of `fluence_in_voice_call`, `fluence_in_voice_rec` and `fluence_in_spkr_mode`
is true only when `dualmic_config` is not NONE (namely exactly when, in
addition, the fluence property of the flag is "true"), whatever the fluence
properties are. -/
theorem platform_init_dualmic_fluence (env : platform_env) (adev : audio_device)
    (my_data : platform_data) (h : platform_init env adev = some my_data) :
    (my_data.dualmic_config = DUALMIC_CONFIG_BROADSIDE ↔
      env.persist_audio_dualmic_config = "broadside") ∧
    (my_data.dualmic_config = DUALMIC_CONFIG_ENDFIRE ↔
      env.persist_audio_dualmic_config = "endfire") ∧
    (my_data.dualmic_config = DUALMIC_CONFIG_NONE ↔
      env.persist_audio_dualmic_config ≠ "broadside" ∧
        env.persist_audio_dualmic_config ≠ "endfire") ∧
    (my_data.fluence_in_voice_call = true → my_data.dualmic_config ≠ DUALMIC_CONFIG_NONE) ∧
    (my_data.fluence_in_voice_rec = true → my_data.dualmic_config ≠ DUALMIC_CONFIG_NONE) ∧
    (my_data.fluence_in_spkr_mode = true → my_data.dualmic_config ≠ DUALMIC_CONFIG_NONE) ∧
    (my_data.fluence_in_voice_call = true ↔
      my_data.dualmic_config ≠ DUALMIC_CONFIG_NONE ∧
        env.persist_audio_fluence_voicecall = "true") ∧
    (my_data.fluence_in_voice_rec = true ↔
      my_data.dualmic_config ≠ DUALMIC_CONFIG_NONE ∧
        env.persist_audio_fluence_voicerec = "true") ∧
    (my_data.fluence_in_spkr_mode = true ↔
      my_data.dualmic_config ≠ DUALMIC_CONFIG_NONE ∧
        env.persist_audio_fluence_speaker = "true") := by
  obtain ⟨⟨m, hm⟩, hr⟩ := platform_init_some env adev my_data h
  obtain ⟨d, hd, h1, h2, h3, h4⟩ := platform_init_fields env adev m hm hr
  rw [h] at hd
  cases hd
  have hbe : ¬ ("broadside" : String) = "endfire" := by decide
  have hbs : ¬ DUALMIC_CONFIG_BROADSIDE = DUALMIC_CONFIG_NONE := by decide
  have hef : ¬ DUALMIC_CONFIG_ENDFIRE = DUALMIC_CONFIG_NONE := by decide
  have hbf : ¬ DUALMIC_CONFIG_BROADSIDE = DUALMIC_CONFIG_ENDFIRE := by decide
  refine ⟨?_, ?_, ?_, fun hf => (h2.mp hf).1, fun hf => (h3.mp hf).1, fun hf => (h4.mp hf).1,
    h2, h3, h4⟩
  · rw [h1]
    by_cases hb : env.persist_audio_dualmic_config = "broadside"
    · rw [if_pos hb]
      exact ⟨fun _ => hb, fun _ => rfl⟩
    · by_cases he : env.persist_audio_dualmic_config = "endfire"
      · rw [if_neg hb, if_pos he]
        exact ⟨fun h => absurd h.symm hbf, fun h => absurd h hb⟩
      · rw [if_neg hb, if_neg he]
        exact ⟨fun h => absurd h.symm hbs, fun h => absurd h hb⟩
  · rw [h1]
    by_cases hb : env.persist_audio_dualmic_config = "broadside"
    · have he : ¬ env.persist_audio_dualmic_config = "endfire" := by
        rw [hb]
        exact hbe
      rw [if_pos hb]
      exact ⟨fun h => absurd h hbf, fun h => absurd h he⟩
    · by_cases he : env.persist_audio_dualmic_config = "endfire"
      · rw [if_neg hb, if_pos he]
        exact ⟨fun _ => he, fun _ => rfl⟩
      · rw [if_neg hb, if_neg he]
        exact ⟨fun h => absurd h.symm hef, fun h => absurd h he⟩
  · rw [h1]
    by_cases hb : env.persist_audio_dualmic_config = "broadside"
    · rw [if_pos hb]
      exact ⟨fun h => absurd h hbs, fun h => absurd hb h.1⟩
    · by_cases he : env.persist_audio_dualmic_config = "endfire"
      · rw [if_neg hb, if_pos he]
        exact ⟨fun h => absurd h hef, fun h => absurd he h.2⟩
      · rw [if_neg hb, if_neg he]
        exact ⟨fun _ => ⟨hb, he⟩, fun _ => rfl⟩

theorem platform_init_dualmic_fluence_witness :
    platform_init env_broadside_fluence {} = some data_broadside_fluence ∧
      (data_broadside_fluence.dualmic_config = DUALMIC_CONFIG_BROADSIDE ↔
        env_broadside_fluence.persist_audio_dualmic_config = "broadside") ∧
      (data_broadside_fluence.fluence_in_voice_call = true →
        data_broadside_fluence.dualmic_config ≠ DUALMIC_CONFIG_NONE) :=
  ⟨by decide,
    (platform_init_dualmic_fluence env_broadside_fluence {} data_broadside_fluence
      (by decide)).1,
    (platform_init_dualmic_fluence env_broadside_fluence {} data_broadside_fluence
      (by decide)).2.2.2.1⟩

/-- What `platform_init` returns on concrete properties: fluence properties
without a dual-mic property set no flag, an endfire property with the
voice-recognition property sets that flag only, a dual-mic property in capital
letters is not recognised, and the mixer may come at a later try. -/
theorem platform_init_examples :
    (platform_init env_fluence_only {}).map
        (fun d => (d.dualmic_config, d.fluence_in_voice_call, d.fluence_in_voice_rec,
          d.fluence_in_spkr_mode)) =
      some (DUALMIC_CONFIG_NONE, false, false, false) ∧
    (platform_init
          { persist_audio_dualmic_config := "endfire",
            persist_audio_fluence_voicerec := "true" } {}).map
        (fun d => (d.dualmic_config, d.fluence_in_voice_call, d.fluence_in_voice_rec,
          d.fluence_in_spkr_mode)) =
      some (DUALMIC_CONFIG_ENDFIRE, false, true, false) ∧
    (platform_init { persist_audio_dualmic_config := "BROADSIDE" } {}).map
        (fun d => d.dualmic_config) = some DUALMIC_CONFIG_NONE ∧
    (platform_init { mixer_open := fun k => if k = 3 then some {} else none } {}).isSome = true ∧
    platform_init { mixer_open := fun k => if k = 11 then some {} else none } {} = none ∧
    platform_init { audio_route_init := false } {} = none := by
  decide

/-- When the first call of `mixer_open` gives a handle and `audio_route_init`
gives one, `platform_init` returns platform data. -/
theorem platform_init_returns (env : platform_env) (adev : audio_device) (m : mixer)
    (hm : env.mixer_open 0 = some m) (hr : env.audio_route_init = true) :
    ∃ my_data : platform_data, platform_init env adev = some my_data := by
  have hloop : mixer_open_retry env RETRY_NUMBER 0 (env.mixer_open 0) = some m := by
    rw [hm]
    exact mixer_open_retry_some env RETRY_NUMBER 0 m
  obtain ⟨d, hd, _⟩ := platform_init_fields env adev m hloop hr
  exact ⟨d, hd⟩

/-! ## Codec backend configuration: the status of the setter -/

/-- The sample-rate half of `platform_set_codec_backend_cfg`: it needs its
control when the backend runs at the default bit width but not at the default
sample rate, or when its sample rate is not the one asked for. With the
control where it is needed the status is 0 and the backend sample rate becomes
the one asked for; without it the status is `-EINVAL` and nothing changes. -/
theorem set_sample_rate_status (adev : audio_device) (sample_rate : Nat) :
    (((adev.cur_codec_backend_bit_width = CODEC_BACKEND_DEFAULT_BIT_WIDTH ∧
          adev.cur_codec_backend_samplerate ≠ CODEC_BACKEND_DEFAULT_SAMPLE_RATE) ∨
        adev.cur_codec_backend_samplerate ≠ sample_rate →
        "SLIM_0_RX SampleRate" ∈ adev.mixer.ctl_names) →
      (set_codec_backend_sample_rate adev sample_rate).1 = 0 ∧
      (set_codec_backend_sample_rate adev sample_rate).2.cur_codec_backend_bit_width =
        adev.cur_codec_backend_bit_width ∧
      (set_codec_backend_sample_rate adev sample_rate).2.cur_codec_backend_samplerate =
        sample_rate) ∧
    ((((adev.cur_codec_backend_bit_width = CODEC_BACKEND_DEFAULT_BIT_WIDTH ∧
          adev.cur_codec_backend_samplerate ≠ CODEC_BACKEND_DEFAULT_SAMPLE_RATE) ∨
        adev.cur_codec_backend_samplerate ≠ sample_rate) ∧
        "SLIM_0_RX SampleRate" ∉ adev.mixer.ctl_names) →
      set_codec_backend_sample_rate adev sample_rate = (-EINVAL, adev)) := by
  unfold set_codec_backend_sample_rate
  by_cases hc : (adev.cur_codec_backend_bit_width = CODEC_BACKEND_DEFAULT_BIT_WIDTH ∧
        adev.cur_codec_backend_samplerate ≠ CODEC_BACKEND_DEFAULT_SAMPLE_RATE) ∨
      adev.cur_codec_backend_samplerate ≠ sample_rate
  · constructor
    · intro hctl
      simp only [if_pos hc, if_pos (hctl hc), and_self]
    · rintro ⟨_, hno⟩
      simp only [if_pos hc, if_neg hno]
  · constructor
    · intro _
      simp only [if_neg hc, true_and]
      by_contra hne
      exact hc (Or.inr hne)
    · rintro ⟨h, _⟩
      exact absurd h hc

/-- The status and the state after `platform_set_codec_backend_cfg`, with the
target rate `rate` named: 0 and the state (`bit_width`, `rate`) when the
controls it needs are there, `-EINVAL` when one of them is absent. -/
theorem set_backend_cfg_status (adev : audio_device) (bit_width sample_rate rate : Nat)
    (hrate : rate =
      if bit_width ≠ adev.cur_codec_backend_bit_width ∧ bit_width ≠ 24 then
        CODEC_BACKEND_DEFAULT_SAMPLE_RATE
      else sample_rate) :
    ((bit_width ≠ adev.cur_codec_backend_bit_width →
        "SLIM_0_RX Format" ∈ adev.mixer.ctl_names) →
      ((bit_width = CODEC_BACKEND_DEFAULT_BIT_WIDTH ∧
          adev.cur_codec_backend_samplerate ≠ CODEC_BACKEND_DEFAULT_SAMPLE_RATE) ∨
        adev.cur_codec_backend_samplerate ≠ rate →
        "SLIM_0_RX SampleRate" ∈ adev.mixer.ctl_names) →
      (platform_set_codec_backend_cfg adev bit_width sample_rate).1 = 0 ∧
      (platform_set_codec_backend_cfg adev bit_width sample_rate).2.cur_codec_backend_bit_width =
        bit_width ∧
      (platform_set_codec_backend_cfg adev bit_width sample_rate).2.cur_codec_backend_samplerate =
        rate) ∧
    ((bit_width ≠ adev.cur_codec_backend_bit_width ∧
          "SLIM_0_RX Format" ∉ adev.mixer.ctl_names) ∨
        (((bit_width = CODEC_BACKEND_DEFAULT_BIT_WIDTH ∧
            adev.cur_codec_backend_samplerate ≠ CODEC_BACKEND_DEFAULT_SAMPLE_RATE) ∨
          adev.cur_codec_backend_samplerate ≠ rate) ∧
          "SLIM_0_RX SampleRate" ∉ adev.mixer.ctl_names) →
      (platform_set_codec_backend_cfg adev bit_width sample_rate).1 = -EINVAL) := by
  by_cases hb : bit_width ≠ adev.cur_codec_backend_bit_width
  · by_cases hfmt : "SLIM_0_RX Format" ∈ adev.mixer.ctl_names
    · by_cases h24 : bit_width = 24
      · have hrate1 : rate = sample_rate := hrate.trans (if_neg (fun h => h.2 h24))
        subst hrate1
        have hr : platform_set_codec_backend_cfg adev bit_width rate =
            set_codec_backend_sample_rate
              { adev with
                  mixer := mixer_ctl_set_enum_by_string adev.mixer "SLIM_0_RX Format" "S24_LE",
                  cur_codec_backend_bit_width := bit_width } rate := by
          unfold platform_set_codec_backend_cfg
          simp only [if_pos hb, if_pos hfmt, if_pos h24]
        have hs := set_sample_rate_status
          { adev with
              mixer := mixer_ctl_set_enum_by_string adev.mixer "SLIM_0_RX Format" "S24_LE",
              cur_codec_backend_bit_width := bit_width } rate
        rw [hr]
        constructor
        · intro _ hneed
          exact hs.1 hneed
        · rintro (h | h)
          · exact absurd hfmt h.2
          · exact congrArg Prod.fst (hs.2 h)
      · have hrate1 : rate = CODEC_BACKEND_DEFAULT_SAMPLE_RATE :=
          hrate.trans (if_pos ⟨hb, h24⟩)
        subst hrate1
        have hr : platform_set_codec_backend_cfg adev bit_width sample_rate =
            set_codec_backend_sample_rate
              { adev with
                  mixer := mixer_ctl_set_enum_by_string adev.mixer "SLIM_0_RX Format" "S16_LE",
                  cur_codec_backend_bit_width := bit_width }
              CODEC_BACKEND_DEFAULT_SAMPLE_RATE := by
          unfold platform_set_codec_backend_cfg
          simp only [if_pos hb, if_pos hfmt, if_neg h24]
        have hs := set_sample_rate_status
          { adev with
              mixer := mixer_ctl_set_enum_by_string adev.mixer "SLIM_0_RX Format" "S16_LE",
              cur_codec_backend_bit_width := bit_width } CODEC_BACKEND_DEFAULT_SAMPLE_RATE
        rw [hr]
        constructor
        · intro _ hneed
          exact hs.1 hneed
        · rintro (h | h)
          · exact absurd hfmt h.2
          · exact congrArg Prod.fst (hs.2 h)
    · have hr : platform_set_codec_backend_cfg adev bit_width sample_rate = (-EINVAL, adev) := by
        unfold platform_set_codec_backend_cfg
        simp only [if_pos hb, if_neg hfmt]
      rw [hr]
      exact ⟨fun h _ => absurd (h hb) hfmt, fun _ => rfl⟩
  · have hrate1 : rate = sample_rate := hrate.trans (if_neg (fun h => hb h.1))
    subst hrate1
    have heq : bit_width = adev.cur_codec_backend_bit_width := not_not.mp hb
    have hr : platform_set_codec_backend_cfg adev bit_width rate =
        set_codec_backend_sample_rate adev rate := by
      unfold platform_set_codec_backend_cfg
      simp only [if_neg hb]
    have hs := set_sample_rate_status adev rate
    rw [hr]
    constructor
    · intro _ hneed
      obtain ⟨a, b, c⟩ := hs.1 (fun h => hneed (by rw [heq]; exact h))
      exact ⟨a, b.trans heq.symm, c⟩
    · rintro (h | h)
      · exact absurd h.1 hb
      · exact congrArg Prod.fst (hs.2 ⟨by rw [← heq]; exact h.1, h.2⟩)

/-- C34: `platform_set_codec_backend_cfg(bit_width, sample_rate)` needs the
control "SLIM_0_RX Format" when `bit_width` differs from the backend bit
width, and the control "SLIM_0_RX SampleRate" when, with the bit width set,
the backend runs at the default bit width but not at the default sample rate
or its sample rate is not the target rate; the target rate is the default
backend sample rate if `bit_width` differs from the previous bit width and is
not 24, and `sample_rate` otherwise. Whenever the controls it needs are
available, the function returns 0 and leaves `cur_codec_backend_bit_width`
equal to `bit_width` and `cur_codec_backend_samplerate` equal to the target
rate; when a control it needs is absent, it returns `-EINVAL`. -/
theorem set_backend_cfg_spec (adev : audio_device) (bit_width sample_rate : Nat) :
    let r := platform_set_codec_backend_cfg adev bit_width sample_rate
    let rate :=
      if bit_width ≠ adev.cur_codec_backend_bit_width ∧ bit_width ≠ 24 then
        CODEC_BACKEND_DEFAULT_SAMPLE_RATE
      else sample_rate
    let needs_format := bit_width ≠ adev.cur_codec_backend_bit_width
    let needs_rate :=
      (bit_width = CODEC_BACKEND_DEFAULT_BIT_WIDTH ∧
        adev.cur_codec_backend_samplerate ≠ CODEC_BACKEND_DEFAULT_SAMPLE_RATE) ∨
      adev.cur_codec_backend_samplerate ≠ rate
    ((needs_format → "SLIM_0_RX Format" ∈ adev.mixer.ctl_names) →
      (needs_rate → "SLIM_0_RX SampleRate" ∈ adev.mixer.ctl_names) →
      r.1 = 0 ∧ r.2.cur_codec_backend_bit_width = bit_width ∧
        r.2.cur_codec_backend_samplerate = rate) ∧
    ((needs_format ∧ "SLIM_0_RX Format" ∉ adev.mixer.ctl_names) ∨
        (needs_rate ∧ "SLIM_0_RX SampleRate" ∉ adev.mixer.ctl_names) →
      r.1 = -EINVAL) := by
  intro r rate needs_format needs_rate
  exact set_backend_cfg_status adev bit_width sample_rate rate rfl

/-- The setter on concrete states: from the default backend state (16 bit,
48000 Hz) a request for (24, 96000) with both controls gives status 0 and the
state (24, 96000); from (24, 96000) a request for (16, 96000) gives the state
(16, 48000); a request for the state the backend is in needs no control;
without the format control a change of bit width gives `-EINVAL`; and with the
format control but without the sample-rate control a request for (24, 96000)
gives `-EINVAL` after the bit width was set. -/
theorem set_backend_cfg_examples :
    (platform_set_codec_backend_cfg adev_two_streams_backend 24 96000).1 = 0 ∧
    (platform_set_codec_backend_cfg adev_two_streams_backend 24 96000).2.cur_codec_backend_bit_width =
      24 ∧
    (platform_set_codec_backend_cfg adev_two_streams_backend 24 96000).2.cur_codec_backend_samplerate =
      96000 ∧
    (platform_set_codec_backend_cfg adev_after_24bit 16 96000).2.cur_codec_backend_bit_width = 16 ∧
    (platform_set_codec_backend_cfg adev_after_24bit 16 96000).2.cur_codec_backend_samplerate =
      48000 ∧
    platform_set_codec_backend_cfg {} 16 48000 = (0, {}) ∧
    platform_set_codec_backend_cfg {} 24 48000 = (-EINVAL, {}) ∧
    (platform_set_codec_backend_cfg { mixer := { ctl_names := ["SLIM_0_RX Format"] } }
        24 96000).1 = -EINVAL ∧
    (platform_set_codec_backend_cfg { mixer := { ctl_names := ["SLIM_0_RX Format"] } }
        24 96000).2.cur_codec_backend_bit_width = 24 := by
  decide

end Msm8974
